import Mathlib

/-!
# DFRobot_LoRaWAN: the node facade and the LoRaMac handler

A shallow embedding of `src/DFRobot_LoRaWAN.cpp` and of
`src/apps/LoRaMac/common/LmHandler/LmHandler.c`.

* C statics become the fields of one record, `World`; every function is a state
  transformer over it (`Exec`).
* The MAC proper (`LoRaMac.c`) is not part of the sources read here: its API is the
  record `LoRaMac`, a parameter of every function that calls it.  Each call of the API is
  also logged in `World.trace`, so that "is called" / "is not called" can be stated.
* User callbacks (`loraJoinCb`, `rxCb`, `txCb`) and package callbacks are code outside the
  library: a call of one of them is logged with its arguments.
* Integers are `Nat`/`Int`; every narrowing C conversion is written out (`toInt8`,
  `toUint16`, `% 2 ^ 64`, ...).
* A run either returns (`Res.ret`) or stops for good (`Res.stop`): the MCU entered deep
  sleep, a NULL pointer was used, or an operation without defined behaviour was reached.
-/

namespace DFRobot

/-! ## Enumerations of `LoRaMac.h` -/

/-- LoRaMAC status, `LoRaMacStatus_t` of `mac/LoRaMac.h`. -/
inductive LoRaMacStatus_t
  | LORAMAC_STATUS_OK
  | LORAMAC_STATUS_BUSY
  | LORAMAC_STATUS_SERVICE_UNKNOWN
  | LORAMAC_STATUS_PARAMETER_INVALID
  | LORAMAC_STATUS_FREQUENCY_INVALID
  | LORAMAC_STATUS_DATARATE_INVALID
  | LORAMAC_STATUS_FREQ_AND_DR_INVALID
  | LORAMAC_STATUS_NO_NETWORK_JOINED
  | LORAMAC_STATUS_LENGTH_ERROR
  | LORAMAC_STATUS_REGION_NOT_SUPPORTED
  | LORAMAC_STATUS_SKIPPED_APP_DATA
  | LORAMAC_STATUS_DUTYCYCLE_RESTRICTED
  | LORAMAC_STATUS_NO_CHANNEL_FOUND
  | LORAMAC_STATUS_NO_FREE_CHANNEL_FOUND
  | LORAMAC_STATUS_BUSY_BEACON_RESERVED_TIME
  | LORAMAC_STATUS_BUSY_PING_SLOT_WINDOW_TIME
  | LORAMAC_STATUS_BUSY_UPLINK_COLLISION
  | LORAMAC_STATUS_CRYPTO_ERROR
  | LORAMAC_STATUS_FCNT_HANDLER_ERROR
  | LORAMAC_STATUS_MAC_COMMAD_ERROR
  | LORAMAC_STATUS_CLASS_B_ERROR
  | LORAMAC_STATUS_CONFIRM_QUEUE_ERROR
  | LORAMAC_STATUS_MC_GROUP_UNDEFINED
  | LORAMAC_STATUS_ERROR
  deriving DecidableEq, Repr

/-- Status of a MAC event, `LoRaMacEventInfoStatus_t` of `mac/LoRaMac.h`. -/
inductive LoRaMacEventInfoStatus_t
  | LORAMAC_EVENT_INFO_STATUS_OK
  | LORAMAC_EVENT_INFO_STATUS_ERROR
  | LORAMAC_EVENT_INFO_STATUS_TX_TIMEOUT
  | LORAMAC_EVENT_INFO_STATUS_RX1_TIMEOUT
  | LORAMAC_EVENT_INFO_STATUS_RX2_TIMEOUT
  | LORAMAC_EVENT_INFO_STATUS_RX1_ERROR
  | LORAMAC_EVENT_INFO_STATUS_RX2_ERROR
  | LORAMAC_EVENT_INFO_STATUS_JOIN_FAIL
  | LORAMAC_EVENT_INFO_STATUS_DOWNLINK_REPEATED
  | LORAMAC_EVENT_INFO_STATUS_TX_DR_PAYLOAD_SIZE_ERROR
  | LORAMAC_EVENT_INFO_STATUS_DOWNLINK_TOO_MANY_FRAMES_LOSS
  | LORAMAC_EVENT_INFO_STATUS_ADDRESS_FAIL
  | LORAMAC_EVENT_INFO_STATUS_MIC_FAIL
  | LORAMAC_EVENT_INFO_STATUS_MULTICAST_FAIL
  | LORAMAC_EVENT_INFO_STATUS_BEACON_LOCKED
  | LORAMAC_EVENT_INFO_STATUS_BEACON_LOST
  | LORAMAC_EVENT_INFO_STATUS_BEACON_NOT_FOUND
  deriving DecidableEq, Repr

/-- End-device activation type, `ActivationType_t` of `mac/LoRaMac.h`. -/
inductive ActivationType_t
  | ACTIVATION_TYPE_NONE
  | ACTIVATION_TYPE_ABP
  | ACTIVATION_TYPE_OTAA
  deriving DecidableEq, Repr

/-- Receive window, `LoRaMacRxSlot_t` of `mac/LoRaMac.h`. -/
inductive LoRaMacRxSlot_t
  | RX_SLOT_WIN_1
  | RX_SLOT_WIN_2
  | RX_SLOT_WIN_CLASS_C
  | RX_SLOT_WIN_CLASS_C_MULTICAST
  | RX_SLOT_WIN_CLASS_B_PING_SLOT
  | RX_SLOT_WIN_CLASS_B_MULTICAST_SLOT
  | RX_SLOT_NONE
  deriving DecidableEq, Repr

/-- Numeric value of a receive window (C enumerators count from 0). -/
def LoRaMacRxSlot_t.toInt : LoRaMacRxSlot_t → Int
  | .RX_SLOT_WIN_1 => 0
  | .RX_SLOT_WIN_2 => 1
  | .RX_SLOT_WIN_CLASS_C => 2
  | .RX_SLOT_WIN_CLASS_C_MULTICAST => 3
  | .RX_SLOT_WIN_CLASS_B_PING_SLOT => 4
  | .RX_SLOT_WIN_CLASS_B_MULTICAST_SLOT => 5
  | .RX_SLOT_NONE => 6

/-- Region, `LoRaMacRegion_t` of `mac/LoRaMac.h`. -/
inductive LoRaMacRegion_t
  | LORAMAC_REGION_AS923
  | LORAMAC_REGION_AU915
  | LORAMAC_REGION_CN470
  | LORAMAC_REGION_CN779
  | LORAMAC_REGION_EU433
  | LORAMAC_REGION_EU868
  | LORAMAC_REGION_KR920
  | LORAMAC_REGION_IN865
  | LORAMAC_REGION_US915
  | LORAMAC_REGION_RU864
  deriving DecidableEq, Repr

/-- MCPS service, `Mcps_t` of `mac/LoRaMac.h`. -/
inductive Mcps_t
  | MCPS_UNCONFIRMED
  | MCPS_CONFIRMED
  | MCPS_MULTICAST
  | MCPS_PROPRIETARY
  deriving DecidableEq, Repr

/-- MLME service, `Mlme_t` of `mac/LoRaMac.h`. -/
inductive Mlme_t
  | MLME_UNKNOWN
  | MLME_JOIN
  | MLME_REJOIN_0
  | MLME_REJOIN_1
  | MLME_LINK_CHECK
  | MLME_TXCW
  | MLME_TXCW_1
  | MLME_SCHEDULE_UPLINK
  | MLME_DERIVE_MC_KE_KEY
  | MLME_DERIVE_MC_KEY_PAIR
  | MLME_DEVICE_TIME
  | MLME_BEACON
  | MLME_BEACON_ACQUISITION
  | MLME_PING_SLOT_INFO
  | MLME_BEACON_TIMING
  | MLME_BEACON_LOST
  deriving DecidableEq, Repr

/-- Device class.  `DeviceClass_t` is declared in `LoRaMacTypes.h`, which is not among the
sources; the three classes are the ones `LmHandler.c` switches on. -/
inductive DeviceClass_t
  | CLASS_A
  | CLASS_B
  | CLASS_C
  deriving DecidableEq, Repr

/-- MIB attributes read by the embedded functions (`Mib_t` of `mac/LoRaMac.h`). -/
inductive Mib_t
  | MIB_DEVICE_CLASS
  | MIB_NETWORK_ACTIVATION
  | MIB_DEV_ADDR
  | MIB_CHANNELS_DATARATE
  | MIB_DEV_EUI
  | MIB_JOIN_EUI
  | MIB_SE_PIN
  | MIB_NVM_CTXS
  | MIB_CHANNELS_TX_POWER
  deriving DecidableEq, Repr

/-- A MIB set request: the attribute with the value stored in `mibReq.Param`. -/
inductive MibSet_t
  | MIB_DEVICE_CLASS (Class : DeviceClass_t)
  | MIB_NETWORK_ACTIVATION (NetworkActivation : ActivationType_t)
  | MIB_CHANNELS_DATARATE (ChannelsDatarate : Int)
  | MIB_PUBLIC_NETWORK (EnablePublicNetwork : Bool)
  | MIB_ADR (AdrEnable : Bool)
  | MIB_DEV_EUI (DevEui : Nat)
  | MIB_JOIN_EUI (JoinEui : Nat)
  | MIB_NWK_KEY (AppKey : Nat)
  | MIB_DEV_ADDR (DevAddr : Nat)
  | MIB_APP_S_KEY (AppSKey : Nat)
  | MIB_F_NWK_S_INT_KEY (FNwkSIntKey : Nat)
  | MIB_S_NWK_S_INT_KEY (SNwkSIntKey : Nat)
  | MIB_NWK_S_ENC_KEY (NwkSEncKey : Nat)
  | MIB_ANTENNA_GAIN (AntennaGain : Nat)
  | MIB_CHANNELS_TX_POWER (ChannelsTxPower : Option Nat)
  | MIB_CHANNELS_DEFAULT_TX_POWER (ChannelsDefaultTxPower : Nat)
  | MIB_CHANNELS_NB_TRANS (ChannelsNbTrans : Nat)
  deriving DecidableEq, Repr

/-! ## Types of `LmHandlerTypes.h` and `LmHandler.h` -/

/-- Handler status.  `LmHandlerErrorStatus_t` is declared in `LmHandlerTypes.h`, which is
not among the sources; `LmHandler.c` uses these two values. -/
inductive LmHandlerErrorStatus_t
  | LORAMAC_HANDLER_ERROR
  | LORAMAC_HANDLER_SUCCESS
  deriving DecidableEq, Repr

/-- Flag status (`LmHandlerTypes.h`, not among the sources). -/
inductive LmHandlerFlagStatus_t
  | LORAMAC_HANDLER_RESET
  | LORAMAC_HANDLER_SET
  deriving DecidableEq, Repr

/-- Message type (`LmHandlerTypes.h`, not among the sources). -/
inductive LmHandlerMsgTypes_t
  | LORAMAC_HANDLER_UNCONFIRMED_MSG
  | LORAMAC_HANDLER_CONFIRMED_MSG
  deriving DecidableEq, Repr

/-- MCU operating mode, `eMcuSleepMode_t` of `DFRobot_LoRaWAN.h`. -/
inductive eMcuSleepMode_t
  | MCU_ACTIVE
  | MCU_DEEP_SLEEP
  deriving DecidableEq, Repr

/-- Kind of a package notification, `PackageNotifyTypes_t` of `LmHandler.c`. -/
inductive PackageNotifyTypes_t
  | PACKAGE_MCPS_CONFIRM
  | PACKAGE_MCPS_INDICATION
  | PACKAGE_MLME_CONFIRM
  | PACKAGE_MLME_INDICATION
  deriving DecidableEq, Repr

/-- The null pointer; a pointer is the number of the object it points to. -/
def NULL : Nat := 0

/-- Datarate index `DR_0`. -/
def DR_0 : Int := 0

/-- Conversion to `int8_t` (two's complement wrap, as gcc defines it). -/
def toInt8 (x : Int) : Int := (x + 128) % 256 - 128

/-- Conversion to `uint8_t`. -/
def toUint8 (x : Nat) : Nat := x % 256

/-- Conversion to `uint16_t`. -/
def toUint16 (x : Nat) : Nat := x % 65536

/-- Conversion to `uint64_t`. -/
def toUint64 (x : Nat) : Nat := x % 2 ^ 64

/-- Application data, `LmHandlerAppData_t` (`LmHandlerTypes.h`, not among the sources;
the three fields are the ones `LmHandler.c` and `OnRxData` use). -/
structure LmHandlerAppData_t where
  Port : Nat
  BufferSize : Nat
  Buffer : Nat
  deriving DecidableEq, Repr

/-- An MCPS request, `McpsReq_t` (`Type_` is the field `Type`).  `Req` is a union whose members `Unconfirmed` and
`Confirmed` begin with the same four fields.  The request is a local variable without
initialiser: a field the function never assigns is `none`. -/
structure McpsReq_t where
  Type_ : Mcps_t
  fPort : Option Nat
  fBuffer : Nat
  fBufferSize : Nat
  Datarate : Int
  NbTrials : Option Nat
  deriving DecidableEq, Repr

/-- An MLME request, `MlmeReq_t`: the type, `Req.Join.Datarate` and
`Req.PingSlotInfo.PingSlot.Fields.Periodicity` (`none` when not assigned). -/
structure MlmeReq_t where
  Type_ : Mlme_t
  Datarate : Option Int
  Periodicity : Option Nat
  deriving DecidableEq, Repr

/-- An MCPS indication, `McpsIndication_t` of `mac/LoRaMac.h`. -/
structure McpsIndication_t where
  McpsIndication : Mcps_t
  Status : LoRaMacEventInfoStatus_t
  Multicast : Nat
  Port : Nat
  RxDatarate : Nat
  FramePending : Nat
  Buffer : Nat
  BufferSize : Nat
  RxData : Bool
  Rssi : Int
  Snr : Int
  RxSlot : LoRaMacRxSlot_t
  AckReceived : Bool
  DownLinkCounter : Nat
  DevAddress : Nat
  DeviceTimeAnsReceived : Bool
  deriving DecidableEq, Repr

/-- An MCPS confirm, `McpsConfirm_t` of `mac/LoRaMac.h`. -/
structure McpsConfirm_t where
  McpsRequest : Mcps_t
  Status : LoRaMacEventInfoStatus_t
  Datarate : Nat
  TxPower : Int
  AckReceived : Bool
  NbRetries : Nat
  TxTimeOnAir : Nat
  UpLinkCounter : Nat
  Channel : Nat
  deriving DecidableEq, Repr

/-- An MLME confirm, `MlmeConfirm_t` of `mac/LoRaMac.h`. -/
structure MlmeConfirm_t where
  MlmeRequest : Mlme_t
  Status : LoRaMacEventInfoStatus_t
  TxTimeOnAir : Nat
  DemodMargin : Nat
  NbGateways : Nat
  NbRetries : Nat
  BeaconTimingDelay : Nat
  BeaconTimingChannel : Nat
  deriving DecidableEq, Repr

/-- Beacon information, `BeaconInfo_t` of `mac/LoRaMac.h`. -/
structure BeaconInfo_t where
  Time_Seconds : Nat
  Time_SubSeconds : Int
  Frequency : Nat
  Datarate : Nat
  Rssi : Int
  Snr : Int
  GwSpecific_InfoDesc : Nat
  GwSpecific_Info : List Nat
  deriving DecidableEq, Repr

/-- An MLME indication, `MlmeIndication_t` of `mac/LoRaMac.h`. -/
structure MlmeIndication_t where
  MlmeIndication : Mlme_t
  Status : LoRaMacEventInfoStatus_t
  BeaconInfo : BeaconInfo_t
  deriving DecidableEq, Repr

/-- Beacon state of the handler, `LmHandlerBeaconState_t` (`LmHandlerTypes.h` is not among
the sources; the four states are the ones `LmHandler.c` stores). -/
inductive LmHandlerBeaconState_t
  | LORAMAC_HANDLER_BEACON_ACQUIRING
  | LORAMAC_HANDLER_BEACON_LOST
  | LORAMAC_HANDLER_BEACON_RX
  | LORAMAC_HANDLER_BEACON_NRX
  deriving DecidableEq, Repr

/-- Beacon notification, `LoRaMAcHandlerBeaconParams_t` of `LmHandler.h`; its `Status`
field, which nothing writes, is left out. -/
structure LoRaMAcHandlerBeaconParams_t where
  State : LmHandlerBeaconState_t
  Info : BeaconInfo_t
  deriving DecidableEq, Repr

/-- Commissioning parameters (`Commissioning.h` is not among the sources): the two fields
the embedded functions read or write. -/
structure CommissioningParams_t where
  IsOtaaActivation : Bool
  DevAddr : Nat
  DevEui : Nat := 0
  JoinEui : Nat := 0
  SePin : Nat := 0
  deriving DecidableEq, Repr

/-- Join notification, `LmHandlerJoinParams_t`.  Its `CommissioningParams` pointer always
holds `&CommissioningParams`, so the pointee is read from the `World`. -/
structure LmHandlerJoinParams_t where
  Datarate : Int
  Status : LmHandlerErrorStatus_t
  deriving DecidableEq, Repr

/-- Transmit notification, `LmHandlerTxParams_t` (pointer field as in
`LmHandlerJoinParams_t`). -/
structure LmHandlerTxParams_t where
  IsMcpsConfirm : Nat
  Status : LoRaMacEventInfoStatus_t
  MsgType : LmHandlerMsgTypes_t
  AckReceived : Nat
  Datarate : Int
  UplinkCounter : Nat
  AppData : LmHandlerAppData_t
  TxPower : Int
  Channel : Nat
  deriving DecidableEq, Repr

/-- Receive notification, `LmHandlerRxParams_t`: `Datarate`, `Rssi`, `Snr` and `RxSlot`
are `int8_t`, `DownlinkCounter` is `uint32_t`. -/
structure LmHandlerRxParams_t where
  IsMcpsIndication : Nat
  Status : LoRaMacEventInfoStatus_t
  Datarate : Int
  Rssi : Int
  Snr : Int
  DownlinkCounter : Nat
  RxSlot : Int
  IsRevACK : Bool
  deriving DecidableEq, Repr

/-- Handler parameters, `LmHandlerParams_t`: the fields the embedded functions use. -/
structure LmHandlerParams_t where
  Region : LoRaMacRegion_t
  TxDatarate : Int
  TxEirp : Nat
  joinType : ActivationType_t
  NbTrials : Nat
  Class : DeviceClass_t
  AdrEnable : Bool := false
  PublicNetworkEnable : Bool := true
  DutyCycleEnabled : Bool := false
  DevEui : Nat := 0
  JoinEui : Nat := 0
  AppKey : Nat := 0
  DevAddr : Nat := 0
  AppSKey : Nat := 0
  NwkSKey : Nat := 0
  deriving DecidableEq, Repr

/-- A registered package (`LmhPackage_t` of `packages/LmhPackage.h`, not among the
sources): its port, what `IsRunning()` answers, and which of the notification callbacks
are not NULL. -/
structure LmhPackage_t where
  Port : Nat
  IsRunning : Bool
  OnMcpsConfirmProcess : Bool
  OnMcpsIndicationProcess : Bool
  OnMlmeConfirmProcess : Bool
  OnMlmeIndicationProcess : Bool
  deriving DecidableEq, Repr

/-- Slot of the compliance package in `LmHandlerPackages` (`packages/LmhpCompliance.h` is
not among the sources; no theorem depends on the number). -/
def PACKAGE_ID_COMPLIANCE : Nat := 0

/-! ## Observable calls -/

/-- One logged call: into the MAC, through a slot of the handler's callback table (logged
on entry of the callback, `OnJoinRequest` with the `IsOtaaActivation` its
`params->CommissioningParams` shows), into a user or package callback, or into the ESP32
sleep API. -/
inductive Event
  | LoRaMacMibGetRequestConfirm (type : Mib_t)
  | LoRaMacMibSetRequestConfirm (req : MibSet_t)
  | LoRaMacQueryTxPossible (size : Nat)
  | LoRaMacMcpsRequest (req : McpsReq_t)
  | LoRaMacMlmeRequest (req : MlmeReq_t)
  | OnMacMcpsRequest (status : LoRaMacStatus_t) (mcpsReq : McpsReq_t)
  | OnMacMlmeRequest (status : LoRaMacStatus_t) (mlmeReq : MlmeReq_t)
  | OnJoinRequest (params : LmHandlerJoinParams_t) (IsOtaaActivation : Bool)
  | OnTxData (params : LmHandlerTxParams_t)
  | OnRxData (appData : Option LmHandlerAppData_t) (params : LmHandlerRxParams_t)
  | OnClassChange (deviceClass : DeviceClass_t)
  | loraJoinCb (isOk : Bool) (rssi snr : Int)
  | rxCb (buffer size port : Nat) (rssi snr : Int) (ackReceived : Bool)
      (uplinkCounter downlinkCounter : Nat)
  | txCb (isconfirm : Bool) (datarate : Int) (TxEirp : Int) (Channel : Nat)
  | packageNotify (slot : Nat) (notifyType : PackageNotifyTypes_t)
  | esp_sleep_enable_timer_wakeup (time_in_us : Nat)
  | esp_deep_sleep_start
  | xSemaphoreGive_loraStateSem
  | LoRaMacIsBusy
  | LoRaMacInitialization (region : LoRaMacRegion_t)
  | LoRaMacTestSetDutyCycleOn (enable : Bool)
  | LoRaMacStart
  | OnNetworkParametersChange (params : CommissioningParams_t)
  | SX126xIOInit
  | taskLoad
  | lowPowerTask
  | Radio_Standby
  | Radio_Sleep
  | pinMode_LORA_SS_OUTPUT
  | digitalWrite_LORA_SS_HIGH
  | rtc_gpio_hold_en_LORA_SS
  deriving DecidableEq, Repr

/-- The part of the MAC's non-volatile context (`LoRaMacNvmData_t`) that `setSubBand`
reaches through the pointer a `MIB_NVM_CTXS` get returns: the region and the three channel
masks, each a list of 16-bit words. -/
structure LoRaMacNvmData_t where
  Region : LoRaMacRegion_t
  ChannelsDefaultMask : List Nat
  ChannelsMask : List Nat
  ChannelsMaskRemaining : List Nat
  deriving DecidableEq, Repr

/-- The API of the MAC (`LoRaMac.c`) over an abstract MAC state `σ`.  A getter gives the
value the MAC stores in `mibReq.Param`; `MibGetStatus` is the status the get returns.
`Nvm` is the object behind the pointer a `MIB_NVM_CTXS` get stores and `SetNvm` a write
through that pointer; `RegionCommonChanMaskCopy dst src len` (of `RegionCommon.c`) gives
the new content of the destination mask. -/
structure LoRaMac (σ : Type) where
  MibGetStatus : Mib_t → σ → LoRaMacStatus_t
  NetworkActivation : σ → ActivationType_t
  ChannelsDatarate : σ → Int
  Class : σ → DeviceClass_t
  DevAddr : σ → Nat
  MibSet : MibSet_t → σ → LoRaMacStatus_t × σ
  QueryTxPossible : Nat → σ → LoRaMacStatus_t
  McpsRequest : McpsReq_t → σ → LoRaMacStatus_t × σ
  MlmeRequest : MlmeReq_t → σ → LoRaMacStatus_t × σ
  GetUplinkCounter : σ → Nat
  McLastDataRssi : σ → Int
  McLastDataSnr : σ → Int
  IsBusy : σ → Bool
  Initialization : LoRaMacRegion_t → σ → LoRaMacStatus_t × σ
  TestSetDutyCycleOn : Bool → σ → σ
  Start : σ → LoRaMacStatus_t × σ
  DevEui : σ → Nat
  JoinEui : σ → Nat
  SePin : σ → Nat
  Nvm : σ → LoRaMacNvmData_t
  SetNvm : LoRaMacNvmData_t → σ → σ
  RegionCommonChanMaskCopy : List Nat → List Nat → Nat → List Nat
  ChannelsTxPower : σ → Int

/-- The statics of `LmHandler.c` and of `DFRobot_LoRaWAN.cpp`, the MAC state and the log of
calls (oldest first).  A callback variable holds `true` when it is not NULL. -/
structure World (σ : Type) where
  mac : σ
  trace : List Event
  CommissioningParams : CommissioningParams_t
  LmHandlerPackages : List (Option LmhPackage_t)
  LmHandlerParams : LmHandlerParams_t
  JoinParams : LmHandlerJoinParams_t
  TxParams : LmHandlerTxParams_t
  RxParams : LmHandlerRxParams_t
  IsClassBSwitchPending : Bool
  loraJoinCb : Bool
  rxCb : Bool
  txCb : Bool
  CurReJoinTimes : Nat
  mcusleepmode : eMcuSleepMode_t
  BeaconParams : LoRaMAcHandlerBeaconParams_t :=
    { State := .LORAMAC_HANDLER_BEACON_ACQUIRING,
      Info := { Time_Seconds := 0, Time_SubSeconds := 0, Frequency := 0, Datarate := 0,
                Rssi := 0, Snr := 0, GwSpecific_InfoDesc := 0,
                GwSpecific_Info := [0, 0, 0, 0, 0, 0] } }
  deriving DecidableEq, Repr

/-- Why a run does not return to its caller. -/
inductive Stop
  | deepSleep
  | nullPointer
  | undefinedBehaviour
  deriving DecidableEq, Repr

/-- Outcome of a run: a return value with the final state, or a stop. -/
inductive Res (σ α : Type) where
  | ret (a : α) (w : World σ)
  | stop (why : Stop) (w : World σ)
  deriving DecidableEq, Repr

/-- The state reached, however the run ended. -/
def Res.world {σ α : Type} : Res σ α → World σ
  | .ret _ w => w
  | .stop _ w => w

/-- The value returned, if the run returned. -/
def Res.value {σ α : Type} : Res σ α → Option α
  | .ret a _ => some a
  | .stop _ _ => none

/-- A C function over the statics. -/
abbrev Exec (σ α : Type) := World σ → Res σ α

/-- Return. -/
def Exec.pure {σ α : Type} (a : α) : Exec σ α := fun w => .ret a w

/-- Sequencing: a stop ends the run. -/
def Exec.bind {σ α β : Type} (m : Exec σ α) (f : α → Exec σ β) : Exec σ β := fun w =>
  match m w with
  | .ret a w1 => f a w1
  | .stop why w1 => .stop why w1

instance {σ : Type} : Monad (Exec σ) where
  pure := Exec.pure
  bind := Exec.bind

/-- Read the statics. -/
def getWorld {σ : Type} : Exec σ (World σ) := fun w => .ret w w

/-- Write the statics. -/
def modifyWorld {σ : Type} (f : World σ → World σ) : Exec σ Unit := fun w => .ret () (f w)

/-- Log a call. -/
def emit {σ : Type} (e : Event) : Exec σ Unit :=
  fun w => .ret () { w with trace := w.trace ++ [e] }

/-- Stop for good. -/
def halt {σ α : Type} (why : Stop) : Exec σ α := fun w => .stop why w

/-! ## Calls into the MAC -/

/-- The call `LoRaMacMibGetRequestConfirm(&mibReq)` with `mibReq.Type = type`; the value stored in
`mibReq.Param` is read with the matching getter of `mac`. -/
def LoRaMacMibGetRequestConfirm {σ : Type} (mac : LoRaMac σ) (type : Mib_t) :
    Exec σ LoRaMacStatus_t := fun w =>
  .ret (mac.MibGetStatus type w.mac)
    { w with trace := w.trace ++ [.LoRaMacMibGetRequestConfirm type] }

/-- The call `LoRaMacMibSetRequestConfirm(&mibReq)`. -/
def LoRaMacMibSetRequestConfirm {σ : Type} (mac : LoRaMac σ) (req : MibSet_t) :
    Exec σ LoRaMacStatus_t := fun w =>
  .ret (mac.MibSet req w.mac).1
    { w with mac := (mac.MibSet req w.mac).2,
             trace := w.trace ++ [.LoRaMacMibSetRequestConfirm req] }

/-- The call `LoRaMacQueryTxPossible(size, &txInfo)`. -/
def LoRaMacQueryTxPossible {σ : Type} (mac : LoRaMac σ) (size : Nat) :
    Exec σ LoRaMacStatus_t := fun w =>
  .ret (mac.QueryTxPossible size w.mac)
    { w with trace := w.trace ++ [.LoRaMacQueryTxPossible size] }

/-- The call `LoRaMacMcpsRequest(&mcpsReq)`. -/
def LoRaMacMcpsRequest {σ : Type} (mac : LoRaMac σ) (req : McpsReq_t) :
    Exec σ LoRaMacStatus_t := fun w =>
  .ret (mac.McpsRequest req w.mac).1
    { w with mac := (mac.McpsRequest req w.mac).2,
             trace := w.trace ++ [.LoRaMacMcpsRequest req] }

/-- The call `LoRaMacMlmeRequest(&mlmeReq)`. -/
def LoRaMacMlmeRequest {σ : Type} (mac : LoRaMac σ) (req : MlmeReq_t) :
    Exec σ LoRaMacStatus_t := fun w =>
  .ret (mac.MlmeRequest req w.mac).1
    { w with mac := (mac.MlmeRequest req w.mac).2,
             trace := w.trace ++ [.LoRaMacMlmeRequest req] }

/-! ## `DFRobot_LoRaWAN.cpp`: callbacks registered with the handler -/

/-- Function `startDeepSleep`: the radio pins are set up, the radio is put to sleep, the
`LORA_SS` pin is latched high and `esp_deep_sleep_start()` is called, which does not
return.  Each of the calls is logged. -/
def startDeepSleep {σ : Type} : Exec σ Unit := do
  emit .SX126xIOInit
  emit .Radio_Standby
  emit .Radio_Sleep
  emit .pinMode_LORA_SS_OUTPUT
  emit .digitalWrite_LORA_SS_HIGH
  emit .rtc_gpio_hold_en_LORA_SS
  emit .esp_deep_sleep_start
  halt .deepSleep

/-- The two lines that compute `backoff_time_ms` in `OnMacMlmeRequest` and `OnJoinRequest`:
`5000 * (1ULL << (CurReJoinTimes - 1))` in `uint64_t`, then the cap at 300000.  The shift
count is the `int` `CurReJoinTimes - 1`; a count below 0 or above 63 has no defined
result (`none`). -/
def backoff_time_ms (CurReJoinTimes : Nat) : Option Nat :=
  if 1 ≤ CurReJoinTimes ∧ CurReJoinTimes - 1 < 64 then
    let backoff := toUint64 (5000 * toUint64 (2 ^ (CurReJoinTimes - 1)))
    some (if backoff > 300000 then 300000 else backoff)
  else
    none

/-- The evaluation of `backoff_time_ms` on the current `CurReJoinTimes`; a shift without
defined result ends the run. -/
def eval_backoff_time_ms {σ : Type} : Exec σ Nat := fun w =>
  match backoff_time_ms w.CurReJoinTimes with
  | none => .stop .undefinedBehaviour w
  | some backoff => .ret backoff w

/-- Function `OnMacMcpsRequest`: the body is empty (the call itself is logged). -/
def OnMacMcpsRequest {σ : Type} (status : LoRaMacStatus_t) (mcpsReq : McpsReq_t) :
    Exec σ Unit :=
  emit (.OnMacMcpsRequest status mcpsReq)

/-- Function `OnMacMlmeRequest`. -/
def OnMacMlmeRequest {σ : Type} (status : LoRaMacStatus_t) (mlmeReq : MlmeReq_t) :
    Exec σ Unit := do
  emit (.OnMacMlmeRequest status mlmeReq)
  if mlmeReq.Type_ = .MLME_JOIN then
    if status ≠ .LORAMAC_STATUS_OK then
      if (← getWorld).loraJoinCb then
        modifyWorld fun w => { w with CurReJoinTimes := toUint8 (w.CurReJoinTimes + 1) }
        emit (.loraJoinCb false 0 0)
        if (← getWorld).mcusleepmode = .MCU_DEEP_SLEEP then
          let backoff ← eval_backoff_time_ms
          emit (.esp_sleep_enable_timer_wakeup (toUint64 (backoff * 1000)))
          startDeepSleep

/-- Function `OnJoinRequest`.  `params->CommissioningParams` is `&CommissioningParams`. -/
def OnJoinRequest {σ : Type} (mac : LoRaMac σ) (params : LmHandlerJoinParams_t) :
    Exec σ Unit := do
  emit (.OnJoinRequest params (← getWorld).CommissioningParams.IsOtaaActivation)
  let _ ← LoRaMacMibSetRequestConfirm mac
    (.MIB_CHANNELS_DATARATE (← getWorld).LmHandlerParams.TxDatarate)
  let rssi := mac.McLastDataRssi (← getWorld).mac
  let snr := mac.McLastDataSnr (← getWorld).mac
  if (← getWorld).CommissioningParams.IsOtaaActivation = true then
    if params.Status = .LORAMAC_HANDLER_SUCCESS then
      if (← getWorld).loraJoinCb then
        modifyWorld fun w => { w with CurReJoinTimes := 0 }
        emit (.loraJoinCb true rssi snr)
    else
      if (← getWorld).loraJoinCb then
        modifyWorld fun w => { w with CurReJoinTimes := toUint8 (w.CurReJoinTimes + 1) }
        emit (.loraJoinCb false rssi snr)
        if (← getWorld).mcusleepmode = .MCU_DEEP_SLEEP then
          let backoff ← eval_backoff_time_ms
          emit (.esp_sleep_enable_timer_wakeup (toUint64 (backoff * 1000)))
          startDeepSleep
  else
    if (← getWorld).loraJoinCb then
      modifyWorld fun w => { w with CurReJoinTimes := 0 }
      emit (.loraJoinCb true rssi snr)

/-- Rows of `txpowerEirpEU868`: TX power index and EIRP. -/
def txpowerEirpEU868 : List (Nat × Nat) :=
  [(0, 16), (1, 14), (2, 12), (3, 10), (4, 8), (5, 6), (6, 4), (7, 2)]

/-- Rows of `txpowerEirpUS915`: TX power index and EIRP. -/
def txpowerEirpUS915 : List (Nat × Nat) :=
  [(4, 22), (5, 20), (6, 18), (7, 16), (8, 14), (9, 12), (10, 10), (11, 8), (12, 6),
   (13, 4), (14, 2)]

/-- Cell `[i][1]` of a table; `none` when the row does not exist. -/
def tableEirp (table : List (Nat × Nat)) (i : Int) : Option Nat :=
  if 0 ≤ i then (table.get? i.toNat).map Prod.snd else none

/-- The `txeirp` that `OnTxData` and `getTxEirp` compute from a TX power index.  The build
flag `REGION_EU868` / `REGION_US915` / `REGION_CN470` is the one that also sets
`LmHandlerParams.Region`. -/
def txeirpOf (region : LoRaMacRegion_t) (TxPower : Int) : Option Nat :=
  match region with
  | .LORAMAC_REGION_EU868 => tableEirp txpowerEirpEU868 TxPower
  | .LORAMAC_REGION_US915 => tableEirp txpowerEirpUS915 ((if TxPower < 4 then 4 else TxPower) - 4)
  | _ => some 0

/-- The table read of `OnTxData`; a read outside the table has no defined result and ends
the run. -/
def eval_txeirp {σ : Type} (TxPower : Int) : Exec σ Nat := fun w =>
  match txeirpOf w.LmHandlerParams.Region TxPower with
  | none => .stop .undefinedBehaviour w
  | some txeirp => .ret txeirp w

/-- Function `OnTxData` (`params` is `&TxParams`, never NULL). -/
def OnTxData {σ : Type} (params : LmHandlerTxParams_t) : Exec σ Unit := do
  emit (.OnTxData params)
  if (← getWorld).txCb then
    let txeirp ← eval_txeirp params.TxPower
    emit (.txCb (params.AckReceived ≠ 0) params.Datarate (toInt8 txeirp) params.Channel)

/-- Function `OnRxData`; `appData` is `none` for a NULL pointer. -/
def OnRxData {σ : Type} (mac : LoRaMac σ) (appData : Option LmHandlerAppData_t)
    (params : LmHandlerRxParams_t) : Exec σ Unit := do
  emit (.OnRxData appData params)
  if (← getWorld).rxCb then
    let uplinkcount := toUint16 (mac.GetUplinkCounter (← getWorld).mac)
    if let some appData := appData then
      emit (.rxCb appData.Buffer appData.BufferSize appData.Port params.Rssi params.Snr
        params.IsRevACK uplinkcount (toUint16 params.DownlinkCounter))

/-- Function `OnClassChange`: the body is empty (the call itself is logged). -/
def OnClassChange {σ : Type} (deviceClass : DeviceClass_t) : Exec σ Unit :=
  emit (.OnClassChange deviceClass)

/-! ## `LmHandler.c`

`LmHandlerCallbacks` points to the table of `DFRobot_LoRaWAN.cpp`, the only one in the
repository: a call through a slot of the table is a call of the function stored there. -/

/-- Function `LmHandlerJoinRequest`. -/
def LmHandlerJoinRequest {σ : Type} (mac : LoRaMac σ) (isOtaa : Bool) : Exec σ Unit := do
  if isOtaa = true then
    let mlmeReq : MlmeReq_t := { Type_ := .MLME_JOIN, Datarate := some DR_0, Periodicity := none }
    modifyWorld fun w =>
      { w with CommissioningParams := { w.CommissioningParams with IsOtaaActivation := true } }
    let status ← LoRaMacMlmeRequest mac mlmeReq
    OnMacMlmeRequest status mlmeReq
  else
    modifyWorld fun w =>
      { w with CommissioningParams := { w.CommissioningParams with IsOtaaActivation := false } }
    let joinParams : LmHandlerJoinParams_t :=
      { Datarate := (← getWorld).LmHandlerParams.TxDatarate, Status := .LORAMAC_HANDLER_SUCCESS }
    let _ ← LoRaMacMibSetRequestConfirm mac (.MIB_NETWORK_ACTIVATION .ACTIVATION_TYPE_ABP)
    OnJoinRequest mac joinParams

/-- Function `LmHandlerJoin`. -/
def LmHandlerJoin {σ : Type} (mac : LoRaMac σ) : Exec σ Unit := do
  if (← getWorld).LmHandlerParams.joinType = .ACTIVATION_TYPE_OTAA then
    LmHandlerJoinRequest mac true
  else if (← getWorld).LmHandlerParams.joinType = .ACTIVATION_TYPE_ABP then
    LmHandlerJoinRequest mac false

/-- Function `LmHandlerJoinStatus`. -/
def LmHandlerJoinStatus {σ : Type} (mac : LoRaMac σ) : Exec σ LmHandlerFlagStatus_t := do
  let status ← LoRaMacMibGetRequestConfirm mac .MIB_NETWORK_ACTIVATION
  if status = .LORAMAC_STATUS_OK then
    if mac.NetworkActivation (← getWorld).mac = .ACTIVATION_TYPE_NONE then
      return .LORAMAC_HANDLER_RESET
    else
      return .LORAMAC_HANDLER_SET
  else
    return .LORAMAC_HANDLER_RESET

/-- The read `LmHandlerPackages[id]->...`: the package in slot `id`; through an empty slot
it is a NULL pointer access, which ends the run. -/
def LmHandlerPackages_at {σ : Type} (id : Nat) : Exec σ LmhPackage_t := fun w =>
  match w.LmHandlerPackages.getD id none with
  | none => .stop .nullPointer w
  | some pkg => .ret pkg w

/-- Function `LmHandlerSend`.  The compliance slot is read once, for `IsRunning()` and for
`Port`; `mcpsReq.ReqReturn.DutyCycleWaitTime`, which only `OnMacMcpsRequest` receives, is
left out. -/
def LmHandlerSend {σ : Type} (mac : LoRaMac σ) (appData : LmHandlerAppData_t)
    (isTxConfirmed : LmHandlerMsgTypes_t) : Exec σ LmHandlerErrorStatus_t := do
  if (← LmHandlerJoinStatus mac) ≠ .LORAMAC_HANDLER_SET then
    LmHandlerJoinRequest mac (← getWorld).CommissioningParams.IsOtaaActivation
    return .LORAMAC_HANDLER_ERROR
  let compliance ← LmHandlerPackages_at PACKAGE_ID_COMPLIANCE
  if compliance.IsRunning = true ∧ appData.Port ≠ compliance.Port ∧ appData.Port ≠ 0 then
    return .LORAMAC_HANDLER_ERROR
  let Datarate := (← getWorld).LmHandlerParams.TxDatarate
  let mcpsReq : McpsReq_t ←
    if (← LoRaMacQueryTxPossible mac appData.BufferSize) ≠ .LORAMAC_STATUS_OK then do
      modifyWorld fun w =>
        { w with TxParams := { w.TxParams with MsgType := .LORAMAC_HANDLER_UNCONFIRMED_MSG } }
      pure { Type_ := .MCPS_UNCONFIRMED, fPort := none, fBuffer := NULL, fBufferSize := 0,
             Datarate := Datarate, NbTrials := none }
    else do
      modifyWorld fun w => { w with TxParams := { w.TxParams with MsgType := isTxConfirmed } }
      if isTxConfirmed = .LORAMAC_HANDLER_UNCONFIRMED_MSG then
        pure { Type_ := .MCPS_UNCONFIRMED, fPort := some appData.Port,
               fBuffer := appData.Buffer, fBufferSize := appData.BufferSize,
               Datarate := Datarate, NbTrials := none }
      else
        pure { Type_ := .MCPS_CONFIRMED, fPort := some appData.Port,
               fBuffer := appData.Buffer, fBufferSize := appData.BufferSize,
               Datarate := Datarate, NbTrials := some 8 }
  modifyWorld fun w =>
    { w with TxParams := { w.TxParams with AppData := appData,
                                           Datarate := w.LmHandlerParams.TxDatarate } }
  let status ← LoRaMacMcpsRequest mac mcpsReq
  OnMacMcpsRequest status mcpsReq
  if status = .LORAMAC_STATUS_OK then
    return .LORAMAC_HANDLER_SUCCESS
  else
    return .LORAMAC_HANDLER_ERROR

/-- Function `LmHandlerDeviceTimeReq`. -/
def LmHandlerDeviceTimeReq {σ : Type} (mac : LoRaMac σ) : Exec σ LmHandlerErrorStatus_t := do
  let mlmeReq : MlmeReq_t := { Type_ := .MLME_DEVICE_TIME, Datarate := none, Periodicity := none }
  let status ← LoRaMacMlmeRequest mac mlmeReq
  OnMacMlmeRequest status mlmeReq
  if status = .LORAMAC_STATUS_OK then
    return .LORAMAC_HANDLER_SUCCESS
  else
    return .LORAMAC_HANDLER_ERROR

/-- Function `LmHandlerBeaconReq`. -/
def LmHandlerBeaconReq {σ : Type} (mac : LoRaMac σ) : Exec σ LmHandlerErrorStatus_t := do
  let mlmeReq : MlmeReq_t :=
    { Type_ := .MLME_BEACON_ACQUISITION, Datarate := none, Periodicity := none }
  let status ← LoRaMacMlmeRequest mac mlmeReq
  OnMacMlmeRequest status mlmeReq
  if status = .LORAMAC_STATUS_OK then
    return .LORAMAC_HANDLER_SUCCESS
  else
    return .LORAMAC_HANDLER_ERROR

/-- Function `LmHandlerPingSlotReq`. -/
def LmHandlerPingSlotReq {σ : Type} (mac : LoRaMac σ) (periodicity : Nat) :
    Exec σ LmHandlerErrorStatus_t := do
  let mlmeReq : MlmeReq_t :=
    { Type_ := .MLME_PING_SLOT_INFO, Datarate := none, Periodicity := some periodicity }
  let status ← LoRaMacMlmeRequest mac mlmeReq
  OnMacMlmeRequest status mlmeReq
  if status = .LORAMAC_STATUS_OK then
    LmHandlerSend mac { Buffer := NULL, BufferSize := 0, Port := 0 }
      .LORAMAC_HANDLER_UNCONFIRMED_MSG
  else
    return .LORAMAC_HANDLER_ERROR

/-- Function `LmHandlerGetCurrentClass`. -/
def LmHandlerGetCurrentClass {σ : Type} (mac : LoRaMac σ) : Exec σ DeviceClass_t := do
  let _ ← LoRaMacMibGetRequestConfirm mac .MIB_DEVICE_CLASS
  return mac.Class (← getWorld).mac

/-- Function `LmHandlerGetCurrentDatarate`. -/
def LmHandlerGetCurrentDatarate {σ : Type} (mac : LoRaMac σ) : Exec σ Int := do
  let _ ← LoRaMacMibGetRequestConfirm mac .MIB_CHANNELS_DATARATE
  return mac.ChannelsDatarate (← getWorld).mac

/-- The package callbacks that one pass of the loop of `LmHandlerPackagesNotify` calls,
from slot `i` on.  `Port` is `((McpsIndication_t *)params)->Port`, read only for
`PACKAGE_MCPS_INDICATION`. -/
def packageCalls (notifyType : PackageNotifyTypes_t) (Port : Nat) :
    List (Option LmhPackage_t) → Nat → List Event
  | [], _ => []
  | none :: rest, i => packageCalls notifyType Port rest (i + 1)
  | some pkg :: rest, i =>
    let called : Bool :=
      match notifyType with
      | .PACKAGE_MCPS_CONFIRM => pkg.OnMcpsConfirmProcess
      | .PACKAGE_MCPS_INDICATION => pkg.OnMcpsIndicationProcess && pkg.Port == Port
      | .PACKAGE_MLME_CONFIRM => pkg.OnMlmeConfirmProcess
      | .PACKAGE_MLME_INDICATION => pkg.OnMlmeIndicationProcess
    (if called then [Event.packageNotify i notifyType] else [])
      ++ packageCalls notifyType Port rest (i + 1)

/-- Function `LmHandlerPackagesNotify`; `LmHandlerPackages` has `PKG_MAX_NUMBER` slots. -/
def LmHandlerPackagesNotify {σ : Type} (notifyType : PackageNotifyTypes_t) (Port : Nat) :
    Exec σ Unit := fun w =>
  .ret () { w with trace := w.trace ++ packageCalls notifyType Port w.LmHandlerPackages 0 }

/-- Function `McpsIndication`.  The slot `OnSysTimeUpdate` of the callback table is NULL. -/
def McpsIndication {σ : Type} (mac : LoRaMac σ) (mcpsIndication : McpsIndication_t) :
    Exec σ Unit := do
  modifyWorld fun w =>
    { w with RxParams := { w.RxParams with IsMcpsIndication := 1,
                                           Status := mcpsIndication.Status } }
  if (← getWorld).RxParams.Status ≠ .LORAMAC_EVENT_INFO_STATUS_OK then
    return
  modifyWorld fun w =>
    { w with RxParams := { w.RxParams with
        Datarate := toInt8 mcpsIndication.RxDatarate,
        Rssi := toInt8 mcpsIndication.Rssi,
        Snr := mcpsIndication.Snr,
        DownlinkCounter := mcpsIndication.DownLinkCounter,
        RxSlot := toInt8 mcpsIndication.RxSlot.toInt,
        IsRevACK := mcpsIndication.AckReceived } }
  let appData : LmHandlerAppData_t :=
    { Port := mcpsIndication.Port, BufferSize := mcpsIndication.BufferSize,
      Buffer := mcpsIndication.Buffer }
  OnRxData mac (some appData) (← getWorld).RxParams
  if mcpsIndication.DeviceTimeAnsReceived = true then
    halt .nullPointer
  LmHandlerPackagesNotify .PACKAGE_MCPS_INDICATION mcpsIndication.Port
  if mcpsIndication.FramePending = 1 then
    if (← LmHandlerGetCurrentClass mac) = .CLASS_A then
      let _ ← LmHandlerSend mac { Buffer := NULL, BufferSize := 0, Port := 0 }
        .LORAMAC_HANDLER_UNCONFIRMED_MSG

/-- Function `MlmeConfirm`. -/
def MlmeConfirm {σ : Type} (mac : LoRaMac σ) (mlmeConfirm : MlmeConfirm_t) : Exec σ Unit := do
  modifyWorld fun w =>
    { w with TxParams := { w.TxParams with IsMcpsConfirm := 0, Status := mlmeConfirm.Status } }
  OnTxData (← getWorld).TxParams
  LmHandlerPackagesNotify .PACKAGE_MLME_CONFIRM 0
  match mlmeConfirm.MlmeRequest with
  | .MLME_JOIN =>
    let _ ← LoRaMacMibGetRequestConfirm mac .MIB_DEV_ADDR
    modifyWorld fun w =>
      { w with CommissioningParams := { w.CommissioningParams with DevAddr := mac.DevAddr w.mac } }
    let Datarate ← LmHandlerGetCurrentDatarate mac
    modifyWorld fun w => { w with JoinParams := { w.JoinParams with Datarate := Datarate } }
    if mlmeConfirm.Status = .LORAMAC_EVENT_INFO_STATUS_OK then
      modifyWorld fun w =>
        { w with JoinParams := { w.JoinParams with Status := .LORAMAC_HANDLER_SUCCESS } }
    else
      modifyWorld fun w =>
        { w with JoinParams := { w.JoinParams with Status := .LORAMAC_HANDLER_ERROR } }
    OnJoinRequest mac (← getWorld).JoinParams
  | .MLME_LINK_CHECK => pure ()
  | .MLME_DEVICE_TIME =>
    if (← getWorld).IsClassBSwitchPending = true then
      let _ ← LmHandlerBeaconReq mac
  | .MLME_BEACON_ACQUISITION =>
    if mlmeConfirm.Status = .LORAMAC_EVENT_INFO_STATUS_OK then
      let _ ← LmHandlerPingSlotReq mac 0
    else
      let _ ← LmHandlerDeviceTimeReq mac
  | .MLME_PING_SLOT_INFO =>
    if mlmeConfirm.Status = .LORAMAC_EVENT_INFO_STATUS_OK then
      let _ ← LoRaMacMibSetRequestConfirm mac (.MIB_DEVICE_CLASS .CLASS_B)
      OnClassChange .CLASS_B
      modifyWorld fun w => { w with IsClassBSwitchPending := false }
    else
      let _ ← LmHandlerPingSlotReq mac 0
  | _ => pure ()

/-! ## `LmHandler.c`: start-up, busy test, class switch, MCPS confirm -/

/-- TX power index `TX_POWER_0`. -/
def TX_POWER_0 : Nat := 0

/-- The call `LoRaMacInitialization(&LoRaMacPrimitives, &LoRaMacCallbacks, region)`. -/
def LoRaMacInitialization {σ : Type} (mac : LoRaMac σ) (region : LoRaMacRegion_t) :
    Exec σ LoRaMacStatus_t := fun w =>
  .ret (mac.Initialization region w.mac).1
    { w with mac := (mac.Initialization region w.mac).2,
             trace := w.trace ++ [.LoRaMacInitialization region] }

/-- The call `LoRaMacTestSetDutyCycleOn(enable)`. -/
def LoRaMacTestSetDutyCycleOn {σ : Type} (mac : LoRaMac σ) (enable : Bool) : Exec σ Unit :=
  fun w =>
  .ret () { w with mac := mac.TestSetDutyCycleOn enable w.mac,
                   trace := w.trace ++ [.LoRaMacTestSetDutyCycleOn enable] }

/-- The call `LoRaMacStart()`. -/
def LoRaMacStart {σ : Type} (mac : LoRaMac σ) : Exec σ LoRaMacStatus_t := fun w =>
  .ret (mac.Start w.mac).1
    { w with mac := (mac.Start w.mac).2, trace := w.trace ++ [.LoRaMacStart] }

/-- The call `LoRaMacIsBusy()`. -/
def LoRaMacIsBusy {σ : Type} (mac : LoRaMac σ) : Exec σ Bool := fun w =>
  .ret (mac.IsBusy w.mac) { w with trace := w.trace ++ [.LoRaMacIsBusy] }

/-- Function `OnNetworkParametersChange` of `DFRobot_LoRaWAN.cpp`: the body is empty (the
call itself is logged). -/
def OnNetworkParametersChange {σ : Type} (params : CommissioningParams_t) : Exec σ Unit :=
  emit (.OnNetworkParametersChange params)

/-- Function `getTxpowerEirpRowNum`. -/
def getTxpowerEirpRowNum (region : LoRaMacRegion_t) : Nat :=
  match region with
  | .LORAMAC_REGION_EU868 => txpowerEirpEU868.length
  | .LORAMAC_REGION_US915 => txpowerEirpUS915.length
  | _ => 0

/-- Function `isEirpValid`: the first of the first `row` rows whose EIRP is `eripS` gives
`*index`; the result is the returned flag and the value left in `*index`. -/
def isEirpValid (txpowerEirp : List (Nat × Nat)) (row eripS : Nat) : Bool × Nat :=
  match (txpowerEirp.take row).find? (fun r => r.2 == eripS) with
  | some r => (true, r.1)
  | none => (false, TX_POWER_0)

/-- The `switch` of `LmHandlerInit` that prepares the TX power: the value stored in
`mibReq.Param.ChannelsTxPower` (`none` when no case writes it) and the local `index`. -/
def LmHandlerInit_txPower (region : LoRaMacRegion_t) (TxEirp : Nat) : Option Nat × Nat :=
  match region with
  | .LORAMAC_REGION_US915 =>
    let r := isEirpValid txpowerEirpUS915 (getTxpowerEirpRowNum .LORAMAC_REGION_US915) TxEirp
    (some (if r.1 = true then r.2 else TX_POWER_0), r.2)
  | .LORAMAC_REGION_EU868 =>
    let r := isEirpValid txpowerEirpEU868 (getTxpowerEirpRowNum .LORAMAC_REGION_EU868) TxEirp
    (some (if r.1 = true then r.2 else TX_POWER_0), r.2)
  | _ => (none, 0)

/-- Function `LmHandlerInit`.  `handlerCallbacks` and `handlerParams` are the table and the
`LmHandlerParams` of `DFRobot_LoRaWAN.cpp`; the assignments of the MAC primitives and
callbacks, which no embedded function reads, are left out. -/
def LmHandlerInit {σ : Type} (mac : LoRaMac σ) : Exec σ LmHandlerErrorStatus_t := do
  modifyWorld fun w => { w with IsClassBSwitchPending := false }
  if (← LoRaMacInitialization mac (← getWorld).LmHandlerParams.Region) ≠ .LORAMAC_STATUS_OK then
    return .LORAMAC_HANDLER_ERROR
  let _ ← LoRaMacMibGetRequestConfirm mac .MIB_NETWORK_ACTIVATION
  if mac.NetworkActivation (← getWorld).mac ≠ .ACTIVATION_TYPE_NONE then
    return .LORAMAC_HANDLER_SUCCESS
  let params := (← getWorld).LmHandlerParams
  let _ ← LoRaMacMibSetRequestConfirm mac (.MIB_PUBLIC_NETWORK params.PublicNetworkEnable)
  let _ ← LoRaMacMibSetRequestConfirm mac (.MIB_ADR params.AdrEnable)
  let _ ← LoRaMacMibSetRequestConfirm mac (.MIB_DEV_EUI params.DevEui)
  let _ ← LoRaMacMibSetRequestConfirm mac (.MIB_JOIN_EUI params.JoinEui)
  let _ ← LoRaMacMibSetRequestConfirm mac (.MIB_NWK_KEY params.AppKey)
  let _ ← LoRaMacMibSetRequestConfirm mac (.MIB_DEV_ADDR params.DevAddr)
  let _ ← LoRaMacMibSetRequestConfirm mac (.MIB_APP_S_KEY params.AppSKey)
  let _ ← LoRaMacMibSetRequestConfirm mac (.MIB_F_NWK_S_INT_KEY params.NwkSKey)
  let _ ← LoRaMacMibSetRequestConfirm mac (.MIB_S_NWK_S_INT_KEY params.NwkSKey)
  let _ ← LoRaMacMibSetRequestConfirm mac (.MIB_NWK_S_ENC_KEY params.NwkSKey)
  let _ ← LoRaMacMibSetRequestConfirm mac (.MIB_CHANNELS_DATARATE params.TxDatarate)
  let _ ← LoRaMacMibSetRequestConfirm mac (.MIB_ANTENNA_GAIN 3)
  let txPower := LmHandlerInit_txPower params.Region params.TxEirp
  let _ ← LoRaMacMibSetRequestConfirm mac (.MIB_CHANNELS_TX_POWER txPower.1)
  let _ ← LoRaMacMibSetRequestConfirm mac (.MIB_CHANNELS_DEFAULT_TX_POWER txPower.2)
  let _ ← LoRaMacMibSetRequestConfirm mac (.MIB_CHANNELS_NB_TRANS params.NbTrials)
  let _ ← LoRaMacMibSetRequestConfirm mac (.MIB_DEVICE_CLASS params.Class)
  let _ ← LoRaMacMibGetRequestConfirm mac .MIB_DEV_EUI
  modifyWorld fun w =>
    { w with CommissioningParams := { w.CommissioningParams with DevEui := mac.DevEui w.mac } }
  let _ ← LoRaMacMibGetRequestConfirm mac .MIB_JOIN_EUI
  modifyWorld fun w =>
    { w with CommissioningParams := { w.CommissioningParams with JoinEui := mac.JoinEui w.mac } }
  let _ ← LoRaMacMibGetRequestConfirm mac .MIB_SE_PIN
  modifyWorld fun w =>
    { w with CommissioningParams := { w.CommissioningParams with SePin := mac.SePin w.mac } }
  LoRaMacTestSetDutyCycleOn mac params.DutyCycleEnabled
  let _ ← LoRaMacStart mac
  if (← LoRaMacMibGetRequestConfirm mac .MIB_NETWORK_ACTIVATION) = .LORAMAC_STATUS_OK then
    if mac.NetworkActivation (← getWorld).mac = .ACTIVATION_TYPE_NONE then
      OnNetworkParametersChange (← getWorld).CommissioningParams
  return .LORAMAC_HANDLER_SUCCESS

/-- Function `LmHandlerIsBusy`. -/
def LmHandlerIsBusy {σ : Type} (mac : LoRaMac σ) : Exec σ Bool := do
  if (← LoRaMacIsBusy mac) = true then
    return true
  if (← LmHandlerJoinStatus mac) ≠ .LORAMAC_HANDLER_SET then
    LmHandlerJoin mac
    return true
  let compliance ← LmHandlerPackages_at PACKAGE_ID_COMPLIANCE
  if compliance.IsRunning = true then
    return true
  return false

/-- Function `LmHandlerRequestClass`.  `errorStatus` is the local of that name; in
`case CLASS_B` its first store (`LORAMAC_HANDLER_ERROR` when the current class is not A) is
overwritten by the result of `LmHandlerDeviceTimeReq` before anything reads it. -/
def LmHandlerRequestClass {σ : Type} (mac : LoRaMac σ) (newClass : DeviceClass_t) :
    Exec σ LmHandlerErrorStatus_t := do
  let _ ← LoRaMacMibGetRequestConfirm mac .MIB_DEVICE_CLASS
  let currentClass := mac.Class (← getWorld).mac
  if currentClass ≠ newClass then
    match newClass with
    | .CLASS_A =>
      if currentClass ≠ .CLASS_A then
        if (← LoRaMacMibSetRequestConfirm mac (.MIB_DEVICE_CLASS .CLASS_A)) = .LORAMAC_STATUS_OK then
          OnClassChange .CLASS_A
          return .LORAMAC_HANDLER_SUCCESS
        else
          return .LORAMAC_HANDLER_ERROR
      else
        return .LORAMAC_HANDLER_SUCCESS
    | .CLASS_B =>
      let errorStatus ← LmHandlerDeviceTimeReq mac
      modifyWorld fun w => { w with IsClassBSwitchPending := true }
      return errorStatus
    | .CLASS_C =>
      let errorStatus : LmHandlerErrorStatus_t :=
        if currentClass ≠ .CLASS_A then .LORAMAC_HANDLER_ERROR else .LORAMAC_HANDLER_SUCCESS
      if (← LoRaMacMibSetRequestConfirm mac (.MIB_DEVICE_CLASS .CLASS_C)) = .LORAMAC_STATUS_OK then
        OnClassChange .CLASS_C
        return errorStatus
      else
        return .LORAMAC_HANDLER_ERROR
  else
    return .LORAMAC_HANDLER_SUCCESS

/-- Function `McpsConfirm`.  `TxParams.Datarate` is `int8_t` (the confirm's is `uint8_t`),
`TxParams.Channel` is `uint8_t` (the confirm's is `uint32_t`), `TxParams.AckReceived` is
`uint8_t` (the confirm's is `bool`). -/
def McpsConfirm {σ : Type} (mcpsConfirm : McpsConfirm_t) : Exec σ Unit := do
  modifyWorld fun w =>
    { w with TxParams := { w.TxParams with
        IsMcpsConfirm := 1,
        Status := mcpsConfirm.Status,
        Datarate := toInt8 mcpsConfirm.Datarate,
        UplinkCounter := mcpsConfirm.UpLinkCounter,
        TxPower := mcpsConfirm.TxPower,
        Channel := toUint8 mcpsConfirm.Channel,
        AckReceived := if mcpsConfirm.AckReceived = true then 1 else 0 } }
  OnTxData (← getWorld).TxParams
  LmHandlerPackagesNotify .PACKAGE_MCPS_CONFIRM 0

/-- The slots of the callback table, `LmHandlerCallbacks_t` of `LmHandler.h`. -/
inductive LmHandlerCallbackSlot
  | GetBatteryLevel
  | GetTemperature
  | GetRandomSeed
  | OnMacProcess
  | OnNvmDataChange
  | OnNetworkParametersChange
  | OnMacMcpsRequest
  | OnMacMlmeRequest
  | OnJoinRequest
  | OnTxData
  | OnRxData
  | OnClassChange
  | OnBeaconStatusChange
  | OnSysTimeUpdate
  deriving DecidableEq, Repr

/-- The table `LmHandlerCallbacks` of `DFRobot_LoRaWAN.cpp`: `true` for a slot that holds a
function, `false` for a slot that holds `NULL`. -/
def LmHandlerCallbacks : LmHandlerCallbackSlot → Bool
  | .GetBatteryLevel => true
  | .GetTemperature => false
  | .GetRandomSeed => true
  | .OnMacProcess => true
  | .OnNvmDataChange => false
  | .OnNetworkParametersChange => true
  | .OnMacMcpsRequest => true
  | .OnMacMlmeRequest => true
  | .OnJoinRequest => true
  | .OnTxData => true
  | .OnRxData => true
  | .OnClassChange => true
  | .OnBeaconStatusChange => false
  | .OnSysTimeUpdate => false

/-- The call `LmHandlerCallbacks->OnBeaconStatusChange(&BeaconParams)`: the slot holds
`NULL`, so the call is a call through a NULL pointer, which ends the run. -/
def OnBeaconStatusChange {σ : Type} : Exec σ Unit :=
  if LmHandlerCallbacks .OnBeaconStatusChange = true then pure () else halt .nullPointer

/-- Function `MlmeIndication`. -/
def MlmeIndication {σ : Type} (mac : LoRaMac σ) (mlmeIndication : MlmeIndication_t) :
    Exec σ Unit := do
  modifyWorld fun w =>
    { w with RxParams := { w.RxParams with IsMcpsIndication := 0,
                                           Status := mlmeIndication.Status } }
  if (← getWorld).RxParams.Status ≠ .LORAMAC_EVENT_INFO_STATUS_BEACON_LOCKED then
    OnRxData mac none (← getWorld).RxParams
  LmHandlerPackagesNotify .PACKAGE_MLME_INDICATION 0
  match mlmeIndication.MlmeIndication with
  | .MLME_SCHEDULE_UPLINK =>
    if let some compliance := (← getWorld).LmHandlerPackages.getD PACKAGE_ID_COMPLIANCE none then
      if compliance.IsRunning = false then
        let _ ← LmHandlerSend mac { Buffer := NULL, BufferSize := 0, Port := 0 }
          .LORAMAC_HANDLER_UNCONFIRMED_MSG
  | .MLME_BEACON_LOST =>
    let _ ← LoRaMacMibSetRequestConfirm mac (.MIB_DEVICE_CLASS .CLASS_A)
    modifyWorld fun w =>
      { w with BeaconParams :=
          { State := .LORAMAC_HANDLER_BEACON_LOST,
            Info := { w.BeaconParams.Info with
              Time_Seconds := 0, GwSpecific_InfoDesc := 0,
              GwSpecific_Info := [0, 0, 0, 0, 0, 0] } } }
    OnClassChange .CLASS_A
    OnBeaconStatusChange
    let _ ← LmHandlerDeviceTimeReq mac
  | .MLME_BEACON =>
    if mlmeIndication.Status = .LORAMAC_EVENT_INFO_STATUS_BEACON_LOCKED then
      modifyWorld fun w =>
        { w with BeaconParams :=
            { State := .LORAMAC_HANDLER_BEACON_RX, Info := mlmeIndication.BeaconInfo } }
      OnBeaconStatusChange
    else
      modifyWorld fun w =>
        { w with BeaconParams :=
            { State := .LORAMAC_HANDLER_BEACON_NRX, Info := mlmeIndication.BeaconInfo } }
      OnBeaconStatusChange
  | _ => pure ()

/-! ## `DFRobot_LoRaWAN.cpp`: `LoRaWAN_Node` -/

/-- Function `LoRaWAN_Node::sendConfirmedPacket`. -/
def sendConfirmedPacket {σ : Type} (mac : LoRaMac σ) (port buffer size : Nat) :
    Exec σ Bool := do
  let _ ← LoRaMacMibGetRequestConfirm mac .MIB_CHANNELS_DATARATE
  let ChannelsDatarate := mac.ChannelsDatarate (← getWorld).mac
  let NbTrials := (← getWorld).LmHandlerParams.NbTrials
  let mcpsReq : McpsReq_t :=
    if (← LoRaMacQueryTxPossible mac size) ≠ .LORAMAC_STATUS_OK then
      { Type_ := .MCPS_UNCONFIRMED, fPort := none, fBuffer := NULL, fBufferSize := 0,
        Datarate := ChannelsDatarate, NbTrials := none }
    else
      { Type_ := .MCPS_CONFIRMED, fPort := some port, fBuffer := buffer, fBufferSize := size,
        NbTrials := some NbTrials, Datarate := ChannelsDatarate }
  let status ← LoRaMacMcpsRequest mac mcpsReq
  if status = .LORAMAC_STATUS_OK then
    return true
  return false

/-- Function `LoRaWAN_Node::sendUnconfirmedPacket`. -/
def sendUnconfirmedPacket {σ : Type} (mac : LoRaMac σ) (port buffer size : Nat) :
    Exec σ Bool := do
  let _ ← LoRaMacMibGetRequestConfirm mac .MIB_CHANNELS_DATARATE
  let ChannelsDatarate := mac.ChannelsDatarate (← getWorld).mac
  let mcpsReq : McpsReq_t :=
    if (← LoRaMacQueryTxPossible mac size) ≠ .LORAMAC_STATUS_OK then
      { Type_ := .MCPS_UNCONFIRMED, fPort := none, fBuffer := NULL, fBufferSize := 0,
        Datarate := ChannelsDatarate, NbTrials := none }
    else
      { Type_ := .MCPS_UNCONFIRMED, fPort := some port, fBuffer := buffer, fBufferSize := size,
        Datarate := ChannelsDatarate, NbTrials := none }
  if (← LoRaMacMcpsRequest mac mcpsReq) = .LORAMAC_STATUS_OK then
    return false
  return true

/-- Datarate indices `DR_4` .. `DR_8` (`Region.h`, where the `DR_n` are declared, is not
among the sources; `DR_n` is the LoRaWAN datarate index `n`). -/
def DR_4 : Int := 4

/-- Datarate index `DR_5`. -/
def DR_5 : Int := 5

/-- Datarate index `DR_6`. -/
def DR_6 : Int := 6

/-- Datarate index `DR_7`. -/
def DR_7 : Int := 7

/-- Datarate index `DR_8`. -/
def DR_8 : Int := 8

/-- Constant `US915_MAX_NB_CHANNELS` of `RegionUS915.h`. -/
def US915_MAX_NB_CHANNELS : Nat := 72

/-- Constant `US915_TX_MIN_DATARATE` of `RegionUS915.h`. -/
def US915_TX_MIN_DATARATE : Int := DR_0

/-- Constant `US915_TX_MAX_DATARATE` of `RegionUS915.h`. -/
def US915_TX_MAX_DATARATE : Int := DR_4

/-- Function `LoRaWAN_Node::isNetworkJoined`. -/
def isNetworkJoined {σ : Type} (mac : LoRaMac σ) : Exec σ Bool := do
  let _ ← LoRaMacMibGetRequestConfirm mac .MIB_NETWORK_ACTIVATION
  if mac.NetworkActivation (← getWorld).mac = .ACTIVATION_TYPE_NONE then
    return false
  else
    return true

/-- Function `LoRaWAN_Node::join`; `callback` is `true` for a pointer that is not NULL. -/
def join {σ : Type} (mac : LoRaMac σ) (callback : Bool) : Exec σ Int := do
  modifyWorld fun w => { w with loraJoinCb := callback }
  if (← isNetworkJoined mac) = true then
    emit .xSemaphoreGive_loraStateSem
    return 0
  LmHandlerJoin mac
  return 1

/-- The body of `LoRaWAN_Node::setSubBand` after the `MIB_NVM_CTXS` get, on the context
`nvm` the returned pointer designates.  `none`: the run has no defined result (`1 << -1`);
`some none`: `return false`, nothing written; `some (some nvm1)`: `return true`, with the
context as the three `RegionCommonChanMaskCopy` calls leave it.  `subBand - 1` is an `int`,
so `/` and `%` truncate towards zero. -/
def setSubBand_nvm {σ : Type} (mac : LoRaMac σ) (nvm : LoRaMacNvmData_t) (subBand : Nat) :
    Option (Option LoRaMacNvmData_t) :=
  let subBandChannelMask : List Nat := [0, 0, 0, 0, 0, 0]
  let maxMask : Nat := 6
  let k : Int := (subBand : Int) - 1
  let word : Nat := if Int.tmod k 2 ≠ 0 then 0xFF00 else 0x00FF
  let copied (mask : List Nat) : LoRaMacNvmData_t :=
    { nvm with
      ChannelsDefaultMask := mac.RegionCommonChanMaskCopy nvm.ChannelsDefaultMask mask maxMask,
      ChannelsMask := mac.RegionCommonChanMaskCopy nvm.ChannelsMask mask maxMask,
      ChannelsMaskRemaining :=
        mac.RegionCommonChanMaskCopy nvm.ChannelsMaskRemaining mask maxMask }
  match nvm.Region with
  | .LORAMAC_REGION_CN470 =>
    if subBand > 12 then some none
    else some (some (copied (subBandChannelMask.set (Int.tdiv k 2).toNat word)))
  | .LORAMAC_REGION_AU915 | .LORAMAC_REGION_US915 =>
    if subBand > 8 then some none
    else if k < 0 then none
    else some (some (copied
      ((subBandChannelMask.set (Int.tdiv k 2).toNat word).set 4 (toUint16 (2 ^ k.toNat)))))
  | _ => some none

/-- The writes of `setSubBand` through the pointer of the `MIB_NVM_CTXS` get. -/
def setSubBand_write {σ : Type} (mac : LoRaMac σ) (subBand : Nat) : Exec σ Bool := fun w =>
  match setSubBand_nvm mac (mac.Nvm w.mac) subBand with
  | none => .stop .undefinedBehaviour w
  | some none => .ret false w
  | some (some nvm) => .ret true { w with mac := mac.SetNvm nvm w.mac }

/-- Function `LoRaWAN_Node::setSubBand` (`subBand` is a `uint8_t`). -/
def setSubBand {σ : Type} (mac : LoRaMac σ) (subBand : Nat) : Exec σ Bool := do
  let _ ← LoRaMacMibGetRequestConfirm mac .MIB_NVM_CTXS
  setSubBand_write mac subBand

/-- Function `LoRaWAN_Node::init`; `dataRate` and `txEirp` are `int8_t`.  The build flag
`REGION_US915` is the one that sets `LmHandlerParams.Region` to `LORAMAC_REGION_US915`.
The calls `SX126xIOInit()`, `taskLoad()` and `lowPowerTask()` are logged. -/
def init {σ : Type} (mac : LoRaMac σ) (dataRate txEirp : Int) (adr dutyCycle : Bool) :
    Exec σ Bool := do
  emit .SX126xIOInit
  if (← getWorld).LmHandlerParams.Region = .LORAMAC_REGION_US915 then
    if dataRate = DR_5 ∨ dataRate = DR_6 ∨ dataRate = DR_7 then
      return false
  emit .taskLoad
  emit .lowPowerTask
  modifyWorld fun w =>
    { w with LmHandlerParams := { w.LmHandlerParams with
        TxDatarate := dataRate,
        TxEirp := (txEirp % 256).toNat,
        AdrEnable := adr,
        DutyCycleEnabled := dutyCycle } }
  if (← LmHandlerInit mac) ≠ .LORAMAC_HANDLER_SUCCESS then
    return false
  else
    if (← getWorld).LmHandlerParams.Region = .LORAMAC_REGION_US915 then
      let _ ← setSubBand mac 2
    if (← getWorld).LmHandlerParams.joinType = .ACTIVATION_TYPE_ABP then
      let _ ← LoRaMacMibSetRequestConfirm mac (.MIB_NETWORK_ACTIVATION .ACTIVATION_TYPE_ABP)
    return true

/-- Function `LoRaWAN_Node::getTxEirp`; the table read is that of `OnTxData`. -/
def getTxEirp {σ : Type} (mac : LoRaMac σ) : Exec σ Nat := do
  let _ ← LoRaMacMibGetRequestConfirm mac .MIB_CHANNELS_TX_POWER
  eval_txeirp (mac.ChannelsTxPower (← getWorld).mac)

/-! ## `boards/mcu/espressif/timer.cpp` -/

/-- Timer object, `TimerEvent_t` of `boards/mcu/timer.h`; `Callback` is a function pointer
(`NULL` is 0), the `Next` pointer, which nothing reads, is left out. -/
structure TimerEvent_t where
  timerNum : Nat
  oneShot : Bool
  Timestamp : Nat
  ReloadValue : Nat
  IsRunning : Bool
  Callback : Nat
  deriving DecidableEq, Repr

/-- What an Arduino `Ticker` holds: nothing, or the period and callback given to `once_ms`
or to `attach_ms`. -/
inductive Ticker
  | detached
  | once_ms (milliseconds : Nat) (callback : Nat)
  | attach_ms (milliseconds : Nat) (callback : Nat)
  deriving DecidableEq, Repr

/-- The three arrays of `timer.cpp`, ten entries each. -/
structure Timers where
  timerTickers : List Ticker
  timerTimes : List Nat
  timerInUse : List Bool
  deriving DecidableEq, Repr

/-- The arrays at start-up: no Ticker attached, times zero, no slot in use. -/
def Timers.initial : Timers :=
  { timerTickers := List.replicate 10 .detached,
    timerTimes := List.replicate 10 0,
    timerInUse := List.replicate 10 false }

/-- The loop of `TimerInit` from slot `idx` on: the first slot not in use, if any. -/
def TimerInit_find (timerInUse : List Bool) (idx : Nat) : Option Nat :=
  ((List.range 10).drop idx).find? (fun i => timerInUse.getD i true == false)

/-- Function `TimerInit`: the timer object and the arrays afterwards. -/
def TimerInit (obj : TimerEvent_t) (callback : Nat) (t : Timers) : TimerEvent_t × Timers :=
  match TimerInit_find t.timerInUse 0 with
  | some idx =>
    ({ obj with timerNum := idx, Callback := callback },
     { t with timerInUse := t.timerInUse.set idx true })
  | none => (obj, t)

/-- Function `TimerSetValue`; `none` for a `timerNum` outside the arrays. -/
def TimerSetValue (obj : TimerEvent_t) (value : Nat) (t : Timers) :
    Option (TimerEvent_t × Timers) :=
  if obj.timerNum < 10 then
    some (obj, { t with timerTimes := t.timerTimes.set obj.timerNum (value % 2 ^ 32) })
  else none

/-- Function `TimerStart`: the timer object, which is only read, and the arrays afterwards;
`none` for a `timerNum` outside the arrays. -/
def TimerStart (obj : TimerEvent_t) (t : Timers) : Option (TimerEvent_t × Timers) :=
  if obj.timerNum < 10 then
    let ms := t.timerTimes.getD obj.timerNum 0
    let ticker : Ticker :=
      if obj.oneShot = true then .once_ms ms obj.Callback else .attach_ms ms obj.Callback
    some (obj, { t with timerTickers := t.timerTickers.set obj.timerNum ticker })
  else none

/-- Function `TimerStop`: the timer object, which is only read, and the arrays afterwards;
`none` for a `timerNum` outside the arrays. -/
def TimerStop (obj : TimerEvent_t) (t : Timers) : Option (TimerEvent_t × Timers) :=
  if obj.timerNum < 10 then
    some (obj, { t with timerTickers := t.timerTickers.set obj.timerNum .detached })
  else none

/-- Function `TimerIsStarted`. -/
def TimerIsStarted (obj : TimerEvent_t) : Bool :=
  obj.IsRunning

/-- Function `TimerGetCurrentTime`; `millis` is what `millis()` returns. -/
def TimerGetCurrentTime (millis : Nat) : Nat :=
  millis % 2 ^ 32

/-- Function `TimerGetElapsedTime`; `millis` is what `millis()` returns.  The difference is
taken in `uint32_t`. -/
def TimerGetElapsedTime (millis : Nat) (past : Nat) : Nat :=
  let nowInTicks := millis % 2 ^ 32
  let pastInTicks := past % 2 ^ 32
  (nowInTicks + 2 ^ 32 - pastInTicks) % 2 ^ 32

/-- A sequence of `TimerInit` calls, each with its timer object and callback: the timer
objects afterwards, in call order, and the arrays afterwards. -/
def TimerInit_each : List (TimerEvent_t × Nat) → Timers → List TimerEvent_t × Timers
  | [], t => ([], t)
  | (obj, callback) :: rest, t =>
    let r := TimerInit obj callback t
    let rs := TimerInit_each rest r.2
    (r.1 :: rs.1, rs.2)

/-! ## `boards/sx126x-board.cpp` -/

/-- How `SX126xWaitOnBusy` ended: the number of `delay(1)` calls made, and whether it
returned through the `timeout < 0` test. -/
structure WaitOnBusy where
  delays : Nat
  timedOut : Bool
  deriving DecidableEq, Repr

/-- The loop of `SX126xWaitOnBusy`.  `busy i` is what the read number `i` of
`digitalRead(LORA_BUSY)` returns (`true` for `HIGH`); `timeout` is the local of that name
and `i` the number of reads, and of delays, made so far. -/
def SX126xWaitOnBusy_loop (busy : Nat → Bool) (timeout : Int) (i : Nat) : WaitOnBusy :=
  if busy i = true then
    if timeout - 1 < 0 then
      { delays := i + 1, timedOut := true }
    else
      SX126xWaitOnBusy_loop busy (timeout - 1) (i + 1)
  else
    { delays := i, timedOut := false }
termination_by timeout.toNat
decreasing_by omega

/-- Function `SX126xWaitOnBusy`. -/
def SX126xWaitOnBusy (busy : Nat → Bool) : WaitOnBusy :=
  SX126xWaitOnBusy_loop busy 1000 0

/-! ## `mac/region/RegionUS915.h` -/

/-- Datarate index `DR_9` (see `DR_4`). -/
def DR_9 : Int := 9

/-- Datarate index `DR_10`. -/
def DR_10 : Int := 10

/-- Datarate index `DR_11`. -/
def DR_11 : Int := 11

/-- Datarate index `DR_12`. -/
def DR_12 : Int := 12

/-- Datarate index `DR_13`. -/
def DR_13 : Int := 13

/-- Constant `US915_RX_MIN_DATARATE`. -/
def US915_RX_MIN_DATARATE : Int := DR_8

/-- Constant `US915_RX_MAX_DATARATE`. -/
def US915_RX_MAX_DATARATE : Int := DR_13

/-- Constant `US915_MIN_RX1_DR_OFFSET`. -/
def US915_MIN_RX1_DR_OFFSET : Nat := 0

/-- Constant `US915_MAX_RX1_DR_OFFSET`. -/
def US915_MAX_RX1_DR_OFFSET : Nat := 3

/-- Table `DataratesUS915`. -/
def DataratesUS915 : List Nat := [10, 9, 8, 7, 8, 0, 0, 0, 12, 11, 10, 9, 8, 7, 0, 0]

/-- Table `BandwidthsUS915`, in Hz. -/
def BandwidthsUS915 : List Nat :=
  [125000, 125000, 125000, 125000, 500000, 0, 0, 0, 500000, 500000, 500000, 500000, 500000,
   500000, 0, 0]

/-- Table `DatarateOffsetsUS915[5][4]`: one row per uplink datarate `DR_0 .. DR_4`. -/
def DatarateOffsetsUS915 : List (List Int) :=
  [[DR_10, DR_9, DR_8, DR_8],
   [DR_11, DR_10, DR_9, DR_8],
   [DR_12, DR_11, DR_10, DR_9],
   [DR_13, DR_12, DR_11, DR_10],
   [DR_13, DR_13, DR_12, DR_11]]

/-- Table `MaxPayloadOfDatarateUS915`. -/
def MaxPayloadOfDatarateUS915 : List Nat :=
  [11, 53, 125, 242, 242, 0, 0, 0, 53, 129, 242, 242, 242, 242, 0, 0]

/-- The entry `table[i]` of a table indexed by a datarate; `none` outside the table. -/
def tableAt (table : List Nat) (i : Int) : Option Nat :=
  if 0 ≤ i then table.get? i.toNat else none

/-! ## `external/DFRobot_GDL_LW/src/Fonts/DFRobot_Font.cpp` -/

/-- The `for` loop of `getUtf_8Bytes` with `left` iterations to go: the values of `num`
and of `i` when the loop is left. -/
def getUtf_8Bytes_loop (b : Nat) : (left : Nat) → (i num : Nat) → Nat × Nat
  | 0, i, num => (num, i)
  | left + 1, i, num =>
    if b &&& (0x80 >>> i) ≠ 0 then
      getUtf_8Bytes_loop b left (i + 1) (num + 1)
    else
      (if num = 0 then 1 else num, i)

/-- Function `DFRobot_GDL::getUtf_8Bytes` (`b` and the result are `uint8_t`). -/
def getUtf_8Bytes (b : Nat) : Nat :=
  let r := getUtf_8Bytes_loop b 7 0 0
  if r.2 = 1 then 255 else toUint8 r.1

/-- The offsets from `buf` of the bytes that `utf8ToUnicode(num, buf)` reads, in order. -/
def utf8ToUnicode_reads (num : Nat) : List Nat :=
  if 1 < num ∧ num < 7 then List.range num
  else if num = 1 then [0]
  else []

/-- Function `DFRobot_GDL::utf8ToUnicode`; `buf i` is the byte `buf[i]`.  `Byte[0]` is
first the mask of the `num + 1` top bits and `Byte[i]` is `0xC0`, then each is replaced by
`~Byte[i] & buf[i]`; the result is assembled in `uint32_t`, six bits per byte. -/
def utf8ToUnicode (num : Nat) (buf : Nat → Nat) : Nat :=
  if 1 < num ∧ num < 7 then
    let Byte0 : Nat :=
      (List.range num).foldl (fun m i => m ||| (1 <<< (7 - i))) 0 ||| (1 <<< (7 - num))
    let Byte (i : Nat) : Nat :=
      (255 - (if i = 0 then Byte0 else 0xC0)) &&& buf i
    (List.range num).foldl
      (fun unicode k => (unicode ||| (Byte (num - 1 - k) <<< (6 * k))) % 2 ^ 32) 0
  else if num = 1 then buf 0
  else 0

/-- What a call of `DFRobot_GDL::write` did: the returned count `n`, the indices of
`buffer` it read, in order, and the characters handed to the display (a line feed, or the
`unicode` whose glyph is searched in the font table and drawn). -/
structure GdlWrite where
  n : Nat
  reads : List Nat
  shown : List Nat
  deriving DecidableEq, Repr

/-- The `while(size)` loop of `DFRobot_GDL::write` for a custom font (`_fontType ==
FONT_TYPE_CUSTOM`, `_gdlFont` not NULL).  `mem i` is the byte at `buffer[i]`, whether or
not `i` is below the `size` the caller gave; `pos` is the offset of the moving `buffer`
pointer.  The glyph search and the drawing touch the cursor and the display only and are
recorded in `shown`.  `fuel` bounds the number of iterations; `none` when it runs out. -/
def write_loop (mem : Nat → Nat) : (fuel : Nat) → (pos size : Nat) → GdlWrite → Option GdlWrite
  | _, _, 0, r => some r
  | 0, _, _ + 1, _ => none
  | fuel + 1, pos, size + 1, r =>
    let c := mem pos
    let r1 : GdlWrite := { r with reads := r.reads ++ [pos] }
    if c = 10 then
      write_loop mem fuel (pos + 1) size { r1 with shown := r1.shown ++ [10] }
    else if c = 13 then
      write_loop mem fuel (pos + 1) size r1
    else
      let num := getUtf_8Bytes c
      let unicode := utf8ToUnicode num (fun i => mem (pos + i))
      let r2 : GdlWrite :=
        { n := r1.n + num,
          reads := r1.reads ++ (utf8ToUnicode_reads num).map (fun i => pos + i),
          shown := r1.shown ++ [unicode] }
      write_loop mem fuel (pos + 1 + (num - 1))
        (if size + 1 > num then size + 1 - num else 0) r2

/-- Function `DFRobot_GDL::write(buffer, size)` with a custom font selected.  Every
iteration lowers `size`, so `size` iterations are enough. -/
def write (mem : Nat → Nat) (size : Nat) : Option GdlWrite :=
  write_loop mem size 0 size { n := 0, reads := [], shown := [] }

/-! ## `mac/LoRaMacCrypto.h`: payload encryption -/

/-- Modelled from the spec: `LoRaMacPayloadEncrypt`, declared in `mac/LoRaMacCrypto.h`; its
body (`LoRaMacCrypto.c`) is not among the sources.  The spec describes a stream-cipher-style
transform keyed by frame direction, address and frame counter: byte `i` of the `size` bytes
of `buffer` is XORed with byte `i` of a key stream fixed by the key, the address, the
direction and the counter.  The key stream generator (the cipher itself is outside the
spec) is the parameter `keyStream`. -/
def LoRaMacPayloadEncrypt (keyStream : List Nat → Nat → Nat → Nat → Nat → Nat)
    (buffer : List Nat) (size : Nat) (key : List Nat) (address dir sequenceCounter : Nat) :
    List Nat :=
  (List.range size).map fun i =>
    buffer.getD i 0 ^^^ (keyStream key address dir sequenceCounter i % 256)

/-- Modelled from the spec: `LoRaMacPayloadDecrypt`, declared in `mac/LoRaMacCrypto.h`; its
body is not among the sources.  The spec describes the transform as symmetric: the same
operation encrypts and decrypts. -/
def LoRaMacPayloadDecrypt (keyStream : List Nat → Nat → Nat → Nat → Nat → Nat)
    (buffer : List Nat) (size : Nat) (key : List Nat) (address dir sequenceCounter : Nat) :
    List Nat :=
  (List.range size).map fun i =>
    buffer.getD i 0 ^^^ (keyStream key address dir sequenceCounter i % 256)

/-! ## A concrete MAC, to run the embedding on examples -/

/-- State of a small MAC: what it stores and what it answers. -/
structure MacState where
  NetworkActivation : ActivationType_t
  ChannelsDatarate : Int
  Class : DeviceClass_t
  DevAddr : Nat
  MaxPayload : Nat
  McpsStatus : LoRaMacStatus_t
  MlmeStatus : LoRaMacStatus_t
  UplinkCounter : Nat
  LastRssi : Int
  LastSnr : Int
  Busy : Bool := false
  InitStatus : LoRaMacStatus_t := .LORAMAC_STATUS_OK
  ChannelsTxPower : Int := 0
  Nvm : LoRaMacNvmData_t :=
    { Region := .LORAMAC_REGION_EU868,
      ChannelsDefaultMask := [0xFFFF, 0xFFFF, 0xFFFF, 0xFFFF, 0x00FF, 0x0000],
      ChannelsMask := [0xFFFF, 0xFFFF, 0xFFFF, 0xFFFF, 0x00FF, 0x0000],
      ChannelsMaskRemaining := [0xFFFF, 0xFFFF, 0xFFFF, 0xFFFF, 0x00FF, 0x0000] }
  deriving DecidableEq, Repr

/-- A MAC over `MacState`: gets succeed, sets store the value, a payload is possible up to
`MaxPayload` bytes, requests are answered with the stored statuses, `LoRaMacInitialization`
with `InitStatus`; a channel mask copy writes the first `len` words of the destination. -/
def simpleMac : LoRaMac MacState where
  MibGetStatus := fun _ _ => .LORAMAC_STATUS_OK
  NetworkActivation := fun s => s.NetworkActivation
  ChannelsDatarate := fun s => s.ChannelsDatarate
  Class := fun s => s.Class
  DevAddr := fun s => s.DevAddr
  MibSet := fun req s =>
    match req with
    | .MIB_DEVICE_CLASS c => (.LORAMAC_STATUS_OK, { s with Class := c })
    | .MIB_NETWORK_ACTIVATION a => (.LORAMAC_STATUS_OK, { s with NetworkActivation := a })
    | .MIB_CHANNELS_DATARATE dr => (.LORAMAC_STATUS_OK, { s with ChannelsDatarate := dr })
    | .MIB_DEV_ADDR a => (.LORAMAC_STATUS_OK, { s with DevAddr := a })
    | .MIB_CHANNELS_TX_POWER (some p) => (.LORAMAC_STATUS_OK, { s with ChannelsTxPower := p })
    | _ => (.LORAMAC_STATUS_OK, s)
  QueryTxPossible := fun size s =>
    if size ≤ s.MaxPayload then .LORAMAC_STATUS_OK else .LORAMAC_STATUS_LENGTH_ERROR
  McpsRequest := fun _ s => (s.McpsStatus, s)
  MlmeRequest := fun _ s => (s.MlmeStatus, s)
  GetUplinkCounter := fun s => s.UplinkCounter
  McLastDataRssi := fun s => s.LastRssi
  McLastDataSnr := fun s => s.LastSnr
  IsBusy := fun s => s.Busy
  Initialization := fun region s => (s.InitStatus, { s with Nvm := { s.Nvm with Region := region } })
  TestSetDutyCycleOn := fun _ s => s
  Start := fun s => (.LORAMAC_STATUS_OK, s)
  DevEui := fun _ => 0
  JoinEui := fun _ => 0
  SePin := fun _ => 0
  Nvm := fun s => s.Nvm
  SetNvm := fun nvm s => { s with Nvm := nvm }
  RegionCommonChanMaskCopy := fun dst src len => src.take len ++ dst.drop len
  ChannelsTxPower := fun s => s.ChannelsTxPower

/-- A joined class A device in OTAA mode whose MAC accepts every request. -/
def joinedMac : MacState :=
  { NetworkActivation := .ACTIVATION_TYPE_OTAA, ChannelsDatarate := 3, Class := .CLASS_A,
    DevAddr := 0x26011BDA, MaxPayload := 51, McpsStatus := .LORAMAC_STATUS_OK,
    MlmeStatus := .LORAMAC_STATUS_OK, UplinkCounter := 7, LastRssi := -97, LastSnr := 6 }

/-- The statics as `DFRobot_LoRaWAN.cpp` and `LmHandler.c` initialise them, for an EU868
OTAA node with the three user callbacks set and the compliance package registered. -/
def startWorld (mac : MacState) : World MacState :=
  { mac := mac,
    trace := [],
    CommissioningParams := { IsOtaaActivation := false, DevAddr := 0 },
    LmHandlerPackages :=
      [some { Port := 224, IsRunning := false, OnMcpsConfirmProcess := true,
              OnMcpsIndicationProcess := true, OnMlmeConfirmProcess := true,
              OnMlmeIndicationProcess := false },
       none, none, none],
    LmHandlerParams :=
      { Region := .LORAMAC_REGION_EU868, TxDatarate := 3, TxEirp := 16,
        joinType := .ACTIVATION_TYPE_OTAA, NbTrials := 1, Class := .CLASS_A },
    JoinParams := { Datarate := DR_0, Status := .LORAMAC_HANDLER_ERROR },
    TxParams :=
      { IsMcpsConfirm := 0, Status := .LORAMAC_EVENT_INFO_STATUS_OK,
        MsgType := .LORAMAC_HANDLER_UNCONFIRMED_MSG, AckReceived := 0, Datarate := DR_0,
        UplinkCounter := 0, AppData := { Port := 0, BufferSize := 0, Buffer := NULL },
        TxPower := 0, Channel := 0 },
    RxParams :=
      { IsMcpsIndication := 0, Status := .LORAMAC_EVENT_INFO_STATUS_OK, Datarate := 0,
        Rssi := 0, Snr := 0, DownlinkCounter := 0, RxSlot := -1, IsRevACK := false },
    IsClassBSwitchPending := false,
    loraJoinCb := true,
    rxCb := true,
    txCb := true,
    CurReJoinTimes := 0,
    mcusleepmode := .MCU_ACTIVE }

/-! ## Reading the log -/

/-- The request of a `LoRaMacMcpsRequest` call. -/
def Event.mcpsRequest : Event → Option McpsReq_t
  | .LoRaMacMcpsRequest req => some req
  | _ => none

/-- The MCPS requests handed to the MAC, oldest first. -/
def mcpsRequests (trace : List Event) : List McpsReq_t :=
  trace.filterMap Event.mcpsRequest

/-- The call is one of `LoRaMacQueryTxPossible`, `LoRaMacMcpsRequest`. -/
def Event.isTxCall : Event → Bool
  | .LoRaMacQueryTxPossible _ => true
  | .LoRaMacMcpsRequest _ => true
  | _ => false

/-- The calls of `LoRaMacQueryTxPossible` and `LoRaMacMcpsRequest` in a log. -/
def txCalls (trace : List Event) : List Event :=
  trace.filter Event.isTxCall

/-- The call is a `LoRaMacMlmeRequest`. -/
def Event.isMlmeRequest : Event → Bool
  | .LoRaMacMlmeRequest _ => true
  | _ => false

/-- The `isOk` of a call of the user's join callback. -/
def Event.joinCb : Event → Option Bool
  | .loraJoinCb isOk _ _ => some isOk
  | _ => none

/-- The `isOk` arguments of the calls of the user's join callback, oldest first. -/
def joinCbCalls (trace : List Event) : List Bool :=
  trace.filterMap Event.joinCb

/-- The request carries the caller's port, buffer pointer and size. -/
def McpsReq_t.carries (req : McpsReq_t) (port buffer size : Nat) : Prop :=
  req.fPort = some port ∧ req.fBuffer = buffer ∧ req.fBufferSize = size

instance (req : McpsReq_t) (port buffer size : Nat) : Decidable (req.carries port buffer size) := by
  unfold McpsReq_t.carries; infer_instance

/-- The request is the empty unconfirmed frame that flushes MAC commands. -/
def McpsReq_t.isFlush (req : McpsReq_t) : Prop :=
  req.Type_ = .MCPS_UNCONFIRMED ∧ req.fBuffer = NULL ∧ req.fBufferSize = 0

instance (req : McpsReq_t) : Decidable req.isFlush := by
  unfold McpsReq_t.isFlush; infer_instance

/-- The rssi, uplinkCounter and downlinkCounter of a call of the user's rx callback. -/
def Event.rxCbArgs : Event → Option (Int × Nat × Nat)
  | .rxCb _ _ _ rssi _ _ uplinkCounter downlinkCounter => some (rssi, uplinkCounter, downlinkCounter)
  | _ => none

/-- The (rssi, uplinkCounter, downlinkCounter) of the calls of the user's rx callback. -/
def rxCbCalls (trace : List Event) : List (Int × Nat × Nat) :=
  trace.filterMap Event.rxCbArgs

/-- The uplinkCounter and downlinkCounter of a call of the user's rx callback. -/
def Event.rxCbCounters : Event → Option (Nat × Nat)
  | .rxCb _ _ _ _ _ _ uplinkCounter downlinkCounter => some (uplinkCounter, downlinkCounter)
  | _ => none

/-- The (uplinkCounter, downlinkCounter) of the calls of the user's rx callback, oldest
first. -/
def rxCbCounters (trace : List Event) : List (Nat × Nat) :=
  trace.filterMap Event.rxCbCounters

/-- The argument of a call of `esp_sleep_enable_timer_wakeup`, in microseconds. -/
def Event.wakeup : Event → Option Nat
  | .esp_sleep_enable_timer_wakeup time_in_us => some time_in_us
  | _ => none

/-- The wake-up delays programmed, in microseconds, oldest first. -/
def wakeupDelays (trace : List Event) : List Nat :=
  trace.filterMap Event.wakeup

/-! ## Example states -/

/-- A device that is not joined and whose MAC is busy: every request is refused. -/
def unjoinedMac : MacState :=
  { joinedMac with NetworkActivation := .ACTIVATION_TYPE_NONE,
                   McpsStatus := .LORAMAC_STATUS_BUSY, MlmeStatus := .LORAMAC_STATUS_BUSY }

/-- An OTAA node that has asked to join, after `n` consecutive join failures. -/
def retryWorld (mode : eMcuSleepMode_t) (n : Nat) : World MacState :=
  { startWorld unjoinedMac with
    CommissioningParams := { IsOtaaActivation := true, DevAddr := 0 },
    mcusleepmode := mode,
    CurReJoinTimes := n }

/-- The node of `startWorld` built with the ABP constructor instead. -/
def abpWorld : World MacState :=
  { startWorld unjoinedMac with
    LmHandlerParams := { (startWorld unjoinedMac).LmHandlerParams with
      joinType := .ACTIVATION_TYPE_ABP } }

/-- An MLME confirm of a join request. -/
def joinConfirm (Status : LoRaMacEventInfoStatus_t) : MlmeConfirm_t :=
  { MlmeRequest := .MLME_JOIN, Status := Status, TxTimeOnAir := 0, DemodMargin := 0,
    NbGateways := 0, NbRetries := 0, BeaconTimingDelay := 0, BeaconTimingChannel := 0 }

/-- A two byte downlink on port 10, received in the first window. -/
def downlink (Status : LoRaMacEventInfoStatus_t) (Rssi : Int) (DownLinkCounter : Nat) :
    McpsIndication_t :=
  { McpsIndication := .MCPS_UNCONFIRMED, Status := Status, Multicast := 0, Port := 10,
    RxDatarate := 3, FramePending := 0, Buffer := 4096, BufferSize := 2, RxData := true,
    Rssi := Rssi, Snr := 5, RxSlot := .RX_SLOT_WIN_1, AckReceived := false,
    DownLinkCounter := DownLinkCounter, DevAddress := 0x26011BDA,
    DeviceTimeAnsReceived := false }

/-! ## Further readers and example states -/

/-- Modelled from the spec: `CN470_MAX_NB_CHANNELS` of `RegionCN470.h`, which is not among
the sources; the spec gives channel masks of up to 96 channels, the CN470 channel count. -/
def CN470_MAX_NB_CHANNELS : Nat := 96

/-- The call is one of the user's tx callback. -/
def Event.isTxCb : Event → Bool
  | .txCb _ _ _ _ => true
  | _ => false

/-- The calls of the user's tx callback in a log, oldest first. -/
def txCbCalls (trace : List Event) : List Event :=
  trace.filter Event.isTxCb

/-- The call is a MIB get or set, `LoRaMacStart` or `OnNetworkParametersChange`. -/
def Event.isSetupCall : Event → Bool
  | .LoRaMacMibGetRequestConfirm _ => true
  | .LoRaMacMibSetRequestConfirm _ => true
  | .LoRaMacStart => true
  | .OnNetworkParametersChange _ => true
  | _ => false

/-- Channel `ch` is selected by a channel mask of 16-bit words: bit `ch % 16` of word
`ch / 16`. -/
def chanSelected (mask : List Nat) (ch : Nat) : Bool :=
  (mask.getD (ch / 16) 0).testBit (ch % 16)

/-- The statics of `startWorld` with every package slot empty, as they are when
`LmHandlerPackageRegister` has not been called. -/
def bareWorld (mac : MacState) : World MacState :=
  { startWorld mac with LmHandlerPackages := [none, none, none, none] }

/-- The node of `startWorld` in a build for US915. -/
def us915World (mac : MacState) : World MacState :=
  { startWorld mac with
    LmHandlerParams := { (startWorld mac).LmHandlerParams with
      Region := .LORAMAC_REGION_US915 } }

/-- The downlink of `downlink` with the frame-pending bit set. -/
def pendingDownlink : McpsIndication_t :=
  { downlink .LORAMAC_EVENT_INFO_STATUS_OK (-97) 12 with FramePending := 1 }

/-- An MCPS confirm of a confirmed uplink: acknowledged, DR_3, TX power index 1,
channel 2. -/
def ackedConfirm : McpsConfirm_t :=
  { McpsRequest := .MCPS_CONFIRMED, Status := .LORAMAC_EVENT_INFO_STATUS_OK, Datarate := 3,
    TxPower := 1, AckReceived := true, NbRetries := 0, TxTimeOnAir := 0, UpLinkCounter := 8,
    Channel := 2 }

/-- A timer object as static storage holds it before `TimerInit`: all fields zero. -/
def zeroTimer : TimerEvent_t :=
  { timerNum := 0, oneShot := false, Timestamp := 0, ReloadValue := 0, IsRunning := false,
    Callback := NULL }

/-- A MAC state whose non-volatile context is that of a US915 device. -/
def us915Mac : MacState :=
  { unjoinedMac with Nvm := { unjoinedMac.Nvm with Region := .LORAMAC_REGION_US915 } }

/-- A MAC state whose `LoRaMacInitialization` fails: the region is not supported. -/
def unsupportedMac : MacState :=
  { unjoinedMac with InitStatus := .LORAMAC_STATUS_REGION_NOT_SUPPORTED }

/-- Why the run stopped, if it did not return. -/
def Res.why {σ α : Type} : Res σ α → Option Stop
  | .ret _ _ => none
  | .stop why _ => some why

/-- The downlink of `downlink` that carries the answer to a device-time request. -/
def timeAnsDownlink : McpsIndication_t :=
  { downlink .LORAMAC_EVENT_INFO_STATUS_OK (-97) 12 with DeviceTimeAnsReceived := true }

/-- An MLME indication of kind `kind` with status `Status` and an all-zero beacon. -/
def mlmeIndication (kind : Mlme_t) (Status : LoRaMacEventInfoStatus_t) : MlmeIndication_t :=
  { MlmeIndication := kind, Status := Status,
    BeaconInfo := { Time_Seconds := 0, Time_SubSeconds := 0, Frequency := 0, Datarate := 0,
                    Rssi := 0, Snr := 0, GwSpecific_InfoDesc := 0,
                    GwSpecific_Info := [0, 0, 0, 0, 0, 0] } }

/-- A MAC state whose non-volatile context is that of a CN470 device. -/
def cn470Mac : MacState :=
  { unjoinedMac with Nvm := { unjoinedMac.Nvm with Region := .LORAMAC_REGION_CN470 } }

/-- The memory behind a `buffer` pointer that holds the bytes `bytes`, followed by zeros. -/
def memOf (bytes : List Nat) : Nat → Nat :=
  fun i => bytes.getD i 0

/-! # Theorems -/

/-! ## Running the state transformers -/

@[simp] theorem bind_apply {σ α β : Type} (m : Exec σ α) (f : α → Exec σ β) (w : World σ) :
    (m >>= f) w = match m w with
      | .ret a w1 => f a w1
      | .stop why w1 => .stop why w1 := rfl

@[simp] theorem pure_apply {σ α : Type} (a : α) (w : World σ) :
    (pure a : Exec σ α) w = .ret a w := rfl

@[simp] theorem getWorld_apply {σ : Type} (w : World σ) : getWorld w = .ret w w := rfl

@[simp] theorem modifyWorld_apply {σ : Type} (f : World σ → World σ) (w : World σ) :
    modifyWorld f w = .ret () (f w) := rfl

@[simp] theorem emit_apply {σ : Type} (e : Event) (w : World σ) :
    emit e w = .ret () { w with trace := w.trace ++ [e] } := rfl

@[simp] theorem halt_apply {σ α : Type} (why : Stop) (w : World σ) :
    (halt why : Exec σ α) w = .stop why w := rfl

theorem bind_pure_world {σ α β : Type} (m : Exec σ α) (b : β) (w : World σ) :
    ((m >>= fun _ => (pure b : Exec σ β)) w).world = (m w).world := by
  rw [bind_apply]
  cases m w <;> rfl

theorem bind_pure_value {σ α β : Type} (m : Exec σ α) (b : β) (w : World σ) :
    ((m >>= fun _ => (pure b : Exec σ β)) w).value = (m w).value.map fun _ => b := by
  rw [bind_apply]
  cases m w <;> rfl

theorem startDeepSleep_run {σ : Type} (w : World σ) :
    (startDeepSleep : Exec σ Unit) w =
      .stop .deepSleep { w with trace := w.trace ++
        [.SX126xIOInit, .Radio_Standby, .Radio_Sleep, .pinMode_LORA_SS_OUTPUT,
         .digitalWrite_LORA_SS_HIGH, .rtc_gpio_hold_en_LORA_SS, .esp_deep_sleep_start] } := by
  simp [startDeepSleep]

theorem sendConfirmedPacket_run {σ : Type} (mac : LoRaMac σ) (w : World σ) (port buffer size : Nat) :
    sendConfirmedPacket mac port buffer size w =
      let req : McpsReq_t :=
        if mac.QueryTxPossible size w.mac ≠ .LORAMAC_STATUS_OK then
          { Type_ := .MCPS_UNCONFIRMED, fPort := none, fBuffer := NULL, fBufferSize := 0,
            Datarate := mac.ChannelsDatarate w.mac, NbTrials := none }
        else
          { Type_ := .MCPS_CONFIRMED, fPort := some port, fBuffer := buffer, fBufferSize := size,
            Datarate := mac.ChannelsDatarate w.mac, NbTrials := some w.LmHandlerParams.NbTrials }
      .ret (decide ((mac.McpsRequest req w.mac).1 = .LORAMAC_STATUS_OK))
        { w with
          mac := (mac.McpsRequest req w.mac).2,
          trace := w.trace ++ [.LoRaMacMibGetRequestConfirm .MIB_CHANNELS_DATARATE,
            .LoRaMacQueryTxPossible size, .LoRaMacMcpsRequest req] } := by
  simp only [sendConfirmedPacket, bind_apply, pure_apply, getWorld_apply,
    LoRaMacMibGetRequestConfirm, LoRaMacQueryTxPossible, LoRaMacMcpsRequest]
  split <;> split <;> simp_all

theorem sendUnconfirmedPacket_run {σ : Type} (mac : LoRaMac σ) (w : World σ) (port buffer size : Nat) :
    sendUnconfirmedPacket mac port buffer size w =
      let req : McpsReq_t :=
        if mac.QueryTxPossible size w.mac ≠ .LORAMAC_STATUS_OK then
          { Type_ := .MCPS_UNCONFIRMED, fPort := none, fBuffer := NULL, fBufferSize := 0,
            Datarate := mac.ChannelsDatarate w.mac, NbTrials := none }
        else
          { Type_ := .MCPS_UNCONFIRMED, fPort := some port, fBuffer := buffer, fBufferSize := size,
            Datarate := mac.ChannelsDatarate w.mac, NbTrials := none }
      .ret (decide ((mac.McpsRequest req w.mac).1 ≠ .LORAMAC_STATUS_OK))
        { w with
          mac := (mac.McpsRequest req w.mac).2,
          trace := w.trace ++ [.LoRaMacMibGetRequestConfirm .MIB_CHANNELS_DATARATE,
            .LoRaMacQueryTxPossible size, .LoRaMacMcpsRequest req] } := by
  simp only [sendUnconfirmedPacket, bind_apply, pure_apply, getWorld_apply,
    LoRaMacMibGetRequestConfirm, LoRaMacQueryTxPossible, LoRaMacMcpsRequest]
  split <;> split <;> simp_all

theorem LmHandlerJoinStatus_run {σ : Type} (mac : LoRaMac σ) (w : World σ) :
    LmHandlerJoinStatus mac w =
      .ret (if mac.MibGetStatus .MIB_NETWORK_ACTIVATION w.mac = .LORAMAC_STATUS_OK ∧
              mac.NetworkActivation w.mac ≠ .ACTIVATION_TYPE_NONE
            then .LORAMAC_HANDLER_SET else .LORAMAC_HANDLER_RESET)
        { w with trace := w.trace ++ [.LoRaMacMibGetRequestConfirm .MIB_NETWORK_ACTIVATION] } := by
  simp only [LmHandlerJoinStatus, LoRaMacMibGetRequestConfirm, bind_apply, pure_apply,
    getWorld_apply, ite_apply]
  split_ifs <;> simp_all

theorem eval_backoff_time_ms_world {σ : Type} (w : World σ) :
    (eval_backoff_time_ms w).world = w := by
  unfold eval_backoff_time_ms
  cases backoff_time_ms w.CurReJoinTimes <;> rfl

theorem OnMacMlmeRequest_txCalls {σ : Type} (status : LoRaMacStatus_t) (mlmeReq : MlmeReq_t)
    (w : World σ) :
    txCalls (OnMacMlmeRequest status mlmeReq w).world.trace = txCalls w.trace := by
  cases hb : backoff_time_ms (toUint8 (w.CurReJoinTimes + 1)) <;>
    simp only [OnMacMlmeRequest, startDeepSleep, eval_backoff_time_ms, bind_apply, pure_apply,
      getWorld_apply, modifyWorld_apply, emit_apply, halt_apply, ite_apply, hb] <;>
    split_ifs <;> simp_all [Res.world, txCalls, Event.isTxCall]

theorem OnJoinRequest_txCalls {σ : Type} (mac : LoRaMac σ) (params : LmHandlerJoinParams_t)
    (w : World σ) :
    txCalls (OnJoinRequest mac params w).world.trace = txCalls w.trace := by
  cases hb : backoff_time_ms (toUint8 (w.CurReJoinTimes + 1)) <;>
    simp only [OnJoinRequest, LoRaMacMibSetRequestConfirm, startDeepSleep, eval_backoff_time_ms,
      bind_apply, pure_apply, getWorld_apply, modifyWorld_apply, emit_apply, halt_apply,
      ite_apply, hb] <;>
    split_ifs <;> simp_all [Res.world, txCalls, Event.isTxCall]

theorem LmHandlerJoinRequest_txCalls {σ : Type} (mac : LoRaMac σ) (isOtaa : Bool)
    (w : World σ) :
    txCalls (LmHandlerJoinRequest mac isOtaa w).world.trace = txCalls w.trace := by
  cases isOtaa
  · simp [LmHandlerJoinRequest, LoRaMacMibSetRequestConfirm, OnJoinRequest_txCalls]
    simp [txCalls, Event.isTxCall]
  · simp [LmHandlerJoinRequest, LoRaMacMlmeRequest, OnMacMlmeRequest_txCalls]
    simp [txCalls, Event.isTxCall]

theorem mcpsRequests_txCalls (trace : List Event) :
    mcpsRequests (txCalls trace) = mcpsRequests trace := by
  induction trace with
  | nil => rfl
  | cons e rest ih =>
    cases e <;> simp_all [mcpsRequests, txCalls, List.filter_cons, Event.isTxCall, Event.mcpsRequest]

/-- The run of `LmHandlerSend` when the device is not joined. -/
theorem LmHandlerSend_not_joined {σ : Type} (mac : LoRaMac σ) (w : World σ)
    (appData : LmHandlerAppData_t) (isTxConfirmed : LmHandlerMsgTypes_t)
    (h : ¬ (mac.MibGetStatus .MIB_NETWORK_ACTIVATION w.mac = .LORAMAC_STATUS_OK ∧
              mac.NetworkActivation w.mac ≠ .ACTIVATION_TYPE_NONE)) :
    LmHandlerSend mac appData isTxConfirmed w =
      (LmHandlerJoinRequest mac w.CommissioningParams.IsOtaaActivation >>=
          fun _ => pure .LORAMAC_HANDLER_ERROR)
        { w with trace := w.trace ++ [.LoRaMacMibGetRequestConfirm .MIB_NETWORK_ACTIVATION] } := by
  simp only [LmHandlerSend, bind_apply, LmHandlerJoinStatus_run, if_neg h, getWorld_apply,
    pure_apply]
  simp

theorem LmHandlerPackages_at_none {σ : Type} (id : Nat) (w : World σ)
    (h : w.LmHandlerPackages.getD id none = none) :
    LmHandlerPackages_at id w = .stop .nullPointer w := by
  simp only [LmHandlerPackages_at, h]

theorem LmHandlerPackages_at_some {σ : Type} (id : Nat) (w : World σ) (pkg : LmhPackage_t)
    (h : w.LmHandlerPackages.getD id none = some pkg) :
    LmHandlerPackages_at id w = .ret pkg w := by
  simp only [LmHandlerPackages_at, h]

/-- The run of `LmHandlerSend` when the device is joined and the compliance slot is empty. -/
theorem LmHandlerSend_joined_empty_slot {σ : Type} (mac : LoRaMac σ) (w : World σ)
    (appData : LmHandlerAppData_t) (isTxConfirmed : LmHandlerMsgTypes_t)
    (h : mac.MibGetStatus .MIB_NETWORK_ACTIVATION w.mac = .LORAMAC_STATUS_OK ∧
              mac.NetworkActivation w.mac ≠ .ACTIVATION_TYPE_NONE)
    (hp : w.LmHandlerPackages.getD PACKAGE_ID_COMPLIANCE none = none) :
    LmHandlerSend mac appData isTxConfirmed w =
      .stop .nullPointer
        { w with trace := w.trace ++ [.LoRaMacMibGetRequestConfirm .MIB_NETWORK_ACTIVATION] } := by
  simp only [LmHandlerSend, bind_apply, LmHandlerJoinStatus_run, if_pos h]
  simp only [ne_eq, not_true_eq_false, if_false, bind_apply, pure_apply]
  rw [LmHandlerPackages_at_none _ _ (by exact hp)]

/-- The run of `LmHandlerSend` when the device is joined and the compliance package is registered. -/
theorem LmHandlerSend_joined {σ : Type} (mac : LoRaMac σ) (w : World σ)
    (appData : LmHandlerAppData_t) (isTxConfirmed : LmHandlerMsgTypes_t)
    (compliance : LmhPackage_t)
    (h : mac.MibGetStatus .MIB_NETWORK_ACTIVATION w.mac = .LORAMAC_STATUS_OK ∧
              mac.NetworkActivation w.mac ≠ .ACTIVATION_TYPE_NONE)
    (hp : w.LmHandlerPackages.getD PACKAGE_ID_COMPLIANCE none = some compliance) :
    LmHandlerSend mac appData isTxConfirmed w =
      let w1 : World σ :=
        { w with trace := w.trace ++ [.LoRaMacMibGetRequestConfirm .MIB_NETWORK_ACTIVATION] }
      if compliance.IsRunning = true ∧ appData.Port ≠ compliance.Port ∧ appData.Port ≠ 0 then
        .ret .LORAMAC_HANDLER_ERROR w1
      else
        let fits := mac.QueryTxPossible appData.BufferSize w.mac = .LORAMAC_STATUS_OK
        let req : McpsReq_t :=
          { Type_ := if fits ∧ isTxConfirmed ≠ .LORAMAC_HANDLER_UNCONFIRMED_MSG
                       then .MCPS_CONFIRMED else .MCPS_UNCONFIRMED,
            fPort := if fits then some appData.Port else none,
            fBuffer := if fits then appData.Buffer else NULL,
            fBufferSize := if fits then appData.BufferSize else 0,
            Datarate := w.LmHandlerParams.TxDatarate,
            NbTrials := if fits ∧ isTxConfirmed ≠ .LORAMAC_HANDLER_UNCONFIRMED_MSG
                       then some 8 else none }
        .ret (if (mac.McpsRequest req w.mac).1 = .LORAMAC_STATUS_OK
                then .LORAMAC_HANDLER_SUCCESS else .LORAMAC_HANDLER_ERROR)
          { w with
            mac := (mac.McpsRequest req w.mac).2,
            trace := w.trace ++ [.LoRaMacMibGetRequestConfirm .MIB_NETWORK_ACTIVATION,
              .LoRaMacQueryTxPossible appData.BufferSize, .LoRaMacMcpsRequest req,
              .OnMacMcpsRequest (mac.McpsRequest req w.mac).1 req],
            TxParams := { w.TxParams with
              MsgType := if fits then isTxConfirmed else .LORAMAC_HANDLER_UNCONFIRMED_MSG,
              AppData := appData,
              Datarate := w.LmHandlerParams.TxDatarate } } := by
  simp only [LmHandlerSend, bind_apply, LmHandlerJoinStatus_run, if_pos h]
  simp only [ne_eq, not_true_eq_false, if_false, bind_apply, pure_apply]
  rw [LmHandlerPackages_at_some _ _ compliance (by exact hp)]
  simp only [bind_apply, pure_apply, getWorld_apply, ite_apply, LoRaMacQueryTxPossible,
    LoRaMacMcpsRequest, OnMacMcpsRequest, modifyWorld_apply, emit_apply]
  split_ifs <;> simp_all



/-! ## The claims -/

/-- C1.  For every port, buffer and size, the MCPS request that `sendConfirmedPacket` and
`sendUnconfirmedPacket` hand to `LoRaMacMcpsRequest` (each hands over exactly one), and every
request that `LmHandlerSend` hands over (it hands over at most one), has one of two shapes:
if `LoRaMacQueryTxPossible(size)` answered `LORAMAC_STATUS_OK` it carries the caller's port,
buffer pointer and size unchanged; otherwise it is the `MCPS_UNCONFIRMED` flush frame with
`fBuffer = NULL` and `fBufferSize = 0`. -/
theorem mcps_request_two_shapes {σ : Type} (mac : LoRaMac σ) (w : World σ)
    (port buffer size : Nat) (isTxConfirmed : LmHandlerMsgTypes_t) :
    (∃ req, mcpsRequests (sendConfirmedPacket mac port buffer size w).world.trace =
        mcpsRequests w.trace ++ [req] ∧
      (mac.QueryTxPossible size w.mac = .LORAMAC_STATUS_OK → req.carries port buffer size) ∧
      (mac.QueryTxPossible size w.mac ≠ .LORAMAC_STATUS_OK → req.isFlush)) ∧
    (∃ req, mcpsRequests (sendUnconfirmedPacket mac port buffer size w).world.trace =
        mcpsRequests w.trace ++ [req] ∧
      (mac.QueryTxPossible size w.mac = .LORAMAC_STATUS_OK → req.carries port buffer size) ∧
      (mac.QueryTxPossible size w.mac ≠ .LORAMAC_STATUS_OK → req.isFlush)) ∧
    (∃ reqs, mcpsRequests (LmHandlerSend mac { Port := port, BufferSize := size, Buffer := buffer }
          isTxConfirmed w).world.trace = mcpsRequests w.trace ++ reqs ∧
      reqs.length ≤ 1 ∧
      ∀ req ∈ reqs,
        (mac.QueryTxPossible size w.mac = .LORAMAC_STATUS_OK → req.carries port buffer size) ∧
        (mac.QueryTxPossible size w.mac ≠ .LORAMAC_STATUS_OK → req.isFlush)) := by
  refine ⟨?_, ?_, ?_⟩
  · rw [sendConfirmedPacket_run]
    by_cases hq : mac.QueryTxPossible size w.mac = .LORAMAC_STATUS_OK
    · exact ⟨{ Type_ := .MCPS_CONFIRMED, fPort := some port, fBuffer := buffer,
               fBufferSize := size, Datarate := mac.ChannelsDatarate w.mac,
               NbTrials := some w.LmHandlerParams.NbTrials },
        by simp [hq, Res.world, mcpsRequests, Event.mcpsRequest],
        by simp [McpsReq_t.carries], by simp [hq]⟩
    · exact ⟨{ Type_ := .MCPS_UNCONFIRMED, fPort := none, fBuffer := NULL, fBufferSize := 0,
               Datarate := mac.ChannelsDatarate w.mac, NbTrials := none },
        by simp [hq, Res.world, mcpsRequests, Event.mcpsRequest],
        by simp [hq], by simp [McpsReq_t.isFlush]⟩
  · rw [sendUnconfirmedPacket_run]
    by_cases hq : mac.QueryTxPossible size w.mac = .LORAMAC_STATUS_OK
    · exact ⟨{ Type_ := .MCPS_UNCONFIRMED, fPort := some port, fBuffer := buffer,
               fBufferSize := size, Datarate := mac.ChannelsDatarate w.mac, NbTrials := none },
        by simp [hq, Res.world, mcpsRequests, Event.mcpsRequest],
        by simp [McpsReq_t.carries], by simp [hq]⟩
    · exact ⟨{ Type_ := .MCPS_UNCONFIRMED, fPort := none, fBuffer := NULL, fBufferSize := 0,
               Datarate := mac.ChannelsDatarate w.mac, NbTrials := none },
        by simp [hq, Res.world, mcpsRequests, Event.mcpsRequest],
        by simp [hq], by simp [McpsReq_t.isFlush]⟩
  · by_cases hj : mac.MibGetStatus .MIB_NETWORK_ACTIVATION w.mac = .LORAMAC_STATUS_OK ∧
        mac.NetworkActivation w.mac ≠ .ACTIVATION_TYPE_NONE
    · cases hp : w.LmHandlerPackages.getD PACKAGE_ID_COMPLIANCE none with
      | none =>
        rw [LmHandlerSend_joined_empty_slot mac w _ _ hj hp]
        exact ⟨[], by simp [Res.world, mcpsRequests, Event.mcpsRequest], by simp, by simp⟩
      | some compliance =>
        rw [LmHandlerSend_joined mac w _ _ compliance hj hp]
        by_cases hb : compliance.IsRunning = true ∧ port ≠ compliance.Port ∧ port ≠ 0
        · exact ⟨[], by simp [hb, Res.world, mcpsRequests, Event.mcpsRequest], by simp, by simp⟩
        · by_cases hq : mac.QueryTxPossible size w.mac = .LORAMAC_STATUS_OK
          · exact ⟨[{ Type_ := if isTxConfirmed ≠ .LORAMAC_HANDLER_UNCONFIRMED_MSG
                         then .MCPS_CONFIRMED else .MCPS_UNCONFIRMED,
                      fPort := some port, fBuffer := buffer, fBufferSize := size,
                      Datarate := w.LmHandlerParams.TxDatarate,
                      NbTrials := if isTxConfirmed ≠ .LORAMAC_HANDLER_UNCONFIRMED_MSG
                         then some 8 else none }],
              by simp [hb, hq, Res.world, mcpsRequests, Event.mcpsRequest], by simp,
              by simp [hq, McpsReq_t.carries]⟩
          · exact ⟨[{ Type_ := .MCPS_UNCONFIRMED, fPort := none, fBuffer := NULL,
                      fBufferSize := 0, Datarate := w.LmHandlerParams.TxDatarate,
                      NbTrials := none }],
              by simp [hb, hq, Res.world, mcpsRequests, Event.mcpsRequest], by simp,
              by simp [hq, McpsReq_t.isFlush]⟩
    · rw [LmHandlerSend_not_joined mac w _ _ hj]
      refine ⟨[], ?_, by simp, by simp⟩
      rw [bind_pure_world]
      rw [← mcpsRequests_txCalls, LmHandlerJoinRequest_txCalls, mcpsRequests_txCalls]
      simp [mcpsRequests, Event.mcpsRequest]


/-- C2.  The code at the failing input: a 4 byte payload fits, the request built from it
is answered `LORAMAC_STATUS_OK` by the MAC, and `sendUnconfirmedPacket` returns `false`
("Send failed"), where `sendConfirmedPacket` returns `true` on the same input. -/
theorem sendUnconfirmedPacket_ok_reported_as_failure :
    simpleMac.QueryTxPossible 4 joinedMac = .LORAMAC_STATUS_OK ∧
    mcpsRequests (sendUnconfirmedPacket simpleMac 1 4096 4 (startWorld joinedMac)).world.trace =
      [{ Type_ := .MCPS_UNCONFIRMED, fPort := some 1, fBuffer := 4096, fBufferSize := 4,
         Datarate := 3, NbTrials := none }] ∧
    (simpleMac.McpsRequest
      { Type_ := .MCPS_UNCONFIRMED, fPort := some 1, fBuffer := 4096, fBufferSize := 4,
        Datarate := 3, NbTrials := none } joinedMac).1 = .LORAMAC_STATUS_OK ∧
    (sendUnconfirmedPacket simpleMac 1 4096 4 (startWorld joinedMac)).value = some false ∧
    (sendConfirmedPacket simpleMac 1 4096 4 (startWorld joinedMac)).value = some true := by
  decide

/-- The value of `sendUnconfirmedPacket` on every input: `true` exactly when the MAC did
not answer `LORAMAC_STATUS_OK` to the request handed over. -/
theorem sendUnconfirmedPacket_value {σ : Type} (mac : LoRaMac σ) (w : World σ)
    (port buffer size : Nat) :
    ∃ req, mcpsRequests (sendUnconfirmedPacket mac port buffer size w).world.trace =
        mcpsRequests w.trace ++ [req] ∧
      (sendUnconfirmedPacket mac port buffer size w).value =
        some (decide ((mac.McpsRequest req w.mac).1 ≠ .LORAMAC_STATUS_OK)) := by
  rw [sendUnconfirmedPacket_run]
  exact ⟨_, by simp [Res.world, mcpsRequests, Event.mcpsRequest], rfl⟩

/-- C3 fails on the code.  A 200 byte payload that `LoRaMacQueryTxPossible` rejects is
replaced by the empty unconfirmed flush frame, the MAC accepts that frame and
`sendConfirmedPacket` returns `true`: the only request handed to the MAC is the flush
frame, none is an `MCPS_CONFIRMED` request carrying the caller's payload. -/
theorem sendConfirmedPacket_true_after_flush :
    simpleMac.QueryTxPossible 200 (startWorld joinedMac).mac ≠ .LORAMAC_STATUS_OK ∧
    (sendConfirmedPacket simpleMac 1 4096 200 (startWorld joinedMac)).value = some true ∧
    mcpsRequests (sendConfirmedPacket simpleMac 1 4096 200 (startWorld joinedMac)).world.trace =
      [{ Type_ := .MCPS_UNCONFIRMED, fPort := none, fBuffer := NULL, fBufferSize := 0,
         Datarate := 3, NbTrials := none }] ∧
    ¬ ((sendConfirmedPacket simpleMac 1 4096 200 (startWorld joinedMac)).value = some true →
        ∃ req ∈ mcpsRequests
            (sendConfirmedPacket simpleMac 1 4096 200 (startWorld joinedMac)).world.trace,
          req.Type_ = .MCPS_CONFIRMED ∧ req.carries 1 4096 200) := by
  decide

/-- What `sendConfirmedPacket` hands to the MAC and returns, for every MAC and state: one
request, and `true` exactly when the MAC answered `LORAMAC_STATUS_OK` to it.  When
`LoRaMacQueryTxPossible` accepted the size the request is `MCPS_CONFIRMED` with the
caller's port, buffer and size; when it rejected the size the request is the flush frame. -/
theorem sendConfirmedPacket_status {σ : Type} (mac : LoRaMac σ) (w : World σ)
    (port buffer size : Nat) :
    ∃ req, mcpsRequests (sendConfirmedPacket mac port buffer size w).world.trace =
        mcpsRequests w.trace ++ [req] ∧
      ((sendConfirmedPacket mac port buffer size w).value = some true ↔
        (mac.McpsRequest req w.mac).1 = .LORAMAC_STATUS_OK) ∧
      ((sendConfirmedPacket mac port buffer size w).value = some false ↔
        (mac.McpsRequest req w.mac).1 ≠ .LORAMAC_STATUS_OK) ∧
      (mac.QueryTxPossible size w.mac = .LORAMAC_STATUS_OK →
        req.Type_ = .MCPS_CONFIRMED ∧ req.carries port buffer size) ∧
      (mac.QueryTxPossible size w.mac ≠ .LORAMAC_STATUS_OK → req.isFlush) := by
  rw [sendConfirmedPacket_run]
  by_cases hq : mac.QueryTxPossible size w.mac = .LORAMAC_STATUS_OK
  · exact ⟨{ Type_ := .MCPS_CONFIRMED, fPort := some port, fBuffer := buffer,
             fBufferSize := size, Datarate := mac.ChannelsDatarate w.mac,
             NbTrials := some w.LmHandlerParams.NbTrials },
      by simp [hq, Res.world, mcpsRequests, Event.mcpsRequest],
      by simp [hq, Res.value], by simp [hq, Res.value],
      by simp [McpsReq_t.carries], by simp [hq]⟩
  · exact ⟨{ Type_ := .MCPS_UNCONFIRMED, fPort := none, fBuffer := NULL, fBufferSize := 0,
             Datarate := mac.ChannelsDatarate w.mac, NbTrials := none },
      by simp [hq, Res.world, mcpsRequests, Event.mcpsRequest],
      by simp [hq, Res.value], by simp [hq, Res.value],
      by simp [hq], by simp [McpsReq_t.isFlush]⟩

/-- C4.  For every MCPS indication whose `Status` is not `LORAMAC_EVENT_INFO_STATUS_OK`,
`McpsIndication` returns having made no call at all (the log is unchanged: no `OnRxData`, no
user rx callback, no package notification, no MAC request), and of the statics only
`RxParams.IsMcpsIndication` and `RxParams.Status` change. -/
theorem McpsIndication_not_ok {σ : Type} (mac : LoRaMac σ) (w : World σ)
    (mcpsIndication : McpsIndication_t)
    (h : mcpsIndication.Status ≠ .LORAMAC_EVENT_INFO_STATUS_OK) :
    McpsIndication mac mcpsIndication w =
        .ret () { w with RxParams := { w.RxParams with IsMcpsIndication := 1,
                                                       Status := mcpsIndication.Status } } ∧
      (McpsIndication mac mcpsIndication w).world.trace = w.trace ∧
      (McpsIndication mac mcpsIndication w).world.RxParams.Rssi = w.RxParams.Rssi ∧
      (McpsIndication mac mcpsIndication w).world.RxParams.Snr = w.RxParams.Snr ∧
      (McpsIndication mac mcpsIndication w).world.RxParams.Datarate = w.RxParams.Datarate ∧
      (McpsIndication mac mcpsIndication w).world.RxParams.DownlinkCounter =
        w.RxParams.DownlinkCounter ∧
      (McpsIndication mac mcpsIndication w).world.RxParams.RxSlot = w.RxParams.RxSlot ∧
      (McpsIndication mac mcpsIndication w).world.RxParams.IsRevACK = w.RxParams.IsRevACK := by
  have hrun : McpsIndication mac mcpsIndication w =
      .ret () { w with RxParams := { w.RxParams with IsMcpsIndication := 1,
                                                     Status := mcpsIndication.Status } } := by
    simp only [McpsIndication, bind_apply, modifyWorld_apply, getWorld_apply, ite_apply]
    simp [h]
  rw [hrun]
  simp [Res.world]

/-- C4 at a downlink rejected with `LORAMAC_EVENT_INFO_STATUS_MIC_FAIL`. -/
theorem McpsIndication_not_ok_witness :
    (downlink .LORAMAC_EVENT_INFO_STATUS_MIC_FAIL (-130) 70000).Status ≠
        .LORAMAC_EVENT_INFO_STATUS_OK ∧
      (McpsIndication simpleMac (downlink .LORAMAC_EVENT_INFO_STATUS_MIC_FAIL (-130) 70000)
        (startWorld joinedMac)).world.trace = (startWorld joinedMac).trace :=
  ⟨by decide,
   (McpsIndication_not_ok simpleMac (startWorld joinedMac)
      (downlink .LORAMAC_EVENT_INFO_STATUS_MIC_FAIL (-130) 70000) (by decide)).2.1⟩


theorem OnJoinRequest_abp_run {σ : Type} (mac : LoRaMac σ) (params : LmHandlerJoinParams_t)
    (w : World σ) (h : w.CommissioningParams.IsOtaaActivation = false) :
    OnJoinRequest mac params w =
      .ret ()
        { w with
          mac := (mac.MibSet (.MIB_CHANNELS_DATARATE w.LmHandlerParams.TxDatarate) w.mac).2,
          trace := w.trace ++
            [.OnJoinRequest params false,
             .LoRaMacMibSetRequestConfirm (.MIB_CHANNELS_DATARATE w.LmHandlerParams.TxDatarate)] ++
            (if w.loraJoinCb = true then
              [.loraJoinCb true
                (mac.McLastDataRssi
                  (mac.MibSet (.MIB_CHANNELS_DATARATE w.LmHandlerParams.TxDatarate) w.mac).2)
                (mac.McLastDataSnr
                  (mac.MibSet (.MIB_CHANNELS_DATARATE w.LmHandlerParams.TxDatarate) w.mac).2)]
             else []),
          CurReJoinTimes := if w.loraJoinCb = true then 0 else w.CurReJoinTimes } := by
  simp only [OnJoinRequest, LoRaMacMibSetRequestConfirm, bind_apply, pure_apply, getWorld_apply,
    modifyWorld_apply, emit_apply, ite_apply, h]
  split_ifs <;> simp_all

/-- C5.  With `joinType = ACTIVATION_TYPE_ABP`, `LmHandlerJoin` returns, and the calls it
makes are exactly: the MIB set of `MIB_NETWORK_ACTIVATION` to `ACTIVATION_TYPE_ABP`, one
`OnJoinRequest` with `Status = LORAMAC_HANDLER_SUCCESS` and `IsOtaaActivation = false`, the
MIB set of the datarate made by `OnJoinRequest` and, when a user join callback is registered,
one call of it with `isOk = true`.  No MLME request is issued. -/
theorem LmHandlerJoin_abp {σ : Type} (mac : LoRaMac σ) (w : World σ)
    (h : w.LmHandlerParams.joinType = .ACTIVATION_TYPE_ABP) :
    (LmHandlerJoin mac w).value = some () ∧
    (LmHandlerJoin mac w).world.trace = w.trace ++
        [.LoRaMacMibSetRequestConfirm (.MIB_NETWORK_ACTIVATION .ACTIVATION_TYPE_ABP),
         .OnJoinRequest { Datarate := w.LmHandlerParams.TxDatarate,
                          Status := .LORAMAC_HANDLER_SUCCESS } false,
         .LoRaMacMibSetRequestConfirm (.MIB_CHANNELS_DATARATE w.LmHandlerParams.TxDatarate)] ++
        (if w.loraJoinCb = true then
          [.loraJoinCb true (mac.McLastDataRssi (LmHandlerJoin mac w).world.mac)
            (mac.McLastDataSnr (LmHandlerJoin mac w).world.mac)]
         else []) ∧
    (LmHandlerJoin mac w).world.trace.filter Event.isMlmeRequest =
      w.trace.filter Event.isMlmeRequest ∧
    joinCbCalls (LmHandlerJoin mac w).world.trace =
      joinCbCalls w.trace ++ (if w.loraJoinCb = true then [true] else []) := by
  have hrun : LmHandlerJoin mac w = OnJoinRequest mac
      { Datarate := w.LmHandlerParams.TxDatarate, Status := .LORAMAC_HANDLER_SUCCESS }
      { w with
        mac := (mac.MibSet (.MIB_NETWORK_ACTIVATION .ACTIVATION_TYPE_ABP) w.mac).2,
        trace := w.trace ++
          [.LoRaMacMibSetRequestConfirm (.MIB_NETWORK_ACTIVATION .ACTIVATION_TYPE_ABP)],
        CommissioningParams := { w.CommissioningParams with IsOtaaActivation := false } } := by
    simp only [LmHandlerJoin, LmHandlerJoinRequest, LoRaMacMibSetRequestConfirm, bind_apply,
      pure_apply, getWorld_apply, modifyWorld_apply, ite_apply, h]
    simp
  rw [hrun, OnJoinRequest_abp_run _ _ _ rfl]
  refine ⟨rfl, ?_, ?_, ?_⟩
  · simp [Res.world]
  · by_cases hc : w.loraJoinCb = true <;> simp [Res.world, hc, Event.isMlmeRequest]
  · by_cases hc : w.loraJoinCb = true <;> simp [Res.world, hc, joinCbCalls, Event.joinCb]

/-- C5 at an ABP node with a join callback registered. -/
theorem LmHandlerJoin_abp_witness :
    abpWorld.LmHandlerParams.joinType = .ACTIVATION_TYPE_ABP ∧
    joinCbCalls (LmHandlerJoin simpleMac abpWorld).world.trace = [true] :=
  ⟨rfl, (LmHandlerJoin_abp simpleMac abpWorld rfl).2.2.2⟩

theorem OnJoinRequest_otaa_joinCbCalls {σ : Type} (mac : LoRaMac σ)
    (params : LmHandlerJoinParams_t) (w : World σ)
    (hOtaa : w.CommissioningParams.IsOtaaActivation = true) (hCb : w.loraJoinCb = true) :
    joinCbCalls (OnJoinRequest mac params w).world.trace =
        joinCbCalls w.trace ++ [decide (params.Status = .LORAMAC_HANDLER_SUCCESS)] := by
  cases hb : backoff_time_ms (toUint8 (w.CurReJoinTimes + 1)) <;>
    simp only [OnJoinRequest, LoRaMacMibSetRequestConfirm, startDeepSleep, eval_backoff_time_ms,
      bind_apply, pure_apply, getWorld_apply, modifyWorld_apply, emit_apply, halt_apply,
      ite_apply, hb, hOtaa, hCb] <;>
    split_ifs <;> simp_all [Res.world, joinCbCalls, Event.joinCb]

theorem OnJoinRequest_otaa_CurReJoinTimes {σ : Type} (mac : LoRaMac σ)
    (params : LmHandlerJoinParams_t) (w : World σ)
    (hOtaa : w.CommissioningParams.IsOtaaActivation = true) (hCb : w.loraJoinCb = true) :
    (OnJoinRequest mac params w).world.CurReJoinTimes =
        if params.Status = .LORAMAC_HANDLER_SUCCESS then 0 else toUint8 (w.CurReJoinTimes + 1) := by
  cases hb : backoff_time_ms (toUint8 (w.CurReJoinTimes + 1)) <;>
    simp only [OnJoinRequest, LoRaMacMibSetRequestConfirm, startDeepSleep, eval_backoff_time_ms,
      bind_apply, pure_apply, getWorld_apply, modifyWorld_apply, emit_apply, halt_apply,
      ite_apply, hb, hOtaa, hCb] <;>
    split_ifs <;> simp_all [Res.world]

theorem OnTxData_run {σ : Type} (params : LmHandlerTxParams_t) (w : World σ)
    (hTx : w.txCb = true → (txeirpOf w.LmHandlerParams.Region params.TxPower).isSome) :
    ∃ evs, OnTxData params w = .ret () { w with trace := w.trace ++ evs } ∧
      joinCbCalls evs = [] := by
  by_cases hc : w.txCb = true
  · obtain ⟨e, he⟩ := Option.isSome_iff_exists.mp (hTx hc)
    refine ⟨[.OnTxData params,
      .txCb (params.AckReceived ≠ 0) params.Datarate (toInt8 e) params.Channel], ?_, ?_⟩
    · simp only [OnTxData, eval_txeirp, bind_apply, pure_apply, getWorld_apply, emit_apply,
        ite_apply, hc]
      simp [he]
    · simp [joinCbCalls, Event.joinCb]
  · refine ⟨[.OnTxData params], ?_, ?_⟩
    · simp only [OnTxData, bind_apply, pure_apply, getWorld_apply, emit_apply, ite_apply, hc]
      simp
    · simp [joinCbCalls, Event.joinCb]

theorem joinCbCalls_packageCalls (notifyType : PackageNotifyTypes_t) (Port : Nat)
    (pkgs : List (Option LmhPackage_t)) (i : Nat) :
    joinCbCalls (packageCalls notifyType Port pkgs i) = [] := by
  induction pkgs generalizing i with
  | nil => rfl
  | cons p rest ih =>
    cases p with
    | none => simpa [packageCalls] using ih (i + 1)
    | some pkg =>
      have := ih (i + 1)
      simp only [packageCalls, joinCbCalls, List.filterMap_append] at this ⊢
      rw [this]
      split_ifs <;> simp [Event.joinCb]

/-- C6, amended.  For an MLME confirm of type `MLME_JOIN` after an OTAA join request, with a
user join callback registered (and the tx callback path of the confirm reading inside its
EIRP table), the join callback is called exactly once, with `isOk = true` if and only if the
confirm's `Status` is `LORAMAC_EVENT_INFO_STATUS_OK`; `CurReJoinTimes` becomes 0 on success
and `(CurReJoinTimes + 1) % 256` on failure (it is a `uint8_t`). -/
theorem MlmeConfirm_join_otaa {σ : Type} (mac : LoRaMac σ) (w : World σ)
    (mlmeConfirm : MlmeConfirm_t)
    (hJoin : mlmeConfirm.MlmeRequest = .MLME_JOIN)
    (hOtaa : w.CommissioningParams.IsOtaaActivation = true)
    (hCb : w.loraJoinCb = true)
    (hTx : w.txCb = true → (txeirpOf w.LmHandlerParams.Region w.TxParams.TxPower).isSome) :
    joinCbCalls (MlmeConfirm mac mlmeConfirm w).world.trace =
        joinCbCalls w.trace ++ [decide (mlmeConfirm.Status = .LORAMAC_EVENT_INFO_STATUS_OK)] ∧
      (MlmeConfirm mac mlmeConfirm w).world.CurReJoinTimes =
        if mlmeConfirm.Status = .LORAMAC_EVENT_INFO_STATUS_OK then 0
        else (w.CurReJoinTimes + 1) % 256 := by
  obtain ⟨evs, hrun, hevs⟩ := OnTxData_run
    ({ w.TxParams with IsMcpsConfirm := 0, Status := mlmeConfirm.Status })
    { w with TxParams := { w.TxParams with IsMcpsConfirm := 0, Status := mlmeConfirm.Status } }
    hTx
  dsimp only at hrun
  simp only [MlmeConfirm, bind_apply, pure_apply, getWorld_apply, modifyWorld_apply, hrun,
    LmHandlerPackagesNotify, hJoin, LoRaMacMibGetRequestConfirm, LmHandlerGetCurrentDatarate,
    ite_apply]
  have happ : ∀ more : List Event,
      joinCbCalls (w.trace ++ evs ++
        packageCalls .PACKAGE_MLME_CONFIRM 0 w.LmHandlerPackages 0 ++ more) =
      joinCbCalls w.trace ++ joinCbCalls more := by
    intro more
    have hp := joinCbCalls_packageCalls .PACKAGE_MLME_CONFIRM 0 w.LmHandlerPackages 0
    simp only [joinCbCalls, List.filterMap_append] at hevs hp ⊢
    simp [hevs, hp]
  split_ifs with hs
  · constructor
    · rw [OnJoinRequest_otaa_joinCbCalls]
      · simp only [List.append_assoc] at happ ⊢
        rw [happ]
        simp [joinCbCalls, Event.joinCb, hs]
      · exact hOtaa
      · exact hCb
    · rw [OnJoinRequest_otaa_CurReJoinTimes]
      · simp
      · exact hOtaa
      · exact hCb
  · constructor
    · rw [OnJoinRequest_otaa_joinCbCalls]
      · simp only [List.append_assoc] at happ ⊢
        rw [happ]
        simp [joinCbCalls, Event.joinCb, hs]
      · exact hOtaa
      · exact hCb
    · rw [OnJoinRequest_otaa_CurReJoinTimes]
      · simp [toUint8]
      · exact hOtaa
      · exact hCb

/-- C6, amended, at the third consecutive join failure of a node in deep-sleep mode. -/
theorem MlmeConfirm_join_otaa_witness :
    (joinConfirm .LORAMAC_EVENT_INFO_STATUS_JOIN_FAIL).MlmeRequest = .MLME_JOIN ∧
    (retryWorld .MCU_DEEP_SLEEP 2).CommissioningParams.IsOtaaActivation = true ∧
    (retryWorld .MCU_DEEP_SLEEP 2).loraJoinCb = true ∧
    joinCbCalls (MlmeConfirm simpleMac (joinConfirm .LORAMAC_EVENT_INFO_STATUS_JOIN_FAIL)
        (retryWorld .MCU_DEEP_SLEEP 2)).world.trace = [false] ∧
    (MlmeConfirm simpleMac (joinConfirm .LORAMAC_EVENT_INFO_STATUS_JOIN_FAIL)
        (retryWorld .MCU_DEEP_SLEEP 2)).world.CurReJoinTimes = 3 :=
  ⟨rfl, rfl, rfl,
    MlmeConfirm_join_otaa simpleMac (retryWorld .MCU_DEEP_SLEEP 2)
      (joinConfirm .LORAMAC_EVENT_INFO_STATUS_JOIN_FAIL) rfl rfl rfl (by decide)⟩

/-- C6, as stated, fails: with `CurReJoinTimes = 255` a failed join leaves the counter at
0, not at 256. -/
theorem CurReJoinTimes_wraps_at_255 :
    (retryWorld .MCU_ACTIVE 255).CurReJoinTimes = 255 ∧
    (MlmeConfirm simpleMac (joinConfirm .LORAMAC_EVENT_INFO_STATUS_JOIN_FAIL)
        (retryWorld .MCU_ACTIVE 255)).world.CurReJoinTimes = 0 ∧
    ¬ ((MlmeConfirm simpleMac (joinConfirm .LORAMAC_EVENT_INFO_STATUS_JOIN_FAIL)
        (retryWorld .MCU_ACTIVE 255)).world.CurReJoinTimes =
          (retryWorld .MCU_ACTIVE 255).CurReJoinTimes + 1) := by
  decide


/-- Up to the 61st consecutive failure the delay is `min (5000 * 2 ^ (n - 1)) 300000`. -/
theorem backoff_time_ms_up_to_61 (n : Nat) (h1 : 1 ≤ n) (h61 : n ≤ 61) :
    backoff_time_ms n = some (min (5000 * 2 ^ (n - 1)) 300000) := by
  interval_cases n <;> rfl

/-- C7.  The code at the failing input: in deep-sleep mode with `CurReJoinTimes = 61`, the
62nd consecutive join failure programs a wake-up delay of 0 (the product
`5000 * (1ULL << 61)` is 0 in `uint64_t`), where the claim gives 300000 ms; both the path
through `OnJoinRequest` and the one through `OnMacMlmeRequest` do so. -/
theorem join_backoff_overflows_at_62 :
    backoff_time_ms 62 = some 0 ∧
    min (5000 * 2 ^ (62 - 1)) 300000 = 300000 ∧
    (MlmeConfirm simpleMac (joinConfirm .LORAMAC_EVENT_INFO_STATUS_JOIN_FAIL)
        (retryWorld .MCU_DEEP_SLEEP 61)).world.CurReJoinTimes = 62 ∧
    wakeupDelays (MlmeConfirm simpleMac (joinConfirm .LORAMAC_EVENT_INFO_STATUS_JOIN_FAIL)
        (retryWorld .MCU_DEEP_SLEEP 61)).world.trace = [0] ∧
    wakeupDelays (LmHandlerJoin simpleMac (retryWorld .MCU_DEEP_SLEEP 61)).world.trace = [0] := by
  decide

/-- An OK indication without `FramePending` and without a `DeviceTimeAns`: the whole run.
The rssi reaches the user callback through the `int8_t` field `RxParams.Rssi`, the counters
through `uint16_t` parameters. -/
theorem McpsIndication_ok_run {σ : Type} (mac : LoRaMac σ) (w : World σ)
    (mcpsIndication : McpsIndication_t)
    (hs : mcpsIndication.Status = .LORAMAC_EVENT_INFO_STATUS_OK)
    (ht : mcpsIndication.DeviceTimeAnsReceived = false)
    (hf : mcpsIndication.FramePending ≠ 1) :
    McpsIndication mac mcpsIndication w =
      .ret ()
        { w with
          RxParams :=
            { IsMcpsIndication := 1,
              Status := mcpsIndication.Status,
              Datarate := toInt8 mcpsIndication.RxDatarate,
              Rssi := toInt8 mcpsIndication.Rssi,
              Snr := mcpsIndication.Snr,
              DownlinkCounter := mcpsIndication.DownLinkCounter,
              RxSlot := toInt8 mcpsIndication.RxSlot.toInt,
              IsRevACK := mcpsIndication.AckReceived },
          trace := w.trace ++
            [.OnRxData
              (some { Port := mcpsIndication.Port, BufferSize := mcpsIndication.BufferSize,
                      Buffer := mcpsIndication.Buffer })
              { IsMcpsIndication := 1,
                Status := mcpsIndication.Status,
                Datarate := toInt8 mcpsIndication.RxDatarate,
                Rssi := toInt8 mcpsIndication.Rssi,
                Snr := mcpsIndication.Snr,
                DownlinkCounter := mcpsIndication.DownLinkCounter,
                RxSlot := toInt8 mcpsIndication.RxSlot.toInt,
                IsRevACK := mcpsIndication.AckReceived }] ++
            (if w.rxCb = true then
              [.rxCb mcpsIndication.Buffer mcpsIndication.BufferSize mcpsIndication.Port
                (toInt8 mcpsIndication.Rssi) mcpsIndication.Snr mcpsIndication.AckReceived
                (toUint16 (mac.GetUplinkCounter w.mac))
                (toUint16 mcpsIndication.DownLinkCounter)]
             else []) ++
            packageCalls .PACKAGE_MCPS_INDICATION mcpsIndication.Port w.LmHandlerPackages 0 } := by
  simp only [McpsIndication, OnRxData, LmHandlerPackagesNotify, bind_apply, pure_apply,
    modifyWorld_apply, getWorld_apply, emit_apply, ite_apply, hs, ht]
  by_cases hc : w.rxCb = true <;> simp [hc, hf]

/-- C8.  The code at the failing input: an OK indication with `Rssi = -130` makes the user's
rx callback receive `rssi = 126`. -/
theorem rssi_below_int8_range_is_wrapped :
    (downlink .LORAMAC_EVENT_INFO_STATUS_OK (-130) 9).Status = .LORAMAC_EVENT_INFO_STATUS_OK ∧
    (downlink .LORAMAC_EVENT_INFO_STATUS_OK (-130) 9).Rssi = -130 ∧
    rxCbCalls (McpsIndication simpleMac (downlink .LORAMAC_EVENT_INFO_STATUS_OK (-130) 9)
      (startWorld joinedMac)).world.trace = [(126, 7, 9)] := by
  decide

/-- C9, as stated, fails: with the MAC's uplink counter at 70000 and an OK indication whose
`DownLinkCounter` is 65541, the user's rx callback receives `uplinkCounter = 4464` and
`downlinkCounter = 5`, not 70000 and 65541. -/
theorem counters_above_65535_are_wrapped :
    (downlink .LORAMAC_EVENT_INFO_STATUS_OK (-97) 65541).Status = .LORAMAC_EVENT_INFO_STATUS_OK ∧
    (downlink .LORAMAC_EVENT_INFO_STATUS_OK (-97) 65541).DownLinkCounter = 65541 ∧
    simpleMac.GetUplinkCounter { joinedMac with UplinkCounter := 70000 } = 70000 ∧
    rxCbCalls (McpsIndication simpleMac (downlink .LORAMAC_EVENT_INFO_STATUS_OK (-97) 65541)
      (startWorld { joinedMac with UplinkCounter := 70000 })).world.trace =
        [(-97, 4464, 5)] ∧
    ¬ (rxCbCounters (McpsIndication simpleMac
        (downlink .LORAMAC_EVENT_INFO_STATUS_OK (-97) 65541)
        (startWorld { joinedMac with UplinkCounter := 70000 })).world.trace =
          [(70000, 65541)]) := by
  decide

theorem OnMacMlmeRequest_rxCbCounters {σ : Type} (status : LoRaMacStatus_t)
    (mlmeReq : MlmeReq_t) (w : World σ) :
    rxCbCounters (OnMacMlmeRequest status mlmeReq w).world.trace = rxCbCounters w.trace := by
  cases hb : backoff_time_ms (toUint8 (w.CurReJoinTimes + 1)) <;>
    simp only [OnMacMlmeRequest, startDeepSleep, eval_backoff_time_ms, bind_apply, pure_apply,
      getWorld_apply, modifyWorld_apply, emit_apply, halt_apply, ite_apply, hb] <;>
    split_ifs <;> simp_all [Res.world, rxCbCounters, Event.rxCbCounters]

theorem OnJoinRequest_rxCbCounters {σ : Type} (mac : LoRaMac σ)
    (params : LmHandlerJoinParams_t) (w : World σ) :
    rxCbCounters (OnJoinRequest mac params w).world.trace = rxCbCounters w.trace := by
  cases hb : backoff_time_ms (toUint8 (w.CurReJoinTimes + 1)) <;>
    simp only [OnJoinRequest, LoRaMacMibSetRequestConfirm, startDeepSleep, eval_backoff_time_ms,
      bind_apply, pure_apply, getWorld_apply, modifyWorld_apply, emit_apply, halt_apply,
      ite_apply, hb] <;>
    split_ifs <;> simp_all [Res.world, rxCbCounters, Event.rxCbCounters]

theorem LmHandlerJoinRequest_rxCbCounters {σ : Type} (mac : LoRaMac σ) (isOtaa : Bool)
    (w : World σ) :
    rxCbCounters (LmHandlerJoinRequest mac isOtaa w).world.trace = rxCbCounters w.trace := by
  cases isOtaa
  · simp [LmHandlerJoinRequest, LoRaMacMibSetRequestConfirm, OnJoinRequest_rxCbCounters]
    simp [rxCbCounters, Event.rxCbCounters]
  · simp [LmHandlerJoinRequest, LoRaMacMlmeRequest, OnMacMlmeRequest_rxCbCounters]
    simp [rxCbCounters, Event.rxCbCounters]

theorem LmHandlerSend_rxCbCounters {σ : Type} (mac : LoRaMac σ) (w : World σ)
    (appData : LmHandlerAppData_t) (isTxConfirmed : LmHandlerMsgTypes_t) :
    rxCbCounters (LmHandlerSend mac appData isTxConfirmed w).world.trace =
      rxCbCounters w.trace := by
  by_cases h : mac.MibGetStatus .MIB_NETWORK_ACTIVATION w.mac = .LORAMAC_STATUS_OK ∧
      mac.NetworkActivation w.mac ≠ .ACTIVATION_TYPE_NONE
  · cases hp : w.LmHandlerPackages.getD PACKAGE_ID_COMPLIANCE none with
    | none =>
      rw [LmHandlerSend_joined_empty_slot mac w _ _ h hp]
      simp [Res.world, rxCbCounters, Event.rxCbCounters]
    | some compliance =>
      rw [LmHandlerSend_joined mac w _ _ compliance h hp]
      simp only
      split_ifs <;> simp [Res.world, rxCbCounters, Event.rxCbCounters]
  · rw [LmHandlerSend_not_joined mac w _ _ h, bind_pure_world,
      LmHandlerJoinRequest_rxCbCounters]
    simp [rxCbCounters, Event.rxCbCounters]

theorem rxCbCounters_packageCalls (notifyType : PackageNotifyTypes_t) (Port : Nat)
    (pkgs : List (Option LmhPackage_t)) (i : Nat) :
    rxCbCounters (packageCalls notifyType Port pkgs i) = [] := by
  induction pkgs generalizing i with
  | nil => rfl
  | cons p rest ih =>
    cases p with
    | none => simpa [packageCalls] using ih (i + 1)
    | some pkg =>
      have := ih (i + 1)
      simp only [packageCalls, rxCbCounters, List.filterMap_append] at this ⊢
      rw [this]
      split_ifs <;> simp [Event.rxCbCounters]


theorem McpsIndication_rxCbCounters {σ : Type} (mac : LoRaMac σ) (w : World σ)
    (mcpsIndication : McpsIndication_t)
    (hs : mcpsIndication.Status = .LORAMAC_EVENT_INFO_STATUS_OK) :
    rxCbCounters (McpsIndication mac mcpsIndication w).world.trace =
      rxCbCounters w.trace ++
        (if w.rxCb = true then
          [(mac.GetUplinkCounter w.mac % 65536, mcpsIndication.DownLinkCounter % 65536)]
         else []) := by
  have hpk := rxCbCounters_packageCalls .PACKAGE_MCPS_INDICATION mcpsIndication.Port
    w.LmHandlerPackages 0
  simp only [McpsIndication, OnRxData, LmHandlerPackagesNotify, LmHandlerGetCurrentClass,
    LoRaMacMibGetRequestConfirm, bind_apply, pure_apply, modifyWorld_apply, getWorld_apply,
    emit_apply, halt_apply, ite_apply, hs]
  simp only [rxCbCounters] at hpk
  by_cases hc : w.rxCb = true <;> by_cases ht : mcpsIndication.DeviceTimeAnsReceived = true <;>
    by_cases hf : mcpsIndication.FramePending = 1 <;>
    by_cases hcl : mac.Class w.mac = .CLASS_A <;>
    simp only [hc, ht, hf, hcl, if_true, if_false, ne_eq, not_true_eq_false, not_false_eq_true,
      Bool.false_eq_true, reduceCtorEq] <;>
    first
    | (split <;> rename_i heq <;>
        have key := congrArg (fun r => rxCbCounters r.world.trace) heq <;>
        simp only [LmHandlerSend_rxCbCounters] at key <;>
        simp only [Res.world] at key ⊢ <;>
        rw [← key] <;>
        simp [rxCbCounters, Event.rxCbCounters, toUint16, List.filterMap_append, hpk])
    | simp [Res.world, rxCbCounters, Event.rxCbCounters, toUint16, List.filterMap_append, hpk]

/-- C9, amended.  For every MCPS indication with `Status` OK, the user's rx callback, when
one is registered, is called once, and the uplinkCounter and downlinkCounter passed to it
are the MAC's uplink counter (`GetUplinkCounter`) and the indication's `DownLinkCounter`
reduced modulo 65536, the two parameters being `uint16_t`: they equal the counters whenever
these are at most 65535. -/
theorem rx_callback_counters_are_16_bit {σ : Type} (mac : LoRaMac σ) (w : World σ)
    (mcpsIndication : McpsIndication_t)
    (hs : mcpsIndication.Status = .LORAMAC_EVENT_INFO_STATUS_OK) :
    rxCbCounters (McpsIndication mac mcpsIndication w).world.trace =
      rxCbCounters w.trace ++
        (if w.rxCb = true then
          [(mac.GetUplinkCounter w.mac % 65536, mcpsIndication.DownLinkCounter % 65536)]
         else []) ∧
    (mac.GetUplinkCounter w.mac ≤ 65535 → mcpsIndication.DownLinkCounter ≤ 65535 →
      rxCbCounters (McpsIndication mac mcpsIndication w).world.trace =
        rxCbCounters w.trace ++
          (if w.rxCb = true then
            [(mac.GetUplinkCounter w.mac, mcpsIndication.DownLinkCounter)]
           else [])) := by
  refine ⟨McpsIndication_rxCbCounters mac w mcpsIndication hs, fun hu hd => ?_⟩
  rw [McpsIndication_rxCbCounters mac w mcpsIndication hs,
    Nat.mod_eq_of_lt (by omega : mac.GetUplinkCounter w.mac < 65536),
    Nat.mod_eq_of_lt (by omega : mcpsIndication.DownLinkCounter < 65536)]

/-- C9, amended, at counters above 65535 (the low 16 bits are passed) and at counters below
(the counters themselves are passed). -/
theorem rx_callback_counters_are_16_bit_witness :
    (downlink .LORAMAC_EVENT_INFO_STATUS_OK (-97) 65541).Status = .LORAMAC_EVENT_INFO_STATUS_OK ∧
    rxCbCounters (McpsIndication simpleMac (downlink .LORAMAC_EVENT_INFO_STATUS_OK (-97) 65541)
      (startWorld { joinedMac with UplinkCounter := 70000 })).world.trace = [(4464, 5)] ∧
    rxCbCounters (McpsIndication simpleMac (downlink .LORAMAC_EVENT_INFO_STATUS_OK (-97) 12)
      (startWorld joinedMac)).world.trace = [(7, 12)] :=
  ⟨rfl,
   (rx_callback_counters_are_16_bit simpleMac
      (startWorld { joinedMac with UplinkCounter := 70000 })
      (downlink .LORAMAC_EVENT_INFO_STATUS_OK (-97) 65541) rfl).1,
   (rx_callback_counters_are_16_bit simpleMac (startWorld joinedMac)
      (downlink .LORAMAC_EVENT_INFO_STATUS_OK (-97) 12) rfl).2 (by decide) (by decide)⟩



theorem OnMacMlmeRequest_value {σ : Type} (status : LoRaMacStatus_t) (mlmeReq : MlmeReq_t)
    (w : World σ) :
    (OnMacMlmeRequest status mlmeReq w).value = none ↔
      mlmeReq.Type_ = .MLME_JOIN ∧ status ≠ .LORAMAC_STATUS_OK ∧ w.loraJoinCb = true ∧
        w.mcusleepmode = .MCU_DEEP_SLEEP := by
  cases hb : backoff_time_ms (toUint8 (w.CurReJoinTimes + 1)) <;>
    simp only [OnMacMlmeRequest, startDeepSleep, eval_backoff_time_ms, bind_apply, pure_apply,
      getWorld_apply, modifyWorld_apply, emit_apply, halt_apply, ite_apply, hb] <;>
    split_ifs <;> simp_all [Res.value]

theorem LmHandlerJoinRequest_value {σ : Type} (mac : LoRaMac σ) (isOtaa : Bool) (w : World σ) :
    (LmHandlerJoinRequest mac isOtaa w).value = none ↔
      isOtaa = true ∧
      (mac.MlmeRequest { Type_ := .MLME_JOIN, Datarate := some DR_0, Periodicity := none }
        w.mac).1 ≠ .LORAMAC_STATUS_OK ∧
      w.loraJoinCb = true ∧ w.mcusleepmode = .MCU_DEEP_SLEEP := by
  cases isOtaa
  · simp only [LmHandlerJoinRequest, LoRaMacMibSetRequestConfirm, bind_apply, pure_apply,
      getWorld_apply, modifyWorld_apply, ite_apply]
    simp only [Bool.false_eq_true, if_false, false_and, iff_false]
    rw [OnJoinRequest_abp_run _ _ _ rfl]
    simp [Res.value]
  · simp only [LmHandlerJoinRequest, LoRaMacMlmeRequest, bind_apply, pure_apply,
      getWorld_apply, modifyWorld_apply, ite_apply]
    simp only [if_true, true_and]
    rw [OnMacMlmeRequest_value]
    simp

/-- C10, amended.  With a compliance package registered, `LmHandlerSend` returns
`LORAMAC_HANDLER_SUCCESS` if and only if the device is joined, the request is not blocked
by a running compliance test and `LoRaMacMcpsRequest` answered `LORAMAC_STATUS_OK` to the
one request handed over.  When the device is not joined it calls neither
`LoRaMacQueryTxPossible` nor `LoRaMacMcpsRequest`; it only re-triggers the join (its final
state is that of `LmHandlerJoinRequest`), and it returns `LORAMAC_HANDLER_ERROR` unless the
re-triggered join does not return: that is the case exactly when the activation is OTAA, the
MAC refuses the join request, a join callback is registered and deep-sleep mode is on. -/
theorem LmHandlerSend_status {σ : Type} (mac : LoRaMac σ) (w : World σ)
    (appData : LmHandlerAppData_t) (isTxConfirmed : LmHandlerMsgTypes_t)
    (compliance : LmhPackage_t)
    (hp : w.LmHandlerPackages.getD PACKAGE_ID_COMPLIANCE none = some compliance) :
    ((LmHandlerSend mac appData isTxConfirmed w).value = some .LORAMAC_HANDLER_SUCCESS ↔
      (LmHandlerJoinStatus mac w).value = some .LORAMAC_HANDLER_SET ∧
      ¬ (compliance.IsRunning = true ∧ appData.Port ≠ compliance.Port ∧ appData.Port ≠ 0) ∧
      ∃ req, mcpsRequests (LmHandlerSend mac appData isTxConfirmed w).world.trace =
          mcpsRequests w.trace ++ [req] ∧
        (mac.McpsRequest req w.mac).1 = .LORAMAC_STATUS_OK) ∧
    ((LmHandlerJoinStatus mac w).value ≠ some .LORAMAC_HANDLER_SET →
      txCalls (LmHandlerSend mac appData isTxConfirmed w).world.trace = txCalls w.trace ∧
      (LmHandlerSend mac appData isTxConfirmed w).world =
        (LmHandlerJoinRequest mac w.CommissioningParams.IsOtaaActivation
          { w with trace := w.trace ++
            [.LoRaMacMibGetRequestConfirm .MIB_NETWORK_ACTIVATION] }).world ∧
      ((LmHandlerSend mac appData isTxConfirmed w).value = some .LORAMAC_HANDLER_ERROR ∨
        (LmHandlerSend mac appData isTxConfirmed w).value = none) ∧
      ((LmHandlerSend mac appData isTxConfirmed w).value = none ↔
        w.CommissioningParams.IsOtaaActivation = true ∧
        (mac.MlmeRequest { Type_ := .MLME_JOIN, Datarate := some DR_0, Periodicity := none }
          w.mac).1 ≠ .LORAMAC_STATUS_OK ∧
        w.loraJoinCb = true ∧ w.mcusleepmode = .MCU_DEEP_SLEEP)) := by
  have hjs : (LmHandlerJoinStatus mac w).value = some .LORAMAC_HANDLER_SET ↔
      (mac.MibGetStatus .MIB_NETWORK_ACTIVATION w.mac = .LORAMAC_STATUS_OK ∧
        mac.NetworkActivation w.mac ≠ .ACTIVATION_TYPE_NONE) := by
    rw [LmHandlerJoinStatus_run]
    by_cases hj : mac.MibGetStatus .MIB_NETWORK_ACTIVATION w.mac = .LORAMAC_STATUS_OK ∧
        mac.NetworkActivation w.mac ≠ .ACTIVATION_TYPE_NONE
    · simp [Res.value, hj]
    · simp only [Res.value, if_neg hj]
      simp only [Option.some.injEq, reduceCtorEq, false_iff]
      exact hj
  rw [hjs]
  by_cases hj : mac.MibGetStatus .MIB_NETWORK_ACTIVATION w.mac = .LORAMAC_STATUS_OK ∧
      mac.NetworkActivation w.mac ≠ .ACTIVATION_TYPE_NONE
  · refine ⟨?_, fun h => absurd (hjs.mpr hj) h⟩
    rw [LmHandlerSend_joined mac w _ _ compliance hj hp]
    by_cases hb : compliance.IsRunning = true ∧ appData.Port ≠ compliance.Port ∧ appData.Port ≠ 0
    · simp [hb, Res.value]
    · simp only [hb, if_false, not_false_eq_true, true_and, hj, Res.value, Res.world]
      simp only [mcpsRequests, List.filterMap_append]
      simp [Event.mcpsRequest, hj.1, hj.2]
  · refine ⟨?_, fun _ => ?_⟩
    · rw [LmHandlerSend_not_joined mac w _ _ hj, bind_pure_value]
      simp only [hj, false_and, iff_false]
      cases (LmHandlerJoinRequest mac w.CommissioningParams.IsOtaaActivation _).value <;> simp
    · rw [LmHandlerSend_not_joined mac w _ _ hj, bind_pure_value, bind_pure_world]
      refine ⟨?_, rfl, ?_, ?_⟩
      · rw [LmHandlerJoinRequest_txCalls]
        simp [txCalls, Event.isTxCall]
      · cases (LmHandlerJoinRequest mac w.CommissioningParams.IsOtaaActivation _).value <;> simp
      · rw [← LmHandlerJoinRequest_value mac w.CommissioningParams.IsOtaaActivation
          { w with trace := w.trace ++ [.LoRaMacMibGetRequestConfirm .MIB_NETWORK_ACTIVATION] }]
        simp

/-- C10, amended, at a joined node with the compliance package registered. -/
theorem LmHandlerSend_status_witness :
    (startWorld joinedMac).LmHandlerPackages.getD PACKAGE_ID_COMPLIANCE none =
        some { Port := 224, IsRunning := false, OnMcpsConfirmProcess := true,
               OnMcpsIndicationProcess := true, OnMlmeConfirmProcess := true,
               OnMlmeIndicationProcess := false } ∧
    (LmHandlerSend simpleMac { Port := 1, BufferSize := 4, Buffer := 4096 }
        .LORAMAC_HANDLER_CONFIRMED_MSG (startWorld joinedMac)).value =
      some .LORAMAC_HANDLER_SUCCESS :=
  ⟨rfl,
   (LmHandlerSend_status simpleMac (startWorld joinedMac)
      { Port := 1, BufferSize := 4, Buffer := 4096 } .LORAMAC_HANDLER_CONFIRMED_MSG _ rfl).1.mpr
     ⟨by decide, by decide,
      { Type_ := .MCPS_CONFIRMED, fPort := some 1, fBuffer := 4096, fBufferSize := 4,
        Datarate := 3, NbTrials := some 8 }, by decide, by decide⟩⟩

/-- C10, as stated, fails: on a node that is not joined, in deep-sleep mode, whose MAC
refuses the join request, `LmHandlerSend` does not return `LORAMAC_HANDLER_ERROR` (the MCU
enters deep sleep inside the join callback). -/
theorem LmHandlerSend_sleeps_instead_of_returning :
    (retryWorld .MCU_DEEP_SLEEP 0).LmHandlerPackages.getD PACKAGE_ID_COMPLIANCE none ≠ none ∧
    (LmHandlerJoinStatus simpleMac (retryWorld .MCU_DEEP_SLEEP 0)).value ≠
      some .LORAMAC_HANDLER_SET ∧
    ¬ ((LmHandlerSend simpleMac { Port := 1, BufferSize := 4, Buffer := 4096 }
        .LORAMAC_HANDLER_UNCONFIRMED_MSG (retryWorld .MCU_DEEP_SLEEP 0)).value =
      some .LORAMAC_HANDLER_ERROR) := by
  decide

/-! ## `join` -/

theorem LmHandlerJoin_value {σ : Type} (mac : LoRaMac σ) (w : World σ) :
    (LmHandlerJoin mac w).value = none ↔
      w.LmHandlerParams.joinType = .ACTIVATION_TYPE_OTAA ∧
      (mac.MlmeRequest { Type_ := .MLME_JOIN, Datarate := some DR_0, Periodicity := none }
        w.mac).1 ≠ .LORAMAC_STATUS_OK ∧
      w.loraJoinCb = true ∧ w.mcusleepmode = .MCU_DEEP_SLEEP := by
  simp only [LmHandlerJoin, bind_apply, pure_apply, getWorld_apply, ite_apply]
  by_cases h1 : w.LmHandlerParams.joinType = .ACTIVATION_TYPE_OTAA
  · simp only [h1, if_true, true_and]
    rw [LmHandlerJoinRequest_value]
    simp
  · simp only [h1, if_false, false_and, iff_false]
    by_cases h2 : w.LmHandlerParams.joinType = .ACTIVATION_TYPE_ABP
    · simp only [h2, if_true]
      rw [LmHandlerJoinRequest_value]
      simp
    · simp [h2, Res.value]

theorem join_joined {σ : Type} (mac : LoRaMac σ) (callback : Bool) (w : World σ)
    (h : mac.NetworkActivation w.mac ≠ .ACTIVATION_TYPE_NONE) :
    join mac callback w = .ret 0
      { w with loraJoinCb := callback,
               trace := w.trace ++ [.LoRaMacMibGetRequestConfirm .MIB_NETWORK_ACTIVATION,
                                    .xSemaphoreGive_loraStateSem] } := by
  simp only [join, isNetworkJoined, LoRaMacMibGetRequestConfirm, bind_apply, pure_apply,
    getWorld_apply, modifyWorld_apply, emit_apply, ite_apply]
  simp [h]

theorem join_not_joined {σ : Type} (mac : LoRaMac σ) (callback : Bool) (w : World σ)
    (h : mac.NetworkActivation w.mac = .ACTIVATION_TYPE_NONE) :
    join mac callback w = (LmHandlerJoin mac >>= fun _ => pure 1)
      { w with loraJoinCb := callback,
               trace := w.trace ++ [.LoRaMacMibGetRequestConfirm .MIB_NETWORK_ACTIVATION] } := by
  simp only [join, isNetworkJoined, LoRaMacMibGetRequestConfirm, bind_apply, pure_apply,
    getWorld_apply, modifyWorld_apply, emit_apply, ite_apply]
  simp [h]

/-- C11, amended.  `LoRaWAN_Node::join(cb)` stores `cb` and reads the network activation.
If the MAC reports an activation other than `ACTIVATION_TYPE_NONE` it returns 0 and the only
calls made are the MIB get and `xSemaphoreGive(loraStateSem)`: no join, no call of `cb`.
Otherwise it runs `LmHandlerJoin` exactly once, on the statics with `cb` stored, and returns
1 whenever `LmHandlerJoin` returns; it returns nothing exactly when the activation mode is
OTAA, the MAC refuses the join request, `cb` is not NULL and deep-sleep mode is on. -/
theorem join_status {σ : Type} (mac : LoRaMac σ) (callback : Bool) (w : World σ) :
    (mac.NetworkActivation w.mac ≠ .ACTIVATION_TYPE_NONE →
      join mac callback w = .ret 0
        { w with loraJoinCb := callback,
                 trace := w.trace ++ [.LoRaMacMibGetRequestConfirm .MIB_NETWORK_ACTIVATION,
                                      .xSemaphoreGive_loraStateSem] }) ∧
    (mac.NetworkActivation w.mac = .ACTIVATION_TYPE_NONE →
      join mac callback w = (LmHandlerJoin mac >>= fun _ => pure 1)
        { w with loraJoinCb := callback,
                 trace := w.trace ++ [.LoRaMacMibGetRequestConfirm .MIB_NETWORK_ACTIVATION] } ∧
      ((join mac callback w).value = some 1 ∨ (join mac callback w).value = none) ∧
      ((join mac callback w).value = none ↔
        w.LmHandlerParams.joinType = .ACTIVATION_TYPE_OTAA ∧
        (mac.MlmeRequest { Type_ := .MLME_JOIN, Datarate := some DR_0, Periodicity := none }
          w.mac).1 ≠ .LORAMAC_STATUS_OK ∧
        callback = true ∧ w.mcusleepmode = .MCU_DEEP_SLEEP)) := by
  refine ⟨join_joined mac callback w, fun h => ⟨join_not_joined mac callback w h, ?_, ?_⟩⟩
  · rw [join_not_joined mac callback w h, bind_pure_value]
    cases (LmHandlerJoin mac _).value <;> simp
  · rw [join_not_joined mac callback w h, bind_pure_value]
    rw [Option.map_eq_none', LmHandlerJoin_value]

/-- C11, amended, at a joined node (0 is returned) and at a node that is not joined and
stays awake (the call returns). -/
theorem join_status_witness :
    simpleMac.NetworkActivation (startWorld unjoinedMac).mac = .ACTIVATION_TYPE_NONE ∧
    simpleMac.NetworkActivation (startWorld joinedMac).mac ≠ .ACTIVATION_TYPE_NONE ∧
    (join simpleMac true (startWorld joinedMac)).value = some 0 ∧
    (join simpleMac true (startWorld unjoinedMac)).value ≠ none :=
  ⟨rfl, by decide,
   by rw [(join_status simpleMac true (startWorld joinedMac)).1 (by decide)]; rfl,
   fun h => absurd
     (((join_status simpleMac true (startWorld unjoinedMac)).2 rfl).2.2.mp h).2.2.2
     (by decide)⟩

/-- C11, as stated, fails: on a node that is not joined, in deep-sleep mode, whose MAC
refuses the join request, `join(cb)` does not return 1 (the MCU enters deep sleep inside
`LmHandlerJoin`). -/
theorem join_sleeps_instead_of_returning :
    simpleMac.NetworkActivation (retryWorld .MCU_DEEP_SLEEP 0).mac = .ACTIVATION_TYPE_NONE ∧
    ¬ ((join simpleMac true (retryWorld .MCU_DEEP_SLEEP 0)).value = some 1) := by
  decide

/-! ## The tx callback -/

theorem txCbCalls_packageCalls (notifyType : PackageNotifyTypes_t) (Port : Nat)
    (pkgs : List (Option LmhPackage_t)) (i : Nat) :
    txCbCalls (packageCalls notifyType Port pkgs i) = [] := by
  induction pkgs generalizing i with
  | nil => rfl
  | cons p rest ih =>
    cases p with
    | none => simpa [packageCalls] using ih (i + 1)
    | some pkg =>
      simp only [packageCalls, txCbCalls, List.filter_append]
      have := ih (i + 1)
      simp only [txCbCalls] at this
      rw [this]
      split_ifs <;> simp [Event.isTxCb]

theorem McpsConfirm_txCbCalls {σ : Type} (mcpsConfirm : McpsConfirm_t) (w : World σ)
    (txeirp : Nat) (hCb : w.txCb = true)
    (hTx : txeirpOf w.LmHandlerParams.Region mcpsConfirm.TxPower = some txeirp) :
    txCbCalls (McpsConfirm mcpsConfirm w).world.trace = txCbCalls w.trace ++
      [.txCb mcpsConfirm.AckReceived (toInt8 mcpsConfirm.Datarate) (toInt8 txeirp)
        (toUint8 mcpsConfirm.Channel)] := by
  simp only [McpsConfirm, OnTxData, eval_txeirp, LmHandlerPackagesNotify, bind_apply,
    pure_apply, getWorld_apply, modifyWorld_apply, emit_apply, ite_apply, hCb, hTx]
  simp only [if_true, Res.world, txCbCalls, List.filter_append]
  have := txCbCalls_packageCalls .PACKAGE_MCPS_CONFIRM 0 w.LmHandlerPackages 0
  simp only [txCbCalls] at this
  rw [this]
  cases mcpsConfirm.AckReceived <;> simp [Event.isTxCb]

/-- C12 fails on the code.  The MLME confirm of a join request, delivered to a node that has
not sent any data frame, invokes the user's tx callback once, with the values left in
`TxParams` (no acknowledgement, DR_0, 16 dBm, channel 0): `MlmeConfirm` calls `OnTxData`,
which does not look at `IsMcpsConfirm`.  For the MCPS confirm `ackedConfirm` the callback
is invoked once with that confirm's values. -/
theorem MlmeConfirm_fires_tx_callback :
    txCbCalls (MlmeConfirm simpleMac (joinConfirm .LORAMAC_EVENT_INFO_STATUS_OK)
      (startWorld unjoinedMac)).world.trace = [.txCb false 0 16 0] ∧
    txCbCalls (McpsConfirm ackedConfirm (startWorld joinedMac)).world.trace =
      [.txCb true 3 14 2] := by
  decide

/-! ## `setSubBand` -/

theorem chanSelected_lt (mask : List Nat) (h : mask.length ≤ 6) (ch : Nat)
    (hs : chanSelected mask ch = true) : ch < 96 := by
  by_contra hge
  have h6 : mask.length ≤ ch / 16 := by omega
  simp [chanSelected, List.getD, List.getElem?_eq_none h6] at hs

theorem us915_mask_selects (s : Nat) (h1 : 1 ≤ s) (h8 : s ≤ 8) :
    ∀ ch < 96, chanSelected ((([0, 0, 0, 0, 0, 0] : List Nat).set
        (Int.tdiv ((s : Int) - 1) 2).toNat
        (if Int.tmod ((s : Int) - 1) 2 ≠ 0 then 0xFF00 else 0x00FF)).set 4
          (toUint16 (2 ^ ((s : Int) - 1).toNat))) ch = true ↔
      (8 * (s - 1) ≤ ch ∧ ch ≤ 8 * (s - 1) + 7) ∨ ch = 63 + s := by
  interval_cases s <;> decide

theorem cn470_mask_selects (s : Nat) (h1 : 1 ≤ s) (h12 : s ≤ 12) :
    ∀ ch < 96, chanSelected (([0, 0, 0, 0, 0, 0] : List Nat).set
        (Int.tdiv ((s : Int) - 1) 2).toNat
        (if Int.tmod ((s : Int) - 1) 2 ≠ 0 then 0xFF00 else 0x00FF)) ch = true ↔
      (8 * (s - 1) ≤ ch ∧ ch ≤ 8 * (s - 1) + 7) := by
  interval_cases s <;> decide

/-- C13.  For region US915 or AU915 and `1 ≤ s ≤ 8`, `setSubBand(s)` returns true and hands
one and the same 6-word mask to the three `RegionCommonChanMaskCopy` calls that write
`ChannelsDefaultMask`, `ChannelsMask` and `ChannelsMaskRemaining`; that mask selects exactly
the channels `8(s-1) .. 8(s-1)+7` and the channel `63+s`, all below
`US915_MAX_NB_CHANNELS`.  For CN470 and `1 ≤ s ≤ 12` the mask selects exactly the channels
`8(s-1) .. 8(s-1)+7`, all below 96. -/
theorem setSubBand_selects_sub_band {σ : Type} (mac : LoRaMac σ) (w : World σ) (s : Nat) :
    ((mac.Nvm w.mac).Region = .LORAMAC_REGION_US915 ∨
        (mac.Nvm w.mac).Region = .LORAMAC_REGION_AU915 → 1 ≤ s → s ≤ 8 →
      ∃ mask : List Nat, mask.length = 6 ∧
        setSubBand mac s w = .ret true
          { w with
            mac := mac.SetNvm
              { mac.Nvm w.mac with
                ChannelsDefaultMask :=
                  mac.RegionCommonChanMaskCopy (mac.Nvm w.mac).ChannelsDefaultMask mask 6,
                ChannelsMask :=
                  mac.RegionCommonChanMaskCopy (mac.Nvm w.mac).ChannelsMask mask 6,
                ChannelsMaskRemaining :=
                  mac.RegionCommonChanMaskCopy (mac.Nvm w.mac).ChannelsMaskRemaining mask 6 }
              w.mac,
            trace := w.trace ++ [.LoRaMacMibGetRequestConfirm .MIB_NVM_CTXS] } ∧
        (∀ ch, chanSelected mask ch = true ↔
          (8 * (s - 1) ≤ ch ∧ ch ≤ 8 * (s - 1) + 7) ∨ ch = 63 + s) ∧
        (∀ ch, chanSelected mask ch = true → ch < US915_MAX_NB_CHANNELS)) ∧
    ((mac.Nvm w.mac).Region = .LORAMAC_REGION_CN470 → 1 ≤ s → s ≤ 12 →
      ∃ mask : List Nat, mask.length = 6 ∧
        setSubBand mac s w = .ret true
          { w with
            mac := mac.SetNvm
              { mac.Nvm w.mac with
                ChannelsDefaultMask :=
                  mac.RegionCommonChanMaskCopy (mac.Nvm w.mac).ChannelsDefaultMask mask 6,
                ChannelsMask :=
                  mac.RegionCommonChanMaskCopy (mac.Nvm w.mac).ChannelsMask mask 6,
                ChannelsMaskRemaining :=
                  mac.RegionCommonChanMaskCopy (mac.Nvm w.mac).ChannelsMaskRemaining mask 6 }
              w.mac,
            trace := w.trace ++ [.LoRaMacMibGetRequestConfirm .MIB_NVM_CTXS] } ∧
        (∀ ch, chanSelected mask ch = true ↔ (8 * (s - 1) ≤ ch ∧ ch ≤ 8 * (s - 1) + 7)) ∧
        (∀ ch, chanSelected mask ch = true → ch < CN470_MAX_NB_CHANNELS)) := by
  constructor
  · intro hr h1 h8
    have hsel : ∀ ch, chanSelected ((([0, 0, 0, 0, 0, 0] : List Nat).set
        (Int.tdiv ((s : Int) - 1) 2).toNat
        (if Int.tmod ((s : Int) - 1) 2 ≠ 0 then 0xFF00 else 0x00FF)).set 4
          (toUint16 (2 ^ ((s : Int) - 1).toNat))) ch = true ↔
        (8 * (s - 1) ≤ ch ∧ ch ≤ 8 * (s - 1) + 7) ∨ ch = 63 + s := by
      intro ch
      by_cases hch : ch < 96
      · exact us915_mask_selects s h1 h8 ch hch
      · constructor
        · intro hs
          exact absurd (chanSelected_lt _ (by simp) ch hs) hch
        · intro hs
          omega
    refine ⟨_, ?_, ?_, hsel, ?_⟩
    · simp
    · have hk : ¬ ((s : Int) - 1 < 0) := by omega
      have h8n : ¬ (s > 8) := by omega
      simp only [setSubBand, setSubBand_write, setSubBand_nvm, LoRaMacMibGetRequestConfirm,
        bind_apply]
      rcases hr with hr | hr <;> simp only [hr, h8n, hk, if_false]
    · intro ch hs
      have := (hsel ch).mp hs
      simp only [US915_MAX_NB_CHANNELS]
      omega
  · intro hr h1 h12
    have hsel : ∀ ch, chanSelected (([0, 0, 0, 0, 0, 0] : List Nat).set
        (Int.tdiv ((s : Int) - 1) 2).toNat
        (if Int.tmod ((s : Int) - 1) 2 ≠ 0 then 0xFF00 else 0x00FF)) ch = true ↔
        (8 * (s - 1) ≤ ch ∧ ch ≤ 8 * (s - 1) + 7) := by
      intro ch
      by_cases hch : ch < 96
      · exact cn470_mask_selects s h1 h12 ch hch
      · constructor
        · intro hs
          exact absurd (chanSelected_lt _ (by simp) ch hs) hch
        · intro hs
          omega
    refine ⟨_, ?_, ?_, hsel, ?_⟩
    · simp
    · have h12n : ¬ (s > 12) := by omega
      simp only [setSubBand, setSubBand_write, setSubBand_nvm, LoRaMacMibGetRequestConfirm,
        bind_apply]
      simp only [hr, h12n, if_false]
    · intro ch hs
      have := (hsel ch).mp hs
      simp only [CN470_MAX_NB_CHANNELS]
      omega

/-- C13 at sub-band 2 of a US915 device: the call returns true, and with the mask copy of
`simpleMac` the three masks then select channels 8 .. 15 and 65. -/
theorem setSubBand_selects_sub_band_witness :
    (simpleMac.Nvm (startWorld us915Mac).mac).Region = .LORAMAC_REGION_US915 ∧
    (1 ≤ 2 ∧ 2 ≤ 8) ∧
    (setSubBand simpleMac 2 (startWorld us915Mac)).value = some true ∧
    (setSubBand simpleMac 2 (startWorld us915Mac)).world.mac.Nvm.ChannelsMask =
      [0xFF00, 0, 0, 0, 0x0002, 0] :=
  ⟨rfl, by decide,
   by obtain ⟨mask, _, hrun, _⟩ :=
        (setSubBand_selects_sub_band simpleMac (startWorld us915Mac) 2).1 (Or.inl rfl)
          (by decide) (by decide)
      rw [hrun]; rfl,
   by decide⟩

/-! ## `init` on US915 -/

theorem init_us915_guard {σ : Type} (mac : LoRaMac σ) (w : World σ)
    (dataRate txEirp : Int) (adr dutyCycle : Bool)
    (hr : w.LmHandlerParams.Region = .LORAMAC_REGION_US915)
    (hd : dataRate = DR_5 ∨ dataRate = DR_6 ∨ dataRate = DR_7) :
    init mac dataRate txEirp adr dutyCycle w =
      .ret false { w with trace := w.trace ++ [.SX126xIOInit] } := by
  simp only [init, bind_apply, pure_apply, getWorld_apply, modifyWorld_apply, emit_apply,
    ite_apply]
  simp [hr, hd]

/-- C14 fails on the code.  In a US915 build `init(DR_8, 22, false, false)`, with a datarate
outside `US915_TX_MIN_DATARATE .. US915_TX_MAX_DATARATE`, returns true: the tasks are
created, `LoRaMacInitialization` is called and `LmHandlerParams.TxDatarate` becomes `DR_8`.
Only `DR_5`, `DR_6` and `DR_7` are refused (`init_us915_guard`). -/
theorem init_accepts_DR_8_on_US915 :
    ¬ (US915_TX_MIN_DATARATE ≤ DR_8 ∧ DR_8 ≤ US915_TX_MAX_DATARATE) ∧
    (init simpleMac DR_8 22 false false (us915World unjoinedMac)).value = some true ∧
    (init simpleMac DR_8 22 false false (us915World unjoinedMac)).world.LmHandlerParams.TxDatarate
      = DR_8 ∧
    Event.taskLoad ∈ (init simpleMac DR_8 22 false false (us915World unjoinedMac)).world.trace ∧
    Event.LoRaMacInitialization .LORAMAC_REGION_US915 ∈
      (init simpleMac DR_8 22 false false (us915World unjoinedMac)).world.trace := by
  decide

/-! ## `LmHandlerRequestClass` -/

/-- C15 fails on the code.  With the device in class C, `LmHandlerRequestClass(CLASS_B)`
returns `LORAMAC_HANDLER_SUCCESS`, issues an `MLME_DEVICE_TIME` request and sets
`IsClassBSwitchPending`; with the device in class B, `LmHandlerRequestClass(CLASS_C)` sets
`MIB_DEVICE_CLASS` to C and fires `OnClassChange(CLASS_C)` (it returns
`LORAMAC_HANDLER_ERROR`). -/
theorem LmHandlerRequestClass_switches_between_B_and_C :
    (LmHandlerRequestClass simpleMac .CLASS_B
        (startWorld { joinedMac with Class := .CLASS_C })).value =
      some .LORAMAC_HANDLER_SUCCESS ∧
    (LmHandlerRequestClass simpleMac .CLASS_B
        (startWorld { joinedMac with Class := .CLASS_C })).world.IsClassBSwitchPending = true ∧
    (LmHandlerRequestClass simpleMac .CLASS_B
        (startWorld { joinedMac with Class := .CLASS_C })).world.trace.filter
          Event.isMlmeRequest =
      [.LoRaMacMlmeRequest { Type_ := .MLME_DEVICE_TIME, Datarate := none, Periodicity := none }] ∧
    (LmHandlerRequestClass simpleMac .CLASS_C
        (startWorld { joinedMac with Class := .CLASS_B })) =
      .ret .LORAMAC_HANDLER_ERROR
        { startWorld { joinedMac with Class := .CLASS_C } with
          trace := [.LoRaMacMibGetRequestConfirm .MIB_DEVICE_CLASS,
                    .LoRaMacMibSetRequestConfirm (.MIB_DEVICE_CLASS .CLASS_C),
                    .OnClassChange .CLASS_C] } := by
  decide

theorem LmHandlerRequestClass_same_class {σ : Type} (mac : LoRaMac σ) (w : World σ) :
    LmHandlerRequestClass mac (mac.Class w.mac) w = .ret .LORAMAC_HANDLER_SUCCESS
      { w with trace := w.trace ++ [.LoRaMacMibGetRequestConfirm .MIB_DEVICE_CLASS] } := by
  simp only [LmHandlerRequestClass, LoRaMacMibGetRequestConfirm, bind_apply, pure_apply,
    getWorld_apply, ite_apply]
  simp

/-! ## Timers -/

theorem TimerStart_IsRunning (obj : TimerEvent_t) (t : Timers) :
    (TimerStart obj t).map (fun r => TimerIsStarted r.1) =
      (TimerStart obj t).map (fun _ => obj.IsRunning) := by
  unfold TimerStart TimerIsStarted
  split_ifs <;> rfl

theorem TimerStop_IsRunning (obj : TimerEvent_t) (t : Timers) :
    (TimerStop obj t).map (fun r => TimerIsStarted r.1) =
      (TimerStop obj t).map (fun _ => obj.IsRunning) := by
  unfold TimerStop TimerIsStarted
  split_ifs <;> rfl

theorem TimerGetElapsedTime_zero (millis : Nat) :
    TimerGetElapsedTime millis 0 = millis % 2 ^ 32 := by
  simp only [TimerGetElapsedTime, Nat.zero_mod, Nat.sub_zero]
  omega

/-- C16 fails on the code.  A timer initialised by `TimerInit` from a zeroed object and then
started reports `TimerIsStarted = false`; a timer whose `IsRunning` field holds true still
reports true after `TimerStop`.  `TimerIsStarted` returns the field `IsRunning`, which
`TimerInit`, `TimerStart` and `TimerStop` never write. -/
theorem TimerIsStarted_ignores_TimerStart_and_TimerStop :
    ((TimerStart (TimerInit zeroTimer 77 Timers.initial).1
        (TimerInit zeroTimer 77 Timers.initial).2).map fun r => TimerIsStarted r.1) =
      some false ∧
    ((TimerStop { (TimerInit zeroTimer 77 Timers.initial).1 with IsRunning := true }
        (TimerInit zeroTimer 77 Timers.initial).2).map fun r => TimerIsStarted r.1) =
      some true := by
  decide

/-- C17 fails on the code.  With the millisecond clock at 5000, `TimerGetElapsedTime(0)`
returns 5000, not 0: the function returns `millis() - past` for every `past`
(`TimerGetElapsedTime_zero`). -/
theorem TimerGetElapsedTime_of_zero_is_the_clock :
    TimerGetElapsedTime 5000 0 = 5000 := by
  decide

/-! ## `LmHandlerInit` when the MAC does not initialise -/

theorem LmHandlerInit_failed {σ : Type} (mac : LoRaMac σ) (w : World σ)
    (h : (mac.Initialization w.LmHandlerParams.Region w.mac).1 ≠ .LORAMAC_STATUS_OK) :
    LmHandlerInit mac w = .ret .LORAMAC_HANDLER_ERROR
      { w with IsClassBSwitchPending := false,
               mac := (mac.Initialization w.LmHandlerParams.Region w.mac).2,
               trace := w.trace ++ [.LoRaMacInitialization w.LmHandlerParams.Region] } := by
  simp only [LmHandlerInit, LoRaMacInitialization, bind_apply, pure_apply, getWorld_apply,
    modifyWorld_apply, ite_apply]
  simp [h]

/-- C18.  If `LoRaMacInitialization` returns a status other than `LORAMAC_STATUS_OK`,
`LmHandlerInit` returns `LORAMAC_HANDLER_ERROR` and the only call it has made is
`LoRaMacInitialization`: no MIB get or set, no `LoRaMacStart`, no
`OnNetworkParametersChange`.  `LoRaWAN_Node::init` then returns false, for all its
arguments, and makes none of those calls either. -/
theorem LmHandlerInit_mac_initialization_failed {σ : Type} (mac : LoRaMac σ) (w : World σ)
    (dataRate txEirp : Int) (adr dutyCycle : Bool)
    (h : (mac.Initialization w.LmHandlerParams.Region w.mac).1 ≠ .LORAMAC_STATUS_OK) :
    LmHandlerInit mac w = .ret .LORAMAC_HANDLER_ERROR
      { w with IsClassBSwitchPending := false,
               mac := (mac.Initialization w.LmHandlerParams.Region w.mac).2,
               trace := w.trace ++ [.LoRaMacInitialization w.LmHandlerParams.Region] } ∧
    (init mac dataRate txEirp adr dutyCycle w).value = some false ∧
    (init mac dataRate txEirp adr dutyCycle w).world.trace.filter Event.isSetupCall =
      w.trace.filter Event.isSetupCall := by
  refine ⟨LmHandlerInit_failed mac w h, ?_⟩
  simp only [init, bind_apply, pure_apply, getWorld_apply, modifyWorld_apply, emit_apply,
    ite_apply]
  by_cases hr : w.LmHandlerParams.Region = .LORAMAC_REGION_US915 ∧
      (dataRate = DR_5 ∨ dataRate = DR_6 ∨ dataRate = DR_7)
  · obtain ⟨hr1, hr2⟩ := hr
    simp [hr1, hr2, Res.value, Res.world, Event.isSetupCall]
  · by_cases hr1 : w.LmHandlerParams.Region = .LORAMAC_REGION_US915
    · have hr2 : ¬ (dataRate = DR_5 ∨ dataRate = DR_6 ∨ dataRate = DR_7) :=
        fun h2 => hr ⟨hr1, h2⟩
      simp only [hr1, hr2, if_true, if_false, bind_apply, pure_apply]
      rw [LmHandlerInit_failed]
      · simp [Res.value, Res.world, Event.isSetupCall]
      · rw [← hr1]; exact h
    · simp only [hr1, if_false, bind_apply, pure_apply]
      rw [LmHandlerInit_failed]
      · simp [Res.value, Res.world, Event.isSetupCall]
      · exact h

/-- C18 at a MAC that answers `LORAMAC_STATUS_REGION_NOT_SUPPORTED`. -/
theorem LmHandlerInit_mac_initialization_failed_witness :
    (simpleMac.Initialization (startWorld unsupportedMac).LmHandlerParams.Region
        (startWorld unsupportedMac).mac).1 ≠ .LORAMAC_STATUS_OK ∧
    (LmHandlerInit simpleMac (startWorld unsupportedMac)).value =
      some .LORAMAC_HANDLER_ERROR ∧
    (init simpleMac 3 16 false false (startWorld unsupportedMac)).value = some false :=
  ⟨by decide,
   by rw [(LmHandlerInit_mac_initialization_failed simpleMac (startWorld unsupportedMac)
        3 16 false false (by decide)).1]; rfl,
   (LmHandlerInit_mac_initialization_failed simpleMac (startWorld unsupportedMac)
      3 16 false false (by decide)).2.1⟩

/-! ## Payload encryption -/

theorem xor_keystream_twice (buffer : List Nat) (ks : Nat → Nat) :
    (List.range buffer.length).map (fun i =>
      ((List.range buffer.length).map (fun j => buffer.getD j 0 ^^^ ks j)).getD i 0 ^^^ ks i)
      = buffer := by
  apply List.ext_getElem
  · simp
  · intro i h1 h2
    have hi : i < buffer.length := by simpa using h1
    simp [List.getD, hi, Nat.xor_assoc]

/-- C19.  For every payload, key, address, direction and frame counter,
`LoRaMacPayloadDecrypt` applied with the same key, address, direction and counter to the
output of `LoRaMacPayloadEncrypt` gives the payload back, and so does a second
`LoRaMacPayloadEncrypt`. -/
theorem LoRaMacPayload_round_trip (keyStream : List Nat → Nat → Nat → Nat → Nat → Nat)
    (buffer key : List Nat) (address dir sequenceCounter : Nat) :
    LoRaMacPayloadDecrypt keyStream
        (LoRaMacPayloadEncrypt keyStream buffer buffer.length key address dir sequenceCounter)
        buffer.length key address dir sequenceCounter = buffer ∧
    LoRaMacPayloadEncrypt keyStream
        (LoRaMacPayloadEncrypt keyStream buffer buffer.length key address dir sequenceCounter)
        buffer.length key address dir sequenceCounter = buffer := by
  constructor <;>
    exact xor_keystream_twice buffer (fun i => keyStream key address dir sequenceCounter i % 256)

/-! ## The empty compliance slot -/

/-- C20 fails on the code.  With no package registered, an OK downlink with the
frame-pending bit set, received by a joined class A device, ends in a NULL pointer access
inside `LmHandlerSend` (`LmHandlerPackages[PACKAGE_ID_COMPLIANCE]->IsRunning()`): no MCPS
request is handed to the MAC.  `LmHandlerIsBusy` makes the same access. -/
theorem empty_compliance_slot_is_dereferenced :
    (McpsIndication simpleMac pendingDownlink (bareWorld joinedMac)).value = none ∧
    mcpsRequests (McpsIndication simpleMac pendingDownlink (bareWorld joinedMac)).world.trace
      = [] ∧
    LmHandlerSend simpleMac { Buffer := NULL, BufferSize := 0, Port := 0 }
        .LORAMAC_HANDLER_UNCONFIRMED_MSG (bareWorld joinedMac) =
      .stop .nullPointer { bareWorld joinedMac with
        trace := [.LoRaMacMibGetRequestConfirm .MIB_NETWORK_ACTIVATION] } ∧
    LmHandlerIsBusy simpleMac (bareWorld joinedMac) =
      .stop .nullPointer { bareWorld joinedMac with
        trace := [.LoRaMacIsBusy, .LoRaMacMibGetRequestConfirm .MIB_NETWORK_ACTIVATION] } := by
  decide

/-! ## NULL slots of the callback table -/

/-- C21 fails on the code.  The table of `DFRobot_LoRaWAN.cpp` holds `NULL` in the slots
`OnSysTimeUpdate` and `OnBeaconStatusChange`, and the handler calls both without a test: an
OK downlink with `DeviceTimeAnsReceived` set, an `MLME_BEACON` indication (beacon locked or
not) and an `MLME_BEACON_LOST` indication each end in a call through a NULL pointer. -/
theorem null_callback_slots_are_called :
    LmHandlerCallbacks .OnSysTimeUpdate = false ∧
    LmHandlerCallbacks .OnBeaconStatusChange = false ∧
    (McpsIndication simpleMac timeAnsDownlink (startWorld joinedMac)).why =
      some .nullPointer ∧
    (MlmeIndication simpleMac
      (mlmeIndication .MLME_BEACON .LORAMAC_EVENT_INFO_STATUS_BEACON_LOCKED)
      (startWorld joinedMac)).why = some .nullPointer ∧
    (MlmeIndication simpleMac
      (mlmeIndication .MLME_BEACON .LORAMAC_EVENT_INFO_STATUS_BEACON_NOT_FOUND)
      (startWorld joinedMac)).why = some .nullPointer ∧
    (MlmeIndication simpleMac
      (mlmeIndication .MLME_BEACON_LOST .LORAMAC_EVENT_INFO_STATUS_BEACON_LOST)
      (startWorld joinedMac)).why = some .nullPointer := by
  decide


/-! ## `setSubBand` outside the sub-band range -/

theorem setSubBand_rejects {σ : Type} (mac : LoRaMac σ) (w : World σ) (s : Nat)
    (h : ((mac.Nvm w.mac).Region = .LORAMAC_REGION_CN470 ∧ 12 < s) ∨
      (((mac.Nvm w.mac).Region = .LORAMAC_REGION_US915 ∨
        (mac.Nvm w.mac).Region = .LORAMAC_REGION_AU915) ∧ 8 < s) ∨
      ((mac.Nvm w.mac).Region ≠ .LORAMAC_REGION_CN470 ∧
        (mac.Nvm w.mac).Region ≠ .LORAMAC_REGION_US915 ∧
        (mac.Nvm w.mac).Region ≠ .LORAMAC_REGION_AU915)) :
    setSubBand mac s w = .ret false
      { w with trace := w.trace ++ [.LoRaMacMibGetRequestConfirm .MIB_NVM_CTXS] } := by
  simp only [setSubBand, setSubBand_write, setSubBand_nvm, LoRaMacMibGetRequestConfirm,
    bind_apply]
  rcases h with ⟨hr, hs⟩ | ⟨hr | hr, hs⟩ | ⟨h1, h2, h3⟩
  · simp [hr, hs]
  · simp [hr, hs]
  · simp [hr, hs]
  · cases hreg : (mac.Nvm w.mac).Region <;> simp_all

/-- C22 fails on the code.  `setSubBand(0)` is not refused: on a CN470 device it returns true
and replaces the channel masks by `0xFF00, 0, 0, 0, 0, 0`; on a US915 device it goes on to
evaluate `1 << (subBand - 1)` with a shift count of -1, which has no defined result.  The
sub-bands above the range and the other regions are refused (`setSubBand_rejects`). -/
theorem setSubBand_accepts_sub_band_0 :
    (setSubBand simpleMac 0 (startWorld cn470Mac)).value = some true ∧
    (setSubBand simpleMac 0 (startWorld cn470Mac)).world.mac.Nvm.ChannelsMask =
      [0xFF00, 0, 0, 0, 0, 0] ∧
    (startWorld cn470Mac).mac.Nvm.ChannelsMask ≠ [0xFF00, 0, 0, 0, 0, 0] ∧
    (setSubBand simpleMac 0 (startWorld us915Mac)).why = some .undefinedBehaviour := by
  decide


/-! ## `LmHandlerInit` with a restored session -/

/-- C23.  If `LoRaMacInitialization` succeeds and the MAC then reports a network activation
other than `ACTIVATION_TYPE_NONE`, `LmHandlerInit` returns `LORAMAC_HANDLER_SUCCESS` and the
only calls it has made are `LoRaMacInitialization` and the MIB get of
`MIB_NETWORK_ACTIVATION`: no MIB set request, no `OnNetworkParametersChange`; the MAC state
is the one `LoRaMacInitialization` left. -/
theorem LmHandlerInit_restored_session {σ : Type} (mac : LoRaMac σ) (w : World σ)
    (hInit : (mac.Initialization w.LmHandlerParams.Region w.mac).1 = .LORAMAC_STATUS_OK)
    (hAct : mac.NetworkActivation (mac.Initialization w.LmHandlerParams.Region w.mac).2 ≠
      .ACTIVATION_TYPE_NONE) :
    LmHandlerInit mac w = .ret .LORAMAC_HANDLER_SUCCESS
      { w with IsClassBSwitchPending := false,
               mac := (mac.Initialization w.LmHandlerParams.Region w.mac).2,
               trace := w.trace ++ [.LoRaMacInitialization w.LmHandlerParams.Region,
                                    .LoRaMacMibGetRequestConfirm .MIB_NETWORK_ACTIVATION] } := by
  simp only [LmHandlerInit, LoRaMacInitialization, LoRaMacMibGetRequestConfirm, bind_apply,
    pure_apply, getWorld_apply, modifyWorld_apply, ite_apply]
  simp [hInit, hAct]

/-- C23 at a node whose MAC has kept an OTAA session. -/
theorem LmHandlerInit_restored_session_witness :
    (simpleMac.Initialization (startWorld joinedMac).LmHandlerParams.Region
        (startWorld joinedMac).mac).1 = .LORAMAC_STATUS_OK ∧
    (LmHandlerInit simpleMac (startWorld joinedMac)).value = some .LORAMAC_HANDLER_SUCCESS :=
  ⟨by decide,
   by rw [LmHandlerInit_restored_session simpleMac (startWorld joinedMac) (by decide)
        (by decide)]; rfl⟩


/-! ## EIRP and TX power index -/

theorem getTxEirp_run {σ : Type} (mac : LoRaMac σ) (w : World σ) :
    getTxEirp mac w = eval_txeirp (mac.ChannelsTxPower w.mac)
      { w with trace := w.trace ++ [.LoRaMacMibGetRequestConfirm .MIB_CHANNELS_TX_POWER] } := by
  simp only [getTxEirp, LoRaMacMibGetRequestConfirm, bind_apply, getWorld_apply]

/-- C24.  For every EIRP `e` listed in `txpowerEirpEU868`, `isEirpValid` returns true with a
TX power index `p` such that `e = 16 - 2p`, and the lookup of `getTxEirp` and `OnTxData` at
`p` gives `e` again; likewise for `txpowerEirpUS915` with `e = 30 - 2p`.  The lookup reads
inside the table for every power index 0..7 (EU868) and 0..14 (US915). -/
theorem eirp_round_trip :
    (∀ e ∈ txpowerEirpEU868.map Prod.snd, ∃ p : Nat,
      isEirpValid txpowerEirpEU868 (getTxpowerEirpRowNum .LORAMAC_REGION_EU868) e = (true, p) ∧
      e + 2 * p = 16 ∧ txeirpOf .LORAMAC_REGION_EU868 p = some e) ∧
    (∀ e ∈ txpowerEirpUS915.map Prod.snd, ∃ p : Nat,
      isEirpValid txpowerEirpUS915 (getTxpowerEirpRowNum .LORAMAC_REGION_US915) e = (true, p) ∧
      e + 2 * p = 30 ∧ txeirpOf .LORAMAC_REGION_US915 p = some e) ∧
    (∀ p : Nat, p ≤ 7 → (txeirpOf .LORAMAC_REGION_EU868 p).isSome = true) ∧
    (∀ p : Nat, p ≤ 14 → (txeirpOf .LORAMAC_REGION_US915 p).isSome = true) := by
  refine ⟨?_, ?_, ?_, ?_⟩
  · intro e he
    simp only [txpowerEirpEU868, List.map, List.mem_cons, List.mem_singleton, List.not_mem_nil,
      or_false] at he
    rcases he with h | h | h | h | h | h | h | h <;> subst h <;>
      exact ⟨_, rfl, by decide, by decide⟩
  · intro e he
    simp only [txpowerEirpUS915, List.map, List.mem_cons, List.mem_singleton, List.not_mem_nil,
      or_false] at he
    rcases he with h | h | h | h | h | h | h | h | h | h | h <;> subst h <;>
      exact ⟨_, rfl, by decide, by decide⟩
  · intro p hp
    interval_cases p <;> decide
  · intro p hp
    interval_cases p <;> decide

/-- C24 at 14 dBm on EU868. -/
theorem eirp_round_trip_witness :
    14 ∈ txpowerEirpEU868.map Prod.snd ∧
    ∃ p : Nat,
      isEirpValid txpowerEirpEU868 (getTxpowerEirpRowNum .LORAMAC_REGION_EU868) 14 = (true, p) ∧
      14 + 2 * p = 16 ∧ txeirpOf .LORAMAC_REGION_EU868 p = some 14 :=
  ⟨by decide, eirp_round_trip.1 14 (by decide)⟩


/-! ## `TimerInit` -/

theorem TimerInit_find_lowest (inUse : List Bool) (i : Nat) (hi : i < 10)
    (hfree : inUse.getD i true = false) (hlow : ∀ j < i, inUse.getD j true = true) :
    TimerInit_find inUse 0 = some i := by
  have hr : (List.range 10).drop 0 = [0, 1, 2, 3, 4, 5, 6, 7, 8, 9] := by decide
  simp only [TimerInit_find, hr]
  simp only [List.getD_eq_getElem?_getD] at hfree hlow ⊢
  interval_cases i <;> simp [List.find?, hfree, hlow]

theorem TimerInit_find_full (inUse : List Bool) (hfull : ∀ j < 10, inUse.getD j true = true) :
    TimerInit_find inUse 0 = none := by
  have hr : (List.range 10).drop 0 = [0, 1, 2, 3, 4, 5, 6, 7, 8, 9] := by decide
  simp only [TimerInit_find, hr]
  simp only [List.getD_eq_getElem?_getD] at hfull ⊢
  simp [List.find?, hfull]

theorem TimerInit_lowest (obj : TimerEvent_t) (callback : Nat) (t : Timers) (i : Nat)
    (hi : i < 10) (hfree : t.timerInUse.getD i true = false)
    (hlow : ∀ j < i, t.timerInUse.getD j true = true) :
    TimerInit obj callback t =
      ({ obj with timerNum := i, Callback := callback },
       { t with timerInUse := t.timerInUse.set i true }) := by
  simp only [TimerInit, TimerInit_find_lowest t.timerInUse i hi hfree hlow]

theorem TimerInit_full (obj : TimerEvent_t) (callback : Nat) (t : Timers)
    (hfull : ∀ j < 10, t.timerInUse.getD j true = true) :
    TimerInit obj callback t = (obj, t) := by
  simp only [TimerInit, TimerInit_find_full t.timerInUse hfull]

theorem TimerInit_each_from (calls : List (TimerEvent_t × Nat)) (t : Timers) (k : Nat)
    (hinv : ∀ j < 10, t.timerInUse.getD j true = decide (j < k)) :
    (TimerInit_each calls t).1 = (calls.enumFrom k).map fun c =>
      if c.1 < 10 then { c.2.1 with timerNum := c.1, Callback := c.2.2 } else c.2.1 := by
  induction calls generalizing t k with
  | nil => rfl
  | cons c rest ih =>
    obtain ⟨obj, callback⟩ := c
    simp only [TimerInit_each, List.enumFrom_cons, List.map_cons]
    by_cases hk : k < 10
    · have hfree : t.timerInUse.getD k true = false := by simpa using hinv k hk
      have hlow : ∀ j < k, t.timerInUse.getD j true = true := by
        intro j hj
        simpa [hj] using hinv j (by omega)
      rw [TimerInit_lowest obj callback t k hk hfree hlow]
      simp only [hk, if_true]
      congr 1
      apply ih
      intro j hj
      have hlen : k < t.timerInUse.length := by
        by_contra hlen
        simp [List.getD, List.getElem?_eq_none (Nat.le_of_not_lt hlen)] at hfree
      by_cases hjk : j = k
      · subst hjk
        simp [List.getD, List.getElem?_set, hlen]
      · have := hinv j hj
        simp only [List.getD_eq_getElem?_getD] at this ⊢
        rw [List.getElem?_set_ne (Ne.symm hjk), this]
        simp only [decide_eq_decide]
        omega
    · have hfull : ∀ j < 10, t.timerInUse.getD j true = true := by
        intro j hj
        simpa [show j < k by omega] using hinv j hj
      rw [TimerInit_full obj callback t hfull]
      simp only [hk, if_false]
      congr 1
      apply ih
      intro j hj
      rw [hfull j hj]
      simp; omega

/-- C25.  `TimerInit` gives the timer the lowest-numbered slot not in use and marks it in
use; when the ten slots are in use it leaves the timer object and the arrays unchanged.
Starting from the initial arrays, call number `k` (from 0) of any sequence of `TimerInit`
calls stores slot `k` and its callback while `k < 10`, so the first ten timers get the
distinct slots 0..9 in order, and every later call leaves its timer object unchanged. -/
theorem TimerInit_lowest_free_slot :
    (∀ (obj : TimerEvent_t) (callback : Nat) (t : Timers) (i : Nat), i < 10 →
      t.timerInUse.getD i true = false → (∀ j < i, t.timerInUse.getD j true = true) →
      TimerInit obj callback t =
        ({ obj with timerNum := i, Callback := callback },
         { t with timerInUse := t.timerInUse.set i true })) ∧
    (∀ (obj : TimerEvent_t) (callback : Nat) (t : Timers),
      (∀ j < 10, t.timerInUse.getD j true = true) → TimerInit obj callback t = (obj, t)) ∧
    (∀ calls : List (TimerEvent_t × Nat),
      (TimerInit_each calls Timers.initial).1 = (calls.enumFrom 0).map fun c =>
        if c.1 < 10 then { c.2.1 with timerNum := c.1, Callback := c.2.2 } else c.2.1) := by
  refine ⟨TimerInit_lowest, TimerInit_full, fun calls => ?_⟩
  apply TimerInit_each_from
  intro j hj
  interval_cases j <;> rfl

/-- C25 at the first `TimerInit` after start-up and at twelve calls in a row. -/
theorem TimerInit_lowest_free_slot_witness :
    TimerInit zeroTimer 77 Timers.initial =
      ({ zeroTimer with timerNum := 0, Callback := 77 },
       { Timers.initial with timerInUse := Timers.initial.timerInUse.set 0 true }) ∧
    ((TimerInit_each (List.replicate 12 (zeroTimer, 77)) Timers.initial).1.map
        fun obj => (obj.timerNum, obj.Callback)) =
      [(0, 77), (1, 77), (2, 77), (3, 77), (4, 77), (5, 77), (6, 77), (7, 77), (8, 77),
       (9, 77), (0, 0), (0, 0)] :=
  ⟨TimerInit_lowest_free_slot.1 zeroTimer 77 Timers.initial 0 (by decide) rfl
     (fun j hj => absurd hj (Nat.not_lt_zero j)),
   by rw [TimerInit_lowest_free_slot.2.2]; rfl⟩


/-! ## `SX126xWaitOnBusy` -/

theorem SX126xWaitOnBusy_loop_le (busy : Nat → Bool) (t : Nat) (i : Nat) :
    (SX126xWaitOnBusy_loop busy (t : Int) i).delays ≤ i + t + 1 := by
  induction t generalizing i with
  | zero =>
    rw [SX126xWaitOnBusy_loop]
    split_ifs <;> simp_all
  | succ t ih =>
    rw [SX126xWaitOnBusy_loop]
    split_ifs with h1 h2
    · simp
    · have : ((t + 1 : Nat) : Int) - 1 = (t : Int) := by push_cast; ring
      rw [this]
      have := ih (i + 1)
      omega
    · simp; omega

theorem SX126xWaitOnBusy_loop_low (busy : Nat → Bool) (t : Nat) (i k : Nat)
    (hhigh : ∀ j, i ≤ j → j < k → busy j = true) (hlow : busy k = false) (hik : i ≤ k)
    (hk : k ≤ i + t) :
    SX126xWaitOnBusy_loop busy (t : Int) i = { delays := k, timedOut := false } := by
  induction t generalizing i with
  | zero =>
    have : i = k := by omega
    subst this
    rw [SX126xWaitOnBusy_loop]
    simp [hlow]
  | succ t ih =>
    rw [SX126xWaitOnBusy_loop]
    by_cases hi : i = k
    · subst hi
      simp [hlow]
    · have hb : busy i = true := hhigh i (le_refl _) (by omega)
      have h2 : ¬ (((t + 1 : Nat) : Int) - 1 < 0) := by push_cast; omega
      have h3 : ((t + 1 : Nat) : Int) - 1 = (t : Int) := by push_cast; ring
      simp only [hb, if_true, h2, if_false]
      rw [h3]
      exact ih (i + 1) (fun j h1 h2 => hhigh j (by omega) h2) (by omega) (by omega)

theorem SX126xWaitOnBusy_loop_high (busy : Nat → Bool) (t : Nat) (i : Nat)
    (hhigh : ∀ j, i ≤ j → j ≤ i + t → busy j = true) :
    SX126xWaitOnBusy_loop busy (t : Int) i = { delays := i + t + 1, timedOut := true } := by
  induction t generalizing i with
  | zero =>
    rw [SX126xWaitOnBusy_loop]
    simp [hhigh i (le_refl _) (by omega)]
  | succ t ih =>
    rw [SX126xWaitOnBusy_loop]
    have hb : busy i = true := hhigh i (le_refl _) (by omega)
    have h2 : ¬ (((t + 1 : Nat) : Int) - 1 < 0) := by push_cast; omega
    have h3 : ((t + 1 : Nat) : Int) - 1 = (t : Int) := by push_cast; ring
    simp only [hb, if_true, h2, if_false]
    rw [h3, ih (i + 1) (fun j h1 h2 => hhigh j (by omega) (by omega))]
    simp; omega

/-- C26.  `SX126xWaitOnBusy` returns for every behaviour of the BUSY line, after at most
1001 delays of one millisecond: if the first read of BUSY that is low is read number `k`,
`k ≤ 1000`, it returns right then, after `k` delays; if the first 1001 reads are high it
returns through the timeout after 1001 delays. -/
theorem SX126xWaitOnBusy_terminates (busy : Nat → Bool) :
    (SX126xWaitOnBusy busy).delays ≤ 1001 ∧
    (∀ k, k ≤ 1000 → (∀ j < k, busy j = true) → busy k = false →
      SX126xWaitOnBusy busy = { delays := k, timedOut := false }) ∧
    ((∀ j ≤ 1000, busy j = true) →
      SX126xWaitOnBusy busy = { delays := 1001, timedOut := true }) := by
  refine ⟨?_, ?_, ?_⟩
  · have := SX126xWaitOnBusy_loop_le busy 1000 0
    simpa [SX126xWaitOnBusy] using this
  · intro k hk hhigh hlow
    have := SX126xWaitOnBusy_loop_low busy 1000 0 k (fun j _ h => hhigh j h) hlow
      (Nat.zero_le _) (by omega)
    simpa [SX126xWaitOnBusy] using this
  · intro hhigh
    have := SX126xWaitOnBusy_loop_high busy 1000 0 (fun j _ h => hhigh j (by omega))
    simpa [SX126xWaitOnBusy] using this

/-- C26 at a BUSY line that is high for five reads and low afterwards. -/
theorem SX126xWaitOnBusy_terminates_witness :
    SX126xWaitOnBusy (fun i => decide (i < 5)) = { delays := 5, timedOut := false } :=
  (SX126xWaitOnBusy_terminates (fun i => decide (i < 5))).2.1 5 (by decide)
    (fun j hj => by simp [hj]) (by simp)


/-! ## Rx1 datarates of US915 -/

/-- C27.  For every uplink datarate `dr` in `DR_0 .. DR_4` and every Rx1 datarate offset `k`
in 0..3, `DatarateOffsetsUS915[dr][k]` is `min(DR_13, max(DR_8, DR_10 + dr - k))`; it lies in
`US915_RX_MIN_DATARATE .. US915_RX_MAX_DATARATE` and the entries of `DataratesUS915`,
`BandwidthsUS915` and `MaxPayloadOfDatarateUS915` at that index are not zero. -/
theorem DatarateOffsetsUS915_formula (dr k : Nat) (hdr : dr ≤ 4)
    (hk : k ≤ US915_MAX_RX1_DR_OFFSET) :
    ∃ rx1 : Int,
      (DatarateOffsetsUS915.get? dr).bind (fun row => row.get? k) = some rx1 ∧
      rx1 = min DR_13 (max DR_8 (DR_10 + dr - k)) ∧
      US915_RX_MIN_DATARATE ≤ rx1 ∧ rx1 ≤ US915_RX_MAX_DATARATE ∧
      (∃ sf, tableAt DataratesUS915 rx1 = some sf ∧ sf ≠ 0) ∧
      (∃ bw, tableAt BandwidthsUS915 rx1 = some bw ∧ bw ≠ 0) ∧
      (∃ len, tableAt MaxPayloadOfDatarateUS915 rx1 = some len ∧ len ≠ 0) := by
  simp only [US915_MAX_RX1_DR_OFFSET] at hk
  interval_cases dr <;> interval_cases k <;>
    exact ⟨_, rfl, by decide, by decide, by decide, ⟨_, rfl, by decide⟩, ⟨_, rfl, by decide⟩,
      ⟨_, rfl, by decide⟩⟩

/-- C27 at uplink datarate `DR_2` and offset 1. -/
theorem DatarateOffsetsUS915_formula_witness :
    ∃ rx1 : Int,
      (DatarateOffsetsUS915.get? 2).bind (fun row => row.get? 1) = some rx1 ∧
      rx1 = min DR_13 (max DR_8 (DR_10 + (2 : Nat) - (1 : Nat))) ∧
      US915_RX_MIN_DATARATE ≤ rx1 ∧ rx1 ≤ US915_RX_MAX_DATARATE ∧
      (∃ sf, tableAt DataratesUS915 rx1 = some sf ∧ sf ≠ 0) ∧
      (∃ bw, tableAt BandwidthsUS915 rx1 = some bw ∧ bw ≠ 0) ∧
      (∃ len, tableAt MaxPayloadOfDatarateUS915 rx1 = some len ∧ len ≠ 0) :=
  DatarateOffsetsUS915_formula 2 1 (by decide) (by decide)


/-! ## `DFRobot_GDL::write` -/

theorem getUtf_8Bytes_loop_bounds (b : Nat) (left i num : Nat) (h : 1 ≤ num) :
    1 ≤ (getUtf_8Bytes_loop b left i num).1 ∧
      (getUtf_8Bytes_loop b left i num).1 ≤ num + left := by
  induction left generalizing i num with
  | zero => simp [getUtf_8Bytes_loop, h]
  | succ left ih =>
    simp only [getUtf_8Bytes_loop]
    split_ifs with h1 h2
    · have := ih (i + 1) (num + 1) (by omega)
      omega
    · omega
    · simp only; omega

theorem getUtf_8Bytes_pos (b : Nat) : 1 ≤ getUtf_8Bytes b := by
  simp only [getUtf_8Bytes]
  split_ifs with h
  · omega
  · have hb : 1 ≤ (getUtf_8Bytes_loop b 7 0 0).1 ∧ (getUtf_8Bytes_loop b 7 0 0).1 ≤ 7 := by
      by_cases h1 : b &&& (0x80 >>> 0) ≠ 0
      · have := getUtf_8Bytes_loop_bounds b 6 (0 + 1) (0 + 1) (le_refl _)
        rw [getUtf_8Bytes_loop, if_pos h1]
        omega
      · rw [getUtf_8Bytes_loop, if_neg h1]
        simp
    simp only [toUint8]
    omega

theorem write_loop_isSome (mem : Nat → Nat) (fuel pos size : Nat) (r : GdlWrite)
    (h : size ≤ fuel) : (write_loop mem fuel pos size r).isSome = true := by
  induction fuel generalizing pos size r with
  | zero =>
    have : size = 0 := by omega
    subst this
    simp [write_loop]
  | succ fuel ih =>
    cases size with
    | zero => simp [write_loop]
    | succ size =>
      simp only [write_loop]
      have hp := getUtf_8Bytes_pos (mem pos)
      split_ifs
      · exact ih _ _ _ (by omega)
      · exact ih _ _ _ (by omega)
      · exact ih _ _ _ (by omega)
      · exact ih _ _ _ (by omega)

theorem write_isSome (mem : Nat → Nat) (size : Nat) : (write mem size).isSome = true :=
  write_loop_isSome mem size 0 size _ (le_refl _)

/-- C28 fails on the code.  For the one-byte string `0xE4` (the lead byte of a three-byte
sequence) `write(buffer, 1)` reads `buffer[1]` and `buffer[2]` and returns 3; for the
one-byte strings `0x80` and `0xFF` it returns 255 and 7. -/
theorem write_reads_past_size :
    write (memOf [0xE4]) 1 = some { n := 3, reads := [0, 0, 1, 2], shown := [0x4000] } ∧
    write (memOf [0x80]) 1 = some { n := 255, reads := [0], shown := [0] } ∧
    write (memOf [0xFF]) 1 = some { n := 7, reads := [0], shown := [0] } := by
  decide


end DFRobot
